import Mathlib

/-! Qualcomm sensor registry server, sensor manager client and fuel gauge.

A shallow embedding of three drivers of the repository:

* `drivers/soc/qcom/qcom_sns_reg.c`: the registry server, which answers
  group requests by slicing the loaded `sns.reg` firmware blob;
* `drivers/iio/common/qcom_smgr/qcom_smgr.c`: the sensor manager client,
  which negotiates the sample rate and issues buffering requests;
* `drivers/power/supply/qcom_fg.c`: the fuel gauge, of which the state of
  charge and the status derived from it are embedded.

Conventions of the embedding.  Machine integers are natural numbers (or
integers for signed values), with the conversions of the C code written out
where a value changes type.  A C pointer that may be NULL is an `Option`.
Functions that touch memory return an `Option` whose `none` stands for an
access outside the object (undefined behaviour in C); every other outcome is
`some`.  What a function hands to the transport is returned as a list of the
messages passed to the send primitive, in order.
-/

set_option autoImplicit false

namespace QcomSnsReg

/-! ## Registry server: data model -/

/-- Length of the `data` field of a group response, `SNS_REG_GROUP_DATA_MAX_LEN`. -/
def SNS_REG_GROUP_DATA_MAX_LEN : Nat := 0x100

/-- Modelled from the spec: the two QMI result codes `QMI_RESULT_SUCCESS_V01`
and `QMI_RESULT_FAILURE_V01` are declared in `linux/soc/qcom/qmi.h`, which is
not among the sources; the spec only tells a success result from a failure
result, and so does this type. -/
inductive qmi_result_type_v01 where
  | QMI_RESULT_SUCCESS_V01
  | QMI_RESULT_FAILURE_V01
deriving DecidableEq, Repr

/-- The decoded request, `struct sns_reg_group_req`; `id` is an unsigned short. -/
structure sns_reg_group_req where
  id : Nat
deriving DecidableEq, Repr

/-- The response, `struct sns_reg_group_resp`: `result`, `id` and `data_len`
are unsigned shorts, `data` is an array of `SNS_REG_GROUP_DATA_MAX_LEN` bytes. -/
structure sns_reg_group_resp where
  result : qmi_result_type_v01
  id : Nat
  data_len : Nat
  data : List Nat
deriving DecidableEq, Repr

/-- One row of the table, `struct group_map_entry`: `group_id` and `offset`
are unsigned shorts, `size` is a `size_t`. -/
structure group_map_entry where
  group_id : Nat
  offset : Nat
  size : Nat
deriving DecidableEq, Repr

/-- The static table `group_map`, its zero-filled sentinel included as the last row. -/
def group_map : List group_map_entry := [
    ⟨0, 0x0000, 0x018⟩,
    ⟨10, 0x0800, 0x018⟩,
    ⟨1000, 0x0a00, 0x003⟩,
    ⟨1010, 0x0c00, 0x003⟩,
    ⟨1020, 0x0d00, 0x003⟩,
    ⟨1040, 0x0100, 0x080⟩,
    ⟨2000, 0x0200, 0x010⟩,
    ⟨2002, 0x0400, 0x018⟩,
    ⟨2050, 0x1100, 0x00c⟩,
    ⟨2620, 0x0e00, 0x024⟩,
    ⟨2630, 0x0f00, 0x018⟩,
    ⟨2640, 0x1000, 0x00a⟩,
    ⟨2670, 0x1500, 0x010⟩,
    ⟨2690, 0x1700, 0x100⟩,
    ⟨2692, 0x1800, 0x100⟩,
    ⟨2693, 0x1900, 0x100⟩,
    ⟨2694, 0x1a00, 0x100⟩,
    ⟨2695, 0x1b00, 0x100⟩,
    ⟨2696, 0x1c00, 0x100⟩,
    ⟨2698, 0x2700, 0x100⟩,
    ⟨2699, 0x2d00, 0x100⟩,
    ⟨2700, 0x1d00, 0x0e0⟩,
    ⟨2800, 0x1f00, 0x022⟩,
    ⟨2900, 0x2000, 0x004⟩,
    ⟨2910, 0x2100, 0x004⟩,
    ⟨2920, 0x2200, 0x004⟩,
    ⟨2930, 0x2300, 0x004⟩,
    ⟨2940, 0x2400, 0x024⟩,
    ⟨2950, 0x2500, 0x008⟩,
    ⟨2960, 0x2800, 0x004⟩,
    ⟨3000, 0x2e00, 0x100⟩,
    ⟨3010, 0x3100, 0x100⟩,
    ⟨3020, 0x3500, 0x100⟩,
    ⟨3040, 0x3a00, 0x014⟩,
    ⟨3070, 0x3c00, 0x00c⟩,
    ⟨3080, 0x3f00, 0x05a⟩,
    ⟨3090, 0x6000, 0x014⟩,
    ⟨3300, 0x4200, 0x00e⟩,
    ⟨3301, 0x4300, 0x00e⟩,
    ⟨3302, 0x4400, 0x00e⟩,
    ⟨3303, 0x4500, 0x00e⟩,
    ⟨3304, 0x4600, 0x00e⟩,
    ⟨3305, 0x4700, 0x00e⟩,
    ⟨3306, 0x4800, 0x00e⟩,
    ⟨3307, 0x4900, 0x00e⟩,
    ⟨3308, 0x4a00, 0x00e⟩,
    ⟨3309, 0x4b00, 0x00e⟩,
    ⟨3310, 0x4c00, 0x00e⟩,
    ⟨3311, 0x4d00, 0x00e⟩,
    ⟨3312, 0x4e00, 0x00e⟩,
    ⟨3313, 0x4f00, 0x00e⟩,
    ⟨3314, 0x5000, 0x00e⟩,
    ⟨3315, 0x5100, 0x00e⟩,
    ⟨3316, 0x5200, 0x00e⟩,
    ⟨3317, 0x5300, 0x00e⟩,
    ⟨3318, 0x5400, 0x00e⟩,
    ⟨3319, 0x5500, 0x00e⟩,
    ⟨3320, 0x5600, 0x00e⟩,
    ⟨3321, 0x5700, 0x00e⟩,
    ⟨3322, 0x5800, 0x00e⟩,
    ⟨3323, 0x5900, 0x00e⟩,
    ⟨3324, 0x5a00, 0x00e⟩,
    ⟨3325, 0x5b00, 0x00e⟩,
    ⟨3326, 0x5c00, 0x00e⟩,
    ⟨3327, 0x5d00, 0x00e⟩,
    ⟨3328, 0x5e00, 0x00e⟩,
    ⟨3329, 0x5f00, 0x00e⟩,
    ⟨3400, 0x6100, 0x01c⟩,
    ⟨0, 0, 0⟩ ]

/-- Conversion of the unsigned short `req->id` to the `short` parameter of
`group_map_entry_by_id`: values from 0x8000 on become negative. -/
def u16_to_short (x : Nat) : Int :=
  if x % 65536 < 32768 then ((x % 65536 : Nat) : Int) else ((x % 65536 : Nat) : Int) - 65536

/-- The loop of `group_map_entry_by_id`, run on the rows from the current
index on.  A row with `size` zero ends the scan with NULL (`some none`); a row
whose `group_id`, promoted to `int`, equals `gid` is returned.  Running out of
rows means the loop indexed past the end of the array (`none`). -/
def group_map_scan (gid : Int) : List group_map_entry → Option (Option group_map_entry)
  | [] => none
  | entry :: rest =>
    if entry.size ≠ 0 then
      if (entry.group_id : Int) = gid then some (some entry) else group_map_scan gid rest
    else some none

/-- The lookup `group_map_entry_by_id(short gid)`, starting at index 0 of `group_map`. -/
def group_map_entry_by_id (gid : Int) : Option (Option group_map_entry) :=
  group_map_scan gid group_map

/-- The target remote processor, `enum sns_reg_target_rproc`. -/
inductive sns_reg_target_rproc where
  | NOT_SUPPORTED
  | RPROC_ADSP
  | RPROC_SLPI
deriving DecidableEq, Repr

/-- A loaded firmware blob, `struct firmware`: the bytes `data`; the field
`size` of the C structure is the number of bytes. -/
structure firmware where
  data : List Nat
deriving DecidableEq, Repr

/-- The field `size` of `struct firmware`. -/
def firmware.size (fw : firmware) : Nat := fw.data.length

/-- The singleton session, `struct qcom_sns_reg_data`: the reference count,
the device used for logging, the publish flag, the firmware pointer (NULL
when no blob is loaded), the target processor and the notifier cookie. -/
structure qcom_sns_reg_data where
  refcnt : Nat
  first_auxdev : Option Nat
  qmi_svc_started : Bool
  fw : Option firmware
  target_rproc : sns_reg_target_rproc
  ssr_cookie : Option Nat
deriving DecidableEq, Repr

/-! ## Registry server: serving a group -/

/-- The call `memcpy(dst, src + off, n)` on byte arrays: the first `n` bytes
of `dst` are replaced by `src[off .. off + n)`.  It is `none` when the source
range leaves `src` or when `dst` has fewer than `n` bytes. -/
def memcpy (dst src : List Nat) (off n : Nat) : Option (List Nat) :=
  if off + n ≤ src.length ∧ n ≤ dst.length then
    some ((src.drop off).take n ++ dst.drop n)
  else none

/-- What one run of the request handler did: the responses it passed to
`qmi_send_response`, in order, and the indices of the firmware blob it read. -/
structure handler_effects where
  sent : List sns_reg_group_resp
  fw_reads : List Nat
deriving DecidableEq, Repr

/-- The handler `qcom_sns_reg_get_group_req_handler`, run on the session
`data` (the global `__qcom_sns_reg_data`) and the decoded request `req`.
`kzalloc_ok` tells whether the allocation of the response succeeded: when it
fails the handler returns before anything is sent.  The response starts
zero-filled, is given the failure result, length 0 and the requested id, and
is turned into a success only when the group is mapped and the bounds check
passes; it is then sent, whatever its contents.  The length `data_len` is an
unsigned short, so the `size_t` size is reduced modulo 65536. -/
def qcom_sns_reg_get_group_req_handler (kzalloc_ok : Bool) (data : qcom_sns_reg_data)
    (req : sns_reg_group_req) : Option handler_effects :=
  match group_map_entry_by_id (u16_to_short req.id) with
  | none => none
  | some group =>
    if kzalloc_ok = false then some { sent := [], fw_reads := [] }
    else
      let rsp : sns_reg_group_resp :=
        { result := qmi_result_type_v01.QMI_RESULT_FAILURE_V01
          id := req.id
          data_len := 0
          data := List.replicate SNS_REG_GROUP_DATA_MAX_LEN 0 }
      match group with
      | none => some { sent := [rsp], fw_reads := [] }
      | some group =>
        match data.fw with
        | none => some { sent := [rsp], fw_reads := [] }
        | some fw =>
          if group.offset ≥ fw.size ∨ group.offset + group.size ≥ fw.size then
            some { sent := [rsp], fw_reads := [] }
          else
            match memcpy rsp.data fw.data group.offset group.size with
            | none => none
            | some copied =>
              some { sent := [{ rsp with
                                result := qmi_result_type_v01.QMI_RESULT_SUCCESS_V01
                                data_len := group.size % 65536
                                data := copied }]
                     fw_reads := List.range' group.offset group.size }

end QcomSnsReg

namespace QcomSmgr

/-! ## Sensor manager client: data model -/

/-- The constant `SMGR_TICKS_PER_SECOND`. -/
def SMGR_TICKS_PER_SECOND : Nat := 32768

/-- The constant `SMGR_REPORT_RATE_HZ`, defined as `(SMGR_TICKS_PER_SECOND * 2)`. -/
def SMGR_REPORT_RATE_HZ : Nat := SMGR_TICKS_PER_SECOND * 2

/-- The errno value behind `-EREMOTEIO` (declared in the kernel errno header). -/
def EREMOTEIO : Int := 121

/-- The sensor kinds, `enum qcom_smgr_sensor_type`. -/
inductive qcom_smgr_sensor_type where
  | SNS_SMGR_SENSOR_TYPE_UNKNOWN
  | SNS_SMGR_SENSOR_TYPE_ACCEL
  | SNS_SMGR_SENSOR_TYPE_GYRO
  | SNS_SMGR_SENSOR_TYPE_MAG
  | SNS_SMGR_SENSOR_TYPE_PROX_LIGHT
  | SNS_SMGR_SENSOR_TYPE_PRESSURE
  | SNS_SMGR_SENSOR_TYPE_HALL_EFFECT
deriving DecidableEq, Repr

/-- The data-type slots of a sensor, `enum qcom_smgr_data_type`. -/
inductive qcom_smgr_data_type where
  | SNS_SMGR_DATA_TYPE_PRIMARY
  | SNS_SMGR_DATA_TYPE_SECONDARY
deriving DecidableEq, Repr

/-- One data-type item, `struct qcom_smgr_data_type_item`.  `range` is a u32,
`native_sample_rate_count` a `size_t`, `native_sample_rates` a pointer to an
array of u16 (NULL when no array was stored), `max_sample_rate` and
`cur_sample_rate` are u16. -/
structure qcom_smgr_data_type_item where
  name : String
  vendor : String
  range : Nat
  native_sample_rate_count : Nat
  native_sample_rates : Option (List Nat)
  max_sample_rate : Nat
  cur_sample_rate : Nat
deriving DecidableEq, Repr

/-- One sensor, `struct qcom_smgr_sensor`.  `id` and `data_type_count` are u8,
`data_types` points to the array of items (NULL before the metadata query),
`iio_dev` is the attached consumer (NULL when none is attached). -/
structure qcom_smgr_sensor where
  id : Nat
  type : qcom_smgr_sensor_type
  data_type_count : Nat
  data_types : Option (List qcom_smgr_data_type_item)
  iio_dev : Option Nat
deriving DecidableEq, Repr

/-- Modelled from the spec: the buffering actions of `qmi/sns_smgr.h`, a
header that is not among the sources; the spec lists the two actions ADD and
DELETE of the buffering control message. -/
inductive sns_smgr_buffering_action where
  | SNS_SMGR_BUFFERING_ACTION_ADD
  | SNS_SMGR_BUFFERING_ACTION_DELETE
deriving DecidableEq, Repr

/-- Modelled from the spec: one item of a buffering request, declared in the
absent header `qmi/sns_smgr.h`.  The fields are the ones the client assigns;
the spec names `sensor_id`, `data_type` and `sampling_rate` (a u16). -/
structure sns_smgr_buffering_req_item where
  sensor_id : Nat
  data_type : qcom_smgr_data_type
  sampling_rate : Nat
  val1 : Nat
  val2 : Nat
deriving DecidableEq, Repr

/-- Modelled from the spec: the buffering request of the absent header
`qmi/sns_smgr.h`, with the fields the client assigns: `report_id` (u8),
`action`, `report_rate` (u32), `item_len` and the items.  `items` holds the
first `item_len` elements of the C array, the ones put on the wire; the
elements after them stay zero-filled. -/
structure sns_smgr_buffering_req where
  report_id : Nat
  notify_suspend_valid : Bool
  action : sns_smgr_buffering_action
  report_rate : Nat
  item_len : Nat
  items : List sns_smgr_buffering_req_item
deriving DecidableEq, Repr

/-! ## Sensor manager client: buffering requests -/

/-- A product computed in the C type `int` (32 bits, wrapping as the kernel is
built with `-fno-strict-overflow`). -/
def wrap_s32 (x : Int) : Int := (x + 2147483648) % 4294967296 - 2147483648

/-- Conversion of an `int` to a u32 field: reduction modulo 2^32. -/
def int_to_u32 (x : Int) : Nat := (x % 4294967296).toNat

/-- The read `sensor->data_types[0]`; `none` when the pointer is NULL or the
array has no element. -/
def data_types_0 (sensor : qcom_smgr_sensor) : Option qcom_smgr_data_type_item :=
  match sensor.data_types with
  | some (dt :: _) => some dt
  | _ => none

/-- The first assignment to the local `sample_rate` in the enable path: it
starts at 0 and, when the pointer `native_sample_rates` is not NULL, becomes
the element at index `native_sample_rate_count - 1`.  With a count of 0 the
`size_t` index wraps to the largest value, which is outside every array; the
result is then `none`, as for any index outside the stored array. -/
def native_sample_rate_last (dt : qcom_smgr_data_type_item) : Option Nat :=
  match dt.native_sample_rates with
  | none => some 0
  | some rates =>
    if dt.native_sample_rate_count = 0 then none
    else rates[dt.native_sample_rate_count - 1]?

/-- The second assignment to `sample_rate`: a rate of 0, or one above
`max_sample_rate`, is replaced by `max_sample_rate`. -/
def clamp_sample_rate (sample_rate max_sample_rate : Nat) : Nat :=
  if sample_rate = 0 ∨ sample_rate > max_sample_rate then max_sample_rate else sample_rate

/-- The first half of `qcom_smgr_request_buffering`: the request `req` and the
local `sample_rate` as they stand when the transaction is opened.  The
request starts as `{ .report_id = sensor->id, .notify_suspend_valid = false }`
with every other field zero.  The product `sample_rate * SMGR_REPORT_RATE_HZ`
is computed in `int` and stored in the u32 field `report_rate`. -/
def qcom_smgr_request_buffering_req (sensor : qcom_smgr_sensor) (enable : Bool) :
    Option (sns_smgr_buffering_req × Nat) :=
  if enable then
    match data_types_0 sensor with
    | none => none
    | some dt =>
      match native_sample_rate_last dt with
      | none => none
      | some last =>
        let sample_rate := clamp_sample_rate last dt.max_sample_rate
        some ({ report_id := sensor.id
                notify_suspend_valid := false
                action := sns_smgr_buffering_action.SNS_SMGR_BUFFERING_ACTION_ADD
                report_rate := int_to_u32 (wrap_s32 ((sample_rate : Int) * (SMGR_REPORT_RATE_HZ : Int)))
                item_len := 1
                items := [{ sensor_id := sensor.id
                            data_type := qcom_smgr_data_type.SNS_SMGR_DATA_TYPE_PRIMARY
                            sampling_rate := sample_rate
                            val1 := 3
                            val2 := 1 }] }, sample_rate)
  else
    some ({ report_id := sensor.id
            notify_suspend_valid := false
            action := sns_smgr_buffering_action.SNS_SMGR_BUFFERING_ACTION_DELETE
            report_rate := 0
            item_len := 0
            items := [] }, 0)

/-- What the transaction engine does with one request: the return values of
`qmi_txn_init`, `qmi_send_request` and `qmi_txn_wait`, and the field
`result` of the decoded response (read only after a successful wait). -/
structure qmi_txn_outcome where
  txn_init_ret : Int
  send_request_ret : Int
  txn_wait_ret : Int
  resp_result : Nat
deriving DecidableEq, Repr

/-- What one call of `qcom_smgr_request_buffering` did: its return value, the
sensor as it is left, and the requests passed to `qmi_send_request`. -/
structure buffering_effects where
  ret : Int
  sensor : qcom_smgr_sensor
  sent : List sns_smgr_buffering_req
deriving DecidableEq, Repr

/-- The write `sensor->data_types[0].cur_sample_rate = sample_rate`. -/
def set_cur_sample_rate (sensor : qcom_smgr_sensor) (sample_rate : Nat) :
    Option qcom_smgr_sensor :=
  match sensor.data_types with
  | some (dt :: rest) =>
    some { sensor with data_types := some ({ dt with cur_sample_rate := sample_rate } :: rest) }
  | _ => none

/-- The function `qcom_smgr_request_buffering`.  After the request is built
the transaction is opened, the request sent and the response awaited; each
step returns its negative code at once.  A nonzero `result` gives
`-EREMOTEIO`.  Only then is `sample_rate` stored in `cur_sample_rate`, on the
enable and on the disable path alike, and 0 returned. -/
def qcom_smgr_request_buffering (txn : qmi_txn_outcome) (sensor : qcom_smgr_sensor)
    (enable : Bool) : Option buffering_effects :=
  match qcom_smgr_request_buffering_req sensor enable with
  | none => none
  | some (req, sample_rate) =>
    if txn.txn_init_ret < 0 then
      some { ret := txn.txn_init_ret, sensor := sensor, sent := [] }
    else if txn.send_request_ret < 0 then
      some { ret := txn.send_request_ret, sensor := sensor, sent := [req] }
    else if txn.txn_wait_ret < 0 then
      some { ret := txn.txn_wait_ret, sensor := sensor, sent := [req] }
    else if txn.resp_result ≠ 0 then
      some { ret := - EREMOTEIO, sensor := sensor, sent := [req] }
    else
      match set_cur_sample_rate sensor sample_rate with
      | none => none
      | some sensor1 => some { ret := 0, sensor := sensor1, sent := [req] }

end QcomSmgr

namespace QcomSnsReg

/-! ## Registry server: concrete sessions -/

/-- A blob of 0x5000 bytes, byte `i` being `i % 256`. -/
def blob_0x5000 : firmware := { data := (List.range 0x5000).map (fun i => i % 256) }

/-- A blob of 0x205 bytes, each 0xff. -/
def blob_0x205 : firmware := { data := List.replicate 0x205 0xff }

/-- A session holding the blob of 0x5000 bytes. -/
def session_blob_0x5000 : qcom_sns_reg_data :=
  { refcnt := 1
    first_auxdev := some 0
    qmi_svc_started := true
    fw := some blob_0x5000
    target_rproc := sns_reg_target_rproc.RPROC_ADSP
    ssr_cookie := some 1 }

/-- A session holding the blob of 0x205 bytes, too short for group 2000. -/
def session_blob_0x205 : qcom_sns_reg_data :=
  { refcnt := 1
    first_auxdev := some 0
    qmi_svc_started := true
    fw := some blob_0x205
    target_rproc := sns_reg_target_rproc.RPROC_ADSP
    ssr_cookie := some 1 }

end QcomSnsReg

namespace QcomSmgr

/-! ## Sensor manager client: notions of the specification and concrete inputs -/

/-- The highest entry of a list of native sample rates, 0 for the empty list:
`max(native_sample_rates)` in the words of the specification. -/
def max_native_rate (rates : List Nat) : Nat := rates.foldr max 0

/-- A data-type item named as in the scenario of the specification, holding
the native rates `rates` and the maximum rate `max_sample_rate`; the current
rate starts at the maximum rate, as the probe leaves it. -/
def accel_item (rates : List Nat) (max_sample_rate : Nat) : qcom_smgr_data_type_item :=
  { name := "accel"
    vendor := "vendor"
    range := 65536
    native_sample_rate_count := rates.length
    native_sample_rates := if rates = [] then none else some rates
    max_sample_rate := max_sample_rate
    cur_sample_rate := max_sample_rate }

/-- The accelerometer with id 0x12 and one data-type item. -/
def accel_sensor (rates : List Nat) (max_sample_rate : Nat) : qcom_smgr_sensor :=
  { id := 0x12
    type := qcom_smgr_sensor_type.SNS_SMGR_SENSOR_TYPE_ACCEL
    data_type_count := 1
    data_types := some [accel_item rates max_sample_rate]
    iio_dev := none }

/-- A transaction that is opened, sent and answered with result 0. -/
def txn_success : qmi_txn_outcome :=
  { txn_init_ret := 0, send_request_ret := 0, txn_wait_ret := 0, resp_result := 0 }

end QcomSmgr

namespace QcomSnsReg

/-! ## Registry server: lifecycle -/

/-- The errno value behind `-ENODEV` (declared in the kernel errno header). -/
def ENODEV : Int := 19

/-- The errno value behind `-ENOMEM` (declared in the kernel errno header). -/
def ENOMEM : Int := 12

/-- Modelled from the spec: the power-state code `QCOM_SSR_AFTER_POWERUP` of
the absent header `linux/remoteproc/qcom_rproc.h`, the "processor up"
notification of the spec.  Only its identity matters; 1 is its position in
the enumeration of that header. -/
def QCOM_SSR_AFTER_POWERUP : Nat := 1

/-- The return value `NOTIFY_OK` of a notifier callback (kernel notifier header). -/
def NOTIFY_OK : Int := 1

/-- The match data of a supported SoC, `struct sns_reg_of_match_data`. -/
structure sns_reg_of_match_data where
  target_rproc : sns_reg_target_rproc
deriving DecidableEq, Repr

/-- The constant `sns_reg_target_adsp`. -/
def sns_reg_target_adsp : sns_reg_of_match_data :=
  { target_rproc := sns_reg_target_rproc.RPROC_ADSP }

/-- The constant `sns_reg_target_slpi`. -/
def sns_reg_target_slpi : sns_reg_of_match_data :=
  { target_rproc := sns_reg_target_rproc.RPROC_SLPI }

/-- A row of the SoC table: the fields `compatible` and `data` of
`struct of_device_id` that the driver fills in. -/
structure of_device_id where
  compatible : String
  data : sns_reg_of_match_data
deriving DecidableEq, Repr

/-- The table `sns_reg_supported_socs`, without its empty terminator. -/
def sns_reg_supported_socs : List of_device_id := [
    ⟨"qcom,apq8096", sns_reg_target_slpi⟩,
    ⟨"qcom,msm8226", sns_reg_target_adsp⟩,
    ⟨"qcom,msm8917", sns_reg_target_adsp⟩,
    ⟨"qcom,msm8920", sns_reg_target_adsp⟩,
    ⟨"qcom,msm8937", sns_reg_target_adsp⟩,
    ⟨"qcom,msm8940", sns_reg_target_adsp⟩,
    ⟨"qcom,msm8953", sns_reg_target_adsp⟩,
    ⟨"qcom,msm8974", sns_reg_target_adsp⟩,
    ⟨"qcom,msm8996", sns_reg_target_slpi⟩,
    ⟨"qcom,msm8998", sns_reg_target_slpi⟩,
    ⟨"qcom,sda660", sns_reg_target_adsp⟩,
    ⟨"qcom,sdm429", sns_reg_target_adsp⟩,
    ⟨"qcom,sdm439", sns_reg_target_adsp⟩,
    ⟨"qcom,sdm450", sns_reg_target_adsp⟩,
    ⟨"qcom,sdm630", sns_reg_target_adsp⟩,
    ⟨"qcom,sdm632", sns_reg_target_adsp⟩,
    ⟨"qcom,sdm636", sns_reg_target_adsp⟩,
    ⟨"qcom,sdm660", sns_reg_target_adsp⟩ ]

/-- The function `get_target_rproc`; its argument is the result of
`of_match_node(sns_reg_supported_socs, of_root)`, NULL when no row matches. -/
def get_target_rproc (of_match : Option of_device_id) : sns_reg_target_rproc :=
  match of_match with
  | none => sns_reg_target_rproc.NOT_SUPPORTED
  | some m => m.data.target_rproc

/-- The calls the lifecycle code makes into the rest of the kernel, with the
arguments and results that matter here. -/
inductive sns_reg_call where
  | request_firmware (name : String)
  | release_firmware (fw : Option firmware)
  | qcom_register_ssr_notifier (name : String)
  | qcom_unregister_ssr_notifier (cookie : Option Nat)
  | qmi_handle_init (ret : Int)
  | qmi_handle_release
  | qmi_add_server (ret : Int)
  | schedule_work
  | kfree_data
deriving DecidableEq, Repr

/-- The outcome of one `request_firmware` call: its return value and the
pointer it stores through its first argument (NULL on failure). -/
structure request_firmware_result where
  ret : Int
  fw : Option firmware
deriving DecidableEq, Repr

/-- What the rest of the kernel answers during one call of the lifecycle code:
whether `kzalloc` of the session succeeds, the row found by `of_match_node`,
the root `compatible` string (`none` when `of_property_read_string` fails),
whether the two `kasprintf` calls succeed, the outcome of `request_firmware`
per file name, the cookie or error of `qcom_register_ssr_notifier`, the
return value of `qmi_handle_init`, the last status per remote processor
(`qcom_ssr_last_status`) and the return value of `qmi_add_server`. -/
structure sns_reg_env where
  kzalloc_ok : Bool
  of_match_node : Option of_device_id
  top_compatible : Option String
  kasprintf_ok_0 : Bool
  kasprintf_ok_1 : Bool
  request_firmware : String → request_firmware_result
  register_ssr_notifier : Except Int Nat
  qmi_handle_init_ret : Int
  qcom_ssr_last_status : String → Nat
  qmi_add_server_ret : Int

/-- The function `qcom_sns_reg_qmi_service_start` on the session: the return
value, the session afterwards and the calls made. -/
def qcom_sns_reg_qmi_service_start (env : sns_reg_env) (data : qcom_sns_reg_data) :
    Int × qcom_sns_reg_data × List sns_reg_call :=
  if data.qmi_svc_started then (0, data, [])
  else
    let ret := env.qmi_add_server_ret
    if ret ≠ 0 then (ret, data, [sns_reg_call.qmi_add_server ret])
    else (ret, { data with qmi_svc_started := true }, [sns_reg_call.qmi_add_server ret])

/-- The loop of `qcom_sns_reg_load_firmware` over the remaining file names: a
NULL name is skipped, each other name is requested, the first return value 0
ends the loop; `ret` is the value in hand so far.  Every request overwrites
the firmware pointer of the session. -/
def load_firmware_loop (env : sns_reg_env) :
    List (Option String) → Int → qcom_sns_reg_data → List sns_reg_call →
    Int × qcom_sns_reg_data × List sns_reg_call
  | [], ret, data, calls => (ret, data, calls)
  | none :: rest, ret, data, calls => load_firmware_loop env rest ret data calls
  | some name :: rest, _, data, calls =>
    let r := env.request_firmware name
    let data1 := { data with fw := r.fw }
    let calls1 := calls ++ [sns_reg_call.request_firmware name]
    if r.ret = 0 then (r.ret, data1, calls1)
    else load_firmware_loop env rest r.ret data1 calls1

/-- The two file names built by `qcom_sns_reg_load_firmware`; a name is NULL
when its `kasprintf` fails, and the second name is NULL when the root
`compatible` string cannot be read. -/
def firmware_names (env : sns_reg_env) : Option String × Option String :=
  match env.top_compatible with
  | some top_compatible =>
    (if env.kasprintf_ok_0 then some ("qcom/sensors/sns.reg-" ++ top_compatible) else none,
     if env.kasprintf_ok_1 then some "qcom/sensors/sns.reg" else none)
  | none =>
    (if env.kasprintf_ok_0 then some "qcom/sensors/sns.reg" else none, none)

/-- The function `qcom_sns_reg_load_firmware`: `-ENOMEM` when either name is
NULL, otherwise the loop over the two names. -/
def qcom_sns_reg_load_firmware (env : sns_reg_env) (data : qcom_sns_reg_data) :
    Int × qcom_sns_reg_data × List sns_reg_call :=
  let fwname := firmware_names env
  if fwname.1 = none ∨ fwname.2 = none then (- ENOMEM, data, [])
  else load_firmware_loop env [fwname.1, fwname.2] 0 data []

/-- The function `qcom_sns_reg_maybe_start`: the service start is attempted
only when the target processor of the session was last seen after power-up. -/
def qcom_sns_reg_maybe_start (env : sns_reg_env) (data : qcom_sns_reg_data) :
    qcom_sns_reg_data × List sns_reg_call :=
  let adsp_started : Bool := env.qcom_ssr_last_status "lpass" = QCOM_SSR_AFTER_POWERUP
  let slpi_started : Bool := env.qcom_ssr_last_status "dsps" = QCOM_SSR_AFTER_POWERUP
  let do_start : Bool :=
    match data.target_rproc with
    | sns_reg_target_rproc.RPROC_ADSP => if adsp_started then true else false
    | sns_reg_target_rproc.RPROC_SLPI => if slpi_started then true else false
    | sns_reg_target_rproc.NOT_SUPPORTED => false
  if do_start then
    let r := qcom_sns_reg_qmi_service_start env data
    (r.2.1, r.2.2)
  else (data, [])

/-- The notifier callback `qcom_sns_reg_ssr_notify_handler`: its return value
and the calls made. -/
def qcom_sns_reg_ssr_notify_handler (action : Nat) : Int × List sns_reg_call :=
  if action = QCOM_SSR_AFTER_POWERUP then (NOTIFY_OK, [sns_reg_call.schedule_work])
  else (NOTIFY_OK, [])

/-- The label `err_cleanup` of `qcom_sns_reg_probe_once`: a loaded blob is
released and a registered notifier is unregistered. -/
def probe_once_err_cleanup (data : qcom_sns_reg_data) :
    qcom_sns_reg_data × List sns_reg_call :=
  let r1 : qcom_sns_reg_data × List sns_reg_call :=
    match data.fw with
    | some fw => ({ data with fw := none }, [sns_reg_call.release_firmware (some fw)])
    | none => (data, [])
  match r1.1.ssr_cookie with
  | some cookie =>
    ({ r1.1 with ssr_cookie := none },
      r1.2 ++ [sns_reg_call.qcom_unregister_ssr_notifier (some cookie)])
  | none => r1

/-- The part of `qcom_sns_reg_probe_once` after the target is known to be
supported, with the notifier name `target_ssr_name`. -/
def probe_once_supported (env : sns_reg_env) (target_ssr_name : String)
    (data : qcom_sns_reg_data) : Int × qcom_sns_reg_data × List sns_reg_call :=
  let l := qcom_sns_reg_load_firmware env data
  if l.1 ≠ 0 then l
  else
    let calls1 := l.2.2 ++ [sns_reg_call.qcom_register_ssr_notifier target_ssr_name]
    match env.register_ssr_notifier with
    | Except.error err =>
      let c := probe_once_err_cleanup l.2.1
      (err, c.1, calls1 ++ c.2)
    | Except.ok cookie =>
      let data2 := { l.2.1 with ssr_cookie := some cookie }
      let ret := env.qmi_handle_init_ret
      let calls2 := calls1 ++ [sns_reg_call.qmi_handle_init ret]
      if ret ≠ 0 then
        let c := probe_once_err_cleanup data2
        (ret, c.1, calls2 ++ c.2)
      else (0, data2, calls2)

/-- The function `qcom_sns_reg_probe_once` on the freshly allocated session. -/
def qcom_sns_reg_probe_once (env : sns_reg_env) (auxdev : Nat) (data : qcom_sns_reg_data) :
    Int × qcom_sns_reg_data × List sns_reg_call :=
  let data1 := { data with
    first_auxdev := some auxdev
    target_rproc := get_target_rproc env.of_match_node }
  match data1.target_rproc with
  | sns_reg_target_rproc.RPROC_ADSP => probe_once_supported env "lpass" data1
  | sns_reg_target_rproc.RPROC_SLPI => probe_once_supported env "dsps" data1
  | sns_reg_target_rproc.NOT_SUPPORTED => (- ENODEV, data1, [])

/-- The session as `kzalloc` returns it: every field zero. -/
def kzalloc_data : qcom_sns_reg_data :=
  { refcnt := 0
    first_auxdev := none
    qmi_svc_started := false
    fw := none
    target_rproc := sns_reg_target_rproc.NOT_SUPPORTED
    ssr_cookie := none }

/-- Modelled from the spec: `refcount_inc` of the absent header
`linux/refcount.h`; "subsequent attaches only increment a reference count". -/
def refcount_inc (refcnt : Nat) : Nat := refcnt + 1

/-- Modelled from the spec: `refcount_dec_and_mutex_lock` of the absent header
`linux/refcount.h`; "detach decrements the reference count; at zero" the
teardown runs.  It gives the count afterwards and whether it reached zero; a
count that is already zero is left alone. -/
def refcount_dec_and_mutex_lock (refcnt : Nat) : Nat × Bool :=
  if refcnt = 0 then (0, false)
  else if refcnt = 1 then (0, true)
  else (refcnt - 1, false)

/-- The function `qcom_sns_reg_probe` on the global pointer
`__qcom_sns_reg_data`: the return value, the pointer afterwards and the calls
made.  The first attach sets the count to 1 (`refcount_set`). -/
def qcom_sns_reg_probe (env : sns_reg_env) (auxdev : Nat) (g : Option qcom_sns_reg_data) :
    Int × Option qcom_sns_reg_data × List sns_reg_call :=
  match g with
  | none =>
    if env.kzalloc_ok = false then (- ENOMEM, none, [])
    else
      let p := qcom_sns_reg_probe_once env auxdev { kzalloc_data with refcnt := 1 }
      let m := qcom_sns_reg_maybe_start env p.2.1
      (p.1, some m.1, p.2.2 ++ m.2)
  | some data =>
    let m := qcom_sns_reg_maybe_start env { data with refcnt := refcount_inc data.refcnt }
    (0, some m.1, m.2)

/-- The function `qcom_sns_reg_remove`; `has_drvdata` tells whether the driver
data of the device is set, in which case it points to the session.  It is
`none` when the driver data is set but the session was freed. -/
def qcom_sns_reg_remove (has_drvdata : Bool) (g : Option qcom_sns_reg_data) :
    Option (Option qcom_sns_reg_data × List sns_reg_call) :=
  if has_drvdata = false then some (g, [])
  else
    match g with
    | none => none
    | some data =>
      let r := refcount_dec_and_mutex_lock data.refcnt
      if r.2 = true then
        some (none, [sns_reg_call.qcom_unregister_ssr_notifier data.ssr_cookie,
                     sns_reg_call.qmi_handle_release,
                     sns_reg_call.release_firmware data.fw,
                     sns_reg_call.kfree_data])
      else some (some { data with refcnt := r.1 }, [])

/-- The work function `qcom_sns_reg_ssr_notifier_work`; it is `none` when it
runs without a session. -/
def qcom_sns_reg_ssr_notifier_work (env : sns_reg_env) (g : Option qcom_sns_reg_data) :
    Option (Option qcom_sns_reg_data × List sns_reg_call) :=
  match g with
  | none => none
  | some data =>
    let m := qcom_sns_reg_maybe_start env data
    some (some m.1, m.2)

/-- The entry points of the lifecycle code, as the kernel may call them. -/
inductive sns_reg_op where
  | probe (env : sns_reg_env) (auxdev : Nat)
  | remove (has_drvdata : Bool)
  | ssr_notify (action : Nat)
  | ssr_notifier_work (env : sns_reg_env)

/-- One entry point run on the global pointer. -/
def sns_reg_step (g : Option qcom_sns_reg_data) :
    sns_reg_op → Option (Option qcom_sns_reg_data × List sns_reg_call)
  | sns_reg_op.probe env auxdev =>
    let p := qcom_sns_reg_probe env auxdev g
    some (p.2.1, p.2.2)
  | sns_reg_op.remove has_drvdata => qcom_sns_reg_remove has_drvdata g
  | sns_reg_op.ssr_notify action => some (g, (qcom_sns_reg_ssr_notify_handler action).2)
  | sns_reg_op.ssr_notifier_work env => qcom_sns_reg_ssr_notifier_work env g

/-- A sequence of entry points run in order, with all the calls made. -/
def sns_reg_run (g : Option qcom_sns_reg_data) :
    List sns_reg_op → Option (Option qcom_sns_reg_data × List sns_reg_call)
  | [] => some (g, [])
  | op :: rest =>
    match sns_reg_step g op with
    | none => none
    | some (g1, calls1) =>
      match sns_reg_run g1 rest with
      | none => none
      | some (g2, calls2) => some (g2, calls1 ++ calls2)

/-- A run of `qcom_sns_reg_probe` calls, one per environment, in order: the
return values, the global pointer afterwards and the calls made. -/
def probe_all (auxdev : Nat) (g : Option qcom_sns_reg_data) :
    List sns_reg_env → List Int × Option qcom_sns_reg_data × List sns_reg_call
  | [] => ([], g, [])
  | env :: rest =>
    let p := qcom_sns_reg_probe env auxdev g
    let r := probe_all auxdev p.2.1 rest
    (p.1 :: r.1, r.2.1, p.2.2 ++ r.2.2)

/-- A run of `k` calls of `qcom_sns_reg_remove` on devices whose driver data is set. -/
def remove_n (g : Option qcom_sns_reg_data) :
    Nat → Option (Option qcom_sns_reg_data × List sns_reg_call)
  | 0 => some (g, [])
  | k + 1 =>
    match qcom_sns_reg_remove true g with
    | none => none
    | some (g1, calls1) =>
      match remove_n g1 k with
      | none => none
      | some (g2, calls2) => some (g2, calls1 ++ calls2)

/-- The number of successful server registrations among some calls. -/
def count_add_server_ok (calls : List sns_reg_call) : Nat :=
  (calls.filter (fun c => c = sns_reg_call.qmi_add_server 0)).length

end QcomSnsReg

namespace QcomSnsReg

/-! ## Registry server: concrete environments -/

/-- A blob of exactly 0x210 bytes, ending where group 2000 ends. -/
def blob_0x210 : firmware := { data := List.replicate 0x210 0xff }

/-- A session holding the blob of 0x210 bytes. -/
def session_blob_0x210 : qcom_sns_reg_data :=
  { refcnt := 1
    first_auxdev := some 0
    qmi_svc_started := true
    fw := some blob_0x210
    target_rproc := sns_reg_target_rproc.RPROC_ADSP
    ssr_cookie := some 1 }

/-- A blob of four bytes. -/
def blob_tiny : firmware := { data := [1, 2, 3, 4] }

/-- An ADSP platform on which everything succeeds: only the generic file
`qcom/sensors/sns.reg` exists, and the ADSP was last seen after power-up. -/
def env_adsp_up : sns_reg_env :=
  { kzalloc_ok := true
    of_match_node := some ⟨"qcom,msm8953", sns_reg_target_adsp⟩
    top_compatible := some "xiaomi,rosy"
    kasprintf_ok_0 := true
    kasprintf_ok_1 := true
    request_firmware := fun name =>
      if name = "qcom/sensors/sns.reg" then { ret := 0, fw := some blob_tiny }
      else { ret := -2, fw := none }
    register_ssr_notifier := Except.ok 7
    qmi_handle_init_ret := 0
    qcom_ssr_last_status := fun name => if name = "lpass" then QCOM_SSR_AFTER_POWERUP else 0
    qmi_add_server_ret := 0 }

/-- The same platform when the second `kasprintf` fails. -/
def env_adsp_no_memory : sns_reg_env := { env_adsp_up with kasprintf_ok_1 := false }

/-- A platform that matches no row of the SoC table, both processors up. -/
def env_unsupported : sns_reg_env :=
  { env_adsp_up with
    of_match_node := none
    qcom_ssr_last_status := fun _ => QCOM_SSR_AFTER_POWERUP }

/-- The published session an attach on that ADSP platform installs. -/
def session_published : qcom_sns_reg_data :=
  { refcnt := 1
    first_auxdev := some 3
    qmi_svc_started := true
    fw := some blob_tiny
    target_rproc := sns_reg_target_rproc.RPROC_ADSP
    ssr_cookie := some 7 }

end QcomSnsReg

namespace QcomSmgr

/-! ## Sensor manager client: inventory, metadata and indications -/

/-- The errno value behind `-ENOMEM` (declared in the kernel errno header). -/
def ENOMEM : Int := 12

/-- The errno value behind `-ETIMEDOUT`, which `qmi_txn_wait` returns when no
response arrives within the deadline (declared in the kernel errno header). -/
def ETIMEDOUT : Int := 110

/-- The client state, `struct qcom_smgr`, reduced to the fields the code
below reads and writes: `sensor_count` (a u8) and the pointer `sensors` (NULL
until the inventory is stored). -/
structure qcom_smgr where
  sensor_count : Nat
  sensors : Option (List qcom_smgr_sensor)
deriving DecidableEq, Repr

/-- A sensor as `devm_kzalloc` returns it and the inventory fills it: id and
type set, every other field zero. -/
def new_sensor (id : Nat) (type : qcom_smgr_sensor_type) : qcom_smgr_sensor :=
  { id := id, type := type, data_type_count := 0, data_types := none, iio_dev := none }

/-- Modelled from the spec: one sample of a buffering report, declared in the
absent header `qmi/sns_smgr.h`; only its `values` are read. -/
structure sns_smgr_buffering_report_sample where
  values : List Int
deriving DecidableEq, Repr

/-- Modelled from the spec: the buffering report indication of the absent
header `qmi/sns_smgr.h`: the report identifier, the timestamp of its metadata
and the array of samples.  The array has a fixed size in C, so element 0
always exists; it is kept apart from the elements after it. -/
structure sns_smgr_buffering_report_ind where
  report_id : Nat
  timestamp : Nat
  samples_0 : sns_smgr_buffering_report_sample
  samples_rest : List sns_smgr_buffering_report_sample
deriving DecidableEq, Repr

/-- One call of `iio_push_to_buffers_with_timestamp`: the consumer, the values
and the timestamp handed over. -/
structure iio_push where
  iio_dev : Nat
  values : List Int
  timestamp : Nat
deriving DecidableEq, Repr

/-- The loop of `qcom_smgr_buffering_report_handler` from index `i` on, with
`remaining` iterations left before `i` reaches `sensor_count`.  It is `none`
when `sensors[i]` lies outside the stored array. -/
def buffering_report_loop (smgr : qcom_smgr) (ind : sns_smgr_buffering_report_ind) :
    Nat → Nat → Option (List iio_push)
  | _, 0 => some []
  | i, remaining + 1 =>
    match smgr.sensors with
    | none => none
    | some sensors =>
      match sensors[i]? with
      | none => none
      | some sensor =>
        if sensor.id ≠ ind.report_id then buffering_report_loop smgr ind (i + 1) remaining
        else
          match sensor.iio_dev with
          | none => some []
          | some iio_dev =>
            some [{ iio_dev := iio_dev
                    values := ind.samples_0.values
                    timestamp := ind.timestamp }]

/-- The handler `qcom_smgr_buffering_report_handler`: the client state after
the call and the samples pushed to consumers. -/
def qcom_smgr_buffering_report_handler (smgr : qcom_smgr)
    (ind : sns_smgr_buffering_report_ind) : Option (qcom_smgr × List iio_push) :=
  match buffering_report_loop smgr ind 0 smgr.sensor_count with
  | none => none
  | some pushes => some (smgr, pushes)

/-- Modelled from the spec: what the transaction engine and the remote answer
to the inventory query.  The response layout is declared in the absent header
`qmi/sns_smgr.h`; `items` is its count-prefixed sequence of (id, type string)
pairs, `item_len` (a u8) being the length of the list.  `sensors_alloc_ok` tells
whether `devm_kzalloc` of the sensor array succeeds, and `type_from_str` is
the absent helper `sns_smgr_sensor_type_from_str`. -/
structure all_sensor_info_env where
  txn : qmi_txn_outcome
  items : List (Nat × String)
  sensors_alloc_ok : Bool
  type_from_str : String → qcom_smgr_sensor_type

/-- The function `qcom_smgr_request_all_sensor_info`: its return value and the
pointer `*sensors` afterwards (`sensors` is its value before).  The array is
stored without a NULL check, so a failed allocation of a non-empty array is an
access through NULL (`none`). -/
def qcom_smgr_request_all_sensor_info (env : all_sensor_info_env)
    (sensors : Option (List qcom_smgr_sensor)) :
    Option (Int × Option (List qcom_smgr_sensor)) :=
  if env.txn.txn_init_ret < 0 then some (env.txn.txn_init_ret, sensors)
  else if env.txn.send_request_ret ≠ 0 then some (env.txn.send_request_ret, sensors)
  else if env.txn.txn_wait_ret < 0 then some (env.txn.txn_wait_ret, sensors)
  else if env.txn.resp_result ≠ 0 then some (- EREMOTEIO, sensors)
  else if env.items = [] then some (0, some [])
  else if env.sensors_alloc_ok = false then none
  else
    some ((env.items.length : Int),
      some (env.items.map (fun item => new_sensor item.1 (env.type_from_str item.2))))

/-- Modelled from the spec: one data-type item of the single-sensor response
of the absent header `qmi/sns_smgr.h`. -/
structure sns_smgr_single_sensor_info_data_type where
  name : String
  vendor : String
  range : Nat
  max_sample_rate_hz : Nat
deriving DecidableEq, Repr

/-- Modelled from the spec: what the transaction engine and the remote answer
to a single-sensor query.  `data_types` is the count-prefixed list of items
(`data_type_len` is its length) and `native_sample_rates` the parallel array of
rate lists (`rate_count` is the length of each; the array is zero-filled, so an
index past the list reads an empty rate list).  `data_types_alloc_ok` and
`rates_alloc_ok` tell whether `devm_kzalloc` of the item array and
`devm_kmemdup_array` of the rates of item `i` succeed. -/
structure single_sensor_info_env where
  txn : qmi_txn_outcome
  data_types : List sns_smgr_single_sensor_info_data_type
  native_sample_rates : List (List Nat)
  data_types_alloc_ok : Bool
  rates_alloc_ok : Nat → Bool

/-- A data-type item as `devm_kzalloc` returns it: every field zero. -/
def zero_data_type_item : qcom_smgr_data_type_item :=
  { name := ""
    vendor := ""
    range := 0
    native_sample_rate_count := 0
    native_sample_rates := none
    max_sample_rate := 0
    cur_sample_rate := 0 }

/-- The loop of `qcom_smgr_request_single_sensor_info` over the response items
from index `i` on: `filled` are the elements already written, `todo` the
response items left.  It returns the return value and the array as it
stands, the elements not reached being zero. -/
def fill_data_types (env : single_sensor_info_env) :
    Nat → List sns_smgr_single_sensor_info_data_type → List qcom_smgr_data_type_item →
    Int × List qcom_smgr_data_type_item
  | _, [], filled => (0, filled)
  | i, item :: todo, filled =>
    let rates := env.native_sample_rates.getD i []
    let dt : qcom_smgr_data_type_item :=
      { zero_data_type_item with
        name := item.name
        vendor := item.vendor
        range := item.range
        native_sample_rate_count := rates.length }
    if rates.length ≠ 0 then
      if env.rates_alloc_ok i = false then
        (- ENOMEM, filled ++ [dt] ++ List.replicate todo.length zero_data_type_item)
      else
        fill_data_types env (i + 1) todo
          (filled ++ [{ dt with
            native_sample_rates := some rates
            max_sample_rate := item.max_sample_rate_hz }])
    else
      fill_data_types env (i + 1) todo
        (filled ++ [{ dt with max_sample_rate := item.max_sample_rate_hz }])

/-- The function `qcom_smgr_request_single_sensor_info`: its return value and
the sensor afterwards.  The count is a u8.  An array of zero items is
allocated as a non-NULL pointer without elements. -/
def qcom_smgr_request_single_sensor_info (env : single_sensor_info_env)
    (sensor : qcom_smgr_sensor) : Int × qcom_smgr_sensor :=
  if env.txn.txn_init_ret < 0 then (env.txn.txn_init_ret, sensor)
  else if env.txn.send_request_ret < 0 then (env.txn.send_request_ret, sensor)
  else if env.txn.txn_wait_ret < 0 then (env.txn.txn_wait_ret, sensor)
  else if env.txn.resp_result ≠ 0 then (- EREMOTEIO, sensor)
  else
    let sensor1 := { sensor with data_type_count := env.data_types.length % 256 }
    if sensor1.data_type_count ≠ 0 ∧ env.data_types_alloc_ok = false then
      (- ENOMEM, { sensor1 with data_types := none })
    else
      let r := fill_data_types env 0 (env.data_types.take sensor1.data_type_count) []
      (r.1, { sensor1 with data_types := some r.2 })

/-- The calls `qcom_smgr_probe` makes, in order: the inventory query, the
metadata query of a sensor id, and the registration of a sensor. -/
inductive smgr_call where
  | request_all_sensor_info
  | request_single_sensor_info (sensor_id : Nat)
  | register_sensor (sensor : qcom_smgr_sensor)
deriving DecidableEq, Repr

/-- The inner loop of `qcom_smgr_probe` over `j`: for a sensor with at least
one data type it stores `max_sample_rate` of the first item in its
`cur_sample_rate`; it is `none` when the first item does not exist. -/
def default_sample_rate (sensor : qcom_smgr_sensor) : Option qcom_smgr_sensor :=
  if sensor.data_type_count = 0 then some sensor
  else
    match sensor.data_types with
    | some (dt :: rest) =>
      some { sensor with
        data_types := some ({ dt with cur_sample_rate := dt.max_sample_rate } :: rest) }
    | _ => none

/-- The outer loop of `qcom_smgr_probe` from index `i` on: `todo` are the
sensors `i .. sensor_count - 1`, `done` the sensors before them as they are
now.  A failed metadata query returns at once.  The result of
`qcom_smgr_register_sensor` is ignored. -/
def probe_sensors_loop (single_info : Nat → single_sensor_info_env) :
    Nat → List qcom_smgr_sensor → List qcom_smgr_sensor →
    Option (Int × List qcom_smgr_sensor × List smgr_call)
  | _, [], done => some (0, done, [])
  | i, sensor :: todo, done =>
    let r := qcom_smgr_request_single_sensor_info (single_info i) sensor
    if r.1 < 0 then
      some (r.1, done ++ [r.2] ++ todo, [smgr_call.request_single_sensor_info sensor.id])
    else
      match default_sample_rate r.2 with
      | none => none
      | some sensor1 =>
        match probe_sensors_loop single_info (i + 1) todo (done ++ [sensor1]) with
        | none => none
        | some (ret, sensors, calls) =>
          some (ret, sensors,
            [smgr_call.request_single_sensor_info sensor.id,
             smgr_call.register_sensor sensor1] ++ calls)

/-- What the rest of the kernel and the remote answer during `qcom_smgr_probe`:
whether `devm_kzalloc` of the client state succeeds, the return value of
`qmi_handle_init`, the answer to the inventory query and the answer to the
metadata query of the sensor at each index. -/
structure smgr_probe_env where
  smgr_alloc_ok : Bool
  qmi_handle_init_ret : Int
  all_info : all_sensor_info_env
  single_info : Nat → single_sensor_info_env

/-- The function `qcom_smgr_probe`: its return value, the client state (NULL
when its allocation failed) and the calls made. -/
def qcom_smgr_probe (env : smgr_probe_env) :
    Option (Int × Option qcom_smgr × List smgr_call) :=
  if env.smgr_alloc_ok = false then some (- ENOMEM, none, [])
  else
    let smgr : qcom_smgr := { sensor_count := 0, sensors := none }
    if env.qmi_handle_init_ret < 0 then some (env.qmi_handle_init_ret, some smgr, [])
    else
      match qcom_smgr_request_all_sensor_info env.all_info smgr.sensors with
      | none => none
      | some (ret, sensors) =>
        if ret < 0 then
          some (ret, some { smgr with sensors := sensors }, [smgr_call.request_all_sensor_info])
        else
          let sensor_count := ret.toNat % 256
          match sensors with
          | none => if sensor_count = 0 then
              some (0, some { sensor_count := sensor_count, sensors := none },
                [smgr_call.request_all_sensor_info])
            else none
          | some arr =>
            match probe_sensors_loop env.single_info 0 (arr.take sensor_count) [] with
            | none => none
            | some (ret1, arr1, calls) =>
              some (ret1,
                some { sensor_count := sensor_count, sensors := some (arr1 ++ arr.drop sensor_count) },
                smgr_call.request_all_sensor_info :: calls)

/-- The sensor ids whose metadata was queried, in order. -/
def queried_ids (calls : List smgr_call) : List Nat :=
  calls.filterMap (fun c =>
    match c with
    | smgr_call.request_single_sensor_info id => some id
    | _ => none)

/-- The sensor ids that were registered, in order. -/
def registered_ids (calls : List smgr_call) : List Nat :=
  calls.filterMap (fun c =>
    match c with
    | smgr_call.register_sensor sensor => some sensor.id
    | _ => none)

/-! ## Sensor manager client: concrete answers of the remote -/

/-- A transaction whose wait times out. -/
def txn_timeout : qmi_txn_outcome := { txn_success with txn_wait_ret := - ETIMEDOUT }

/-- A transaction answered with the nonzero result 1. -/
def txn_rejected : qmi_txn_outcome := { txn_success with resp_result := 1 }

/-- A metadata answer with one data type: native rates [50, 100, 200] and
maximum rate 150. -/
def single_info_accel : single_sensor_info_env :=
  { txn := txn_success
    data_types := [{ name := "accel", vendor := "vendor", range := 65536,
                     max_sample_rate_hz := 150 }]
    native_sample_rates := [[50, 100, 200]]
    data_types_alloc_ok := true
    rates_alloc_ok := fun _ => true }

/-- A metadata query that times out. -/
def single_info_timeout : single_sensor_info_env := { single_info_accel with txn := txn_timeout }

/-- An inventory of two sensors, ids 0x12 and 0x14. -/
def all_info_two : all_sensor_info_env :=
  { txn := txn_success
    items := [(0x12, "accel"), (0x14, "gyro")]
    sensors_alloc_ok := true
    type_from_str := fun s =>
      if s = "accel" then qcom_smgr_sensor_type.SNS_SMGR_SENSOR_TYPE_ACCEL
      else if s = "gyro" then qcom_smgr_sensor_type.SNS_SMGR_SENSOR_TYPE_GYRO
      else qcom_smgr_sensor_type.SNS_SMGR_SENSOR_TYPE_UNKNOWN }

/-- A probe in which the metadata query of the first sensor times out and the
query of the second sensor would succeed. -/
def probe_env_first_fails : smgr_probe_env :=
  { smgr_alloc_ok := true
    qmi_handle_init_ret := 0
    all_info := all_info_two
    single_info := fun i => if i = 0 then single_info_timeout else single_info_accel }

/-- A probe in which every query succeeds. -/
def probe_env_all_ok : smgr_probe_env :=
  { probe_env_first_fails with single_info := fun _ => single_info_accel }

/-- A probe whose inventory query is rejected by the remote. -/
def probe_env_inventory_rejected : smgr_probe_env :=
  { probe_env_all_ok with all_info := { all_info_two with txn := txn_rejected } }

/-- A probe whose inventory query times out. -/
def probe_env_inventory_timeout : smgr_probe_env :=
  { probe_env_all_ok with all_info := { all_info_two with txn := txn_timeout } }

/-- Two sensors, the second with an attached consumer 7. -/
def two_sensors : List qcom_smgr_sensor :=
  [new_sensor 0x12 qcom_smgr_sensor_type.SNS_SMGR_SENSOR_TYPE_ACCEL,
   { new_sensor 0x14 qcom_smgr_sensor_type.SNS_SMGR_SENSOR_TYPE_GYRO with iio_dev := some 7 }]

end QcomSmgr

namespace QcomSnsReg

/-! ## Registry server: environments with a failing first attach -/

/-- The ADSP platform on which `qmi_handle_init` fails with `-ENOMEM`. -/
def env_adsp_handle_init_fails : sns_reg_env := { env_adsp_up with qmi_handle_init_ret := -12 }

/-- The ADSP platform on which no firmware file exists. -/
def env_adsp_no_firmware : sns_reg_env :=
  { env_adsp_up with request_firmware := fun _ => { ret := -2, fw := none } }

/-- A session that is published while it holds no blob and no notifier
cookie. -/
def session_published_no_firmware : qcom_sns_reg_data :=
  { refcnt := 1
    first_auxdev := some 3
    qmi_svc_started := true
    fw := none
    target_rproc := sns_reg_target_rproc.RPROC_ADSP
    ssr_cookie := none }

end QcomSnsReg

namespace QcomSmgr

/-! ## Sensor manager client: writing the sampling frequency -/

/-- The errno value behind `-EINVAL` (declared in the kernel errno header). -/
def EINVAL : Int := 22

/-- Modelled from the spec: the channel attribute selectors of the absent
header `linux/iio/types.h`, `enum iio_chan_info_enum`.  The three selectors
the client names are kept apart; every other value of the `long mask` is
`other` with its number. -/
inductive iio_chan_info_enum where
  | IIO_CHAN_INFO_SAMP_FREQ
  | IIO_CHAN_INFO_SCALE
  | IIO_CHAN_INFO_OFFSET
  | other (mask : Nat)
deriving DecidableEq, Repr

/-- Conversion of an `int` to a u16 field: reduction modulo 2^16. -/
def int_to_u16 (x : Int) : Nat := (x % 65536).toNat

/-- The callback `qcom_smgr_sensor_postenable`, the `postenable` member of
`qcom_smgr_buffer_ops`: it calls `qcom_smgr_request_buffering` with `enable`
true. -/
def qcom_smgr_sensor_postenable (txn : qmi_txn_outcome) (sensor : qcom_smgr_sensor) :
    Option buffering_effects :=
  qcom_smgr_request_buffering txn sensor true

/-- The callback `qcom_smgr_sensor_postdisable`, the `postdisable` member of
`qcom_smgr_buffer_ops`: it calls `qcom_smgr_request_buffering` with `enable`
false. -/
def qcom_smgr_sensor_postdisable (txn : qmi_txn_outcome) (sensor : qcom_smgr_sensor) :
    Option buffering_effects :=
  qcom_smgr_request_buffering txn sensor false

/-- The function `qcom_smgr_iio_write_raw`.  `buffer_enabled` is what
`iio_buffer_enabled` answers and `txn` what the transaction engine does with
a request.  For the selector `IIO_CHAN_INFO_SAMP_FREQ` the `int val` is
stored in the u16 field `data_types[0].cur_sample_rate`; then, when the
buffer is enabled, the result of `setup_ops->postenable` is returned, and 0
otherwise.  Every other selector returns `-EINVAL`.  The result lists the
return value, the sensor as it is left and the requests sent. -/
def qcom_smgr_iio_write_raw (txn : qmi_txn_outcome) (buffer_enabled : Bool)
    (sensor : qcom_smgr_sensor) (val : Int) (_val2 : Int) (mask : iio_chan_info_enum) :
    Option buffering_effects :=
  match mask with
  | iio_chan_info_enum.IIO_CHAN_INFO_SAMP_FREQ =>
    match set_cur_sample_rate sensor (int_to_u16 val) with
    | none => none
    | some sensor1 =>
      if buffer_enabled then qcom_smgr_sensor_postenable txn sensor1
      else some { ret := 0, sensor := sensor1, sent := [] }
  | _ => some { ret := - EINVAL, sensor := sensor, sent := [] }

/-- A metadata answer with no data type at all: `data_type_len` is 0. -/
def single_info_no_data_type : single_sensor_info_env :=
  { single_info_accel with data_types := [], native_sample_rates := [] }

/-- A probe in which every query succeeds and every metadata answer carries
no data type. -/
def probe_env_no_data_type : smgr_probe_env :=
  { probe_env_all_ok with single_info := fun _ => single_info_no_data_type }

/-- A sensor of the given id and type whose metadata query stored an array
of zero items. -/
def sensor_no_data_type (id : Nat) (type : qcom_smgr_sensor_type) : qcom_smgr_sensor :=
  { new_sensor id type with data_types := some [] }

end QcomSmgr

namespace QcomFg

/-! ## Fuel gauge: state of charge and status -/

/-- The errno value behind `-EINVAL` (declared in the kernel errno header). -/
def EINVAL : Int := 22

/-- The register offset `BATT_MONOTONIC_SOC`. -/
def BATT_MONOTONIC_SOC : Nat := 0x009

/-- The register offset `PARAM_ADDR_BATT_CURRENT`. -/
def PARAM_ADDR_BATT_CURRENT : Nat := 0x1a2

/-- Modelled from the spec: the value `POWER_SUPPLY_STATUS_UNKNOWN` of the
absent header `linux/power_supply.h`, the first of the five status values,
numbered from 0 in the order unknown, charging, discharging, not charging,
full. -/
def POWER_SUPPLY_STATUS_UNKNOWN : Int := 0

/-- Modelled from the spec: the value `POWER_SUPPLY_STATUS_CHARGING` of the
absent header `linux/power_supply.h`. -/
def POWER_SUPPLY_STATUS_CHARGING : Int := 1

/-- Modelled from the spec: the value `POWER_SUPPLY_STATUS_DISCHARGING` of the
absent header `linux/power_supply.h`. -/
def POWER_SUPPLY_STATUS_DISCHARGING : Int := 2

/-- Modelled from the spec: the value `POWER_SUPPLY_STATUS_NOT_CHARGING` of
the absent header `linux/power_supply.h`. -/
def POWER_SUPPLY_STATUS_NOT_CHARGING : Int := 3

/-- Modelled from the spec: the value `POWER_SUPPLY_STATUS_FULL` of the absent
header `linux/power_supply.h`. -/
def POWER_SUPPLY_STATUS_FULL : Int := 4

/-- Modelled from the spec: the macro `DIV_ROUND_CLOSEST` of the absent header
`linux/math.h`, for operands of the signed type `int`: the quotient rounded
to the closest integer.  When `x` and `divisor` are both positive or both
not positive, half the divisor is added before dividing, otherwise it is
subtracted; the divisions are the truncating divisions of C. -/
def DIV_ROUND_CLOSEST (x divisor : Int) : Int :=
  if decide (x > 0) = decide (divisor > 0) then Int.tdiv (x + Int.tdiv divisor 2) divisor
  else Int.tdiv (x - Int.tdiv divisor 2) divisor

/-- The chip, `struct qcom_fg_chip`, reduced to the fields read below: `base`
(an `unsigned int`), whether the charger `chg_psy` is present, the `int
status` last taken from it, and what `regmap_bulk_read` answers for an
address and a length: its return value and the bytes it stored. -/
structure qcom_fg_chip where
  base : Nat
  chg_psy : Bool
  status : Int
  regmap_bulk_read : Nat → Nat → Int × List Nat

/-- The function `qcom_fg_read`: its return value and the bytes read.  The sum
`chip->base + addr` is an `unsigned int`; an address whose second byte is
zero is refused with `-EINVAL`. -/
def qcom_fg_read (chip : qcom_fg_chip) (addr len : Nat) : Int × List Nat :=
  if Nat.land ((chip.base + addr) % 4294967296) 0xff00 = 0 then (- EINVAL, [])
  else chip.regmap_bulk_read ((chip.base + addr) % 4294967296) len

/-- The element `buf[i]` of a buffer of u8 filled by a read. -/
def u8_at (buf : List Nat) (i : Nat) : Nat := buf.getD i 0 % 256

/-- The function `qcom_fg_get_capacity`: its return value and the value stored
through `val` (`none` when nothing is stored).  The smaller of the two bytes
is kept in `cap[0]`; `cap[0] - 1` is computed in `int`. -/
def qcom_fg_get_capacity (chip : qcom_fg_chip) : Int × Option Int :=
  let r := qcom_fg_read chip BATT_MONOTONIC_SOC 2
  if r.1 ≠ 0 then (r.1, none)
  else
    let cap_0 := u8_at r.2 0
    let cap_1 := u8_at r.2 1
    let cap_0 := if cap_0 ≠ cap_1 then (if cap_0 < cap_1 then cap_0 else cap_1) else cap_0
    (0, some (DIV_ROUND_CLOSEST (((cap_0 : Int) - 1) * 98) (0xff - 2) + 1))

/-- Conversion of an `int` to the type s16. -/
def int_to_s16 (x : Int) : Int := (x + 32768) % 65536 - 32768

/-- The function `qcom_fg_get_current`: its return value and the value stored
through `val`.  The two bytes form a signed 16-bit number, which is scaled
by 488281 / 1000 with a truncating division and negated. -/
def qcom_fg_get_current (chip : qcom_fg_chip) : Int × Option Int :=
  let r := qcom_fg_read chip PARAM_ADDR_BATT_CURRENT 2
  if r.1 ≠ 0 then (r.1, none)
  else
    let temp := int_to_s16 ((Nat.lor (u8_at r.2 1 * 256) (u8_at r.2 0) : Nat) : Int)
    (0, some (- Int.tdiv (temp * 488281) 1000))

/-- The case `POWER_SUPPLY_PROP_STATUS` of `qcom_fg_get_property`: the return
value and the status stored in `val->intval`.  With a charger present and a
known status the status of the charger is reported; otherwise the status is
derived from the capacity and the current. -/
def qcom_fg_get_property_status (chip : qcom_fg_chip) : Int × Int :=
  if chip.chg_psy = true ∧ chip.status ≠ POWER_SUPPLY_STATUS_UNKNOWN then (0, chip.status)
  else
    match qcom_fg_get_capacity chip with
    | (ret, none) => (ret, POWER_SUPPLY_STATUS_UNKNOWN)
    | (ret, some temp) =>
      if ret ≠ 0 then (ret, POWER_SUPPLY_STATUS_UNKNOWN)
      else if temp = 100 then (ret, POWER_SUPPLY_STATUS_FULL)
      else
        match qcom_fg_get_current chip with
        | (ret1, none) => (ret1, POWER_SUPPLY_STATUS_UNKNOWN)
        | (ret1, some temp1) =>
          if ret1 ≠ 0 then (ret1, POWER_SUPPLY_STATUS_UNKNOWN)
          else if temp1 < 0 then (ret1, POWER_SUPPLY_STATUS_CHARGING)
          else if temp1 > 0 then (ret1, POWER_SUPPLY_STATUS_DISCHARGING)
          else (ret1, POWER_SUPPLY_STATUS_NOT_CHARGING)

/-- A chip at base 0x4000 without charger whose registers hold the byte 200
at every address. -/
def chip_200 : qcom_fg_chip :=
  { base := 0x4000
    chg_psy := false
    status := POWER_SUPPLY_STATUS_UNKNOWN
    regmap_bulk_read := fun _ len => (0, List.replicate len 200) }

end QcomFg

namespace QcomSnsReg

/-! ## Registry server: facts about the lookup -/

/-- A table that holds a row of size zero stops the scan: the loop never
indexes past the end of the array. -/
theorem group_map_scan_sentinel (gid : Int) (tbl : List group_map_entry)
    (h : ∃ e ∈ tbl, e.size = 0) : ∃ r, group_map_scan gid tbl = some r := by
  induction tbl with
  | nil => simp at h
  | cons a rest ih =>
    unfold group_map_scan
    by_cases ha : a.size = 0
    · simp [ha]
    · by_cases hg : (a.group_id : Int) = gid
      · simp [ha, hg]
      · simp only [ne_eq, ha, not_false_eq_true, if_true, hg, if_false]
        apply ih
        obtain ⟨e, he, hz⟩ := h
        rcases List.mem_cons.mp he with rfl | he
        · exact absurd hz ha
        · exact ⟨e, he, hz⟩

/-- A row returned by the scan is a row of the table, has a nonzero size and
carries the requested id. -/
theorem group_map_scan_found (gid : Int) (tbl : List group_map_entry) (e : group_map_entry)
    (h : group_map_scan gid tbl = some (some e)) :
    e ∈ tbl ∧ e.size ≠ 0 ∧ (e.group_id : Int) = gid := by
  induction tbl with
  | nil => simp [group_map_scan] at h
  | cons a rest ih =>
    unfold group_map_scan at h
    by_cases ha : a.size = 0
    · simp [ha] at h
    · by_cases hg : (a.group_id : Int) = gid
      · simp [ha, hg] at h
        subst h
        exact ⟨List.mem_cons_self _ _, ha, hg⟩
      · simp only [ne_eq, ha, not_false_eq_true, if_true, hg, if_false] at h
        obtain ⟨h1, h2, h3⟩ := ih h
        exact ⟨List.mem_cons_of_mem _ h1, h2, h3⟩

/-- The lookup in `group_map` always ends, at a row or at the sentinel. -/
theorem group_map_entry_by_id_defined (gid : Int) : ∃ r, group_map_entry_by_id gid = some r :=
  group_map_scan_sentinel gid group_map ⟨⟨0, 0, 0⟩, by decide, rfl⟩

/-- Every row before the sentinel is found by the lookup of its own id. -/
theorem group_map_entry_by_id_mapped :
    ∀ e ∈ group_map, e.size ≠ 0 →
      group_map_entry_by_id (u16_to_short e.group_id) = some (some e) := by
  decide

/-- No row is larger than the data field of the response. -/
theorem group_map_size_le : ∀ e ∈ group_map, e.size ≤ SNS_REG_GROUP_DATA_MAX_LEN := by
  decide

/-- An unsigned short that, converted to `short`, equals a row id is that id. -/
theorem u16_to_short_eq_id (id : Nat) (hid : id < 65536) (g : Nat)
    (h : (g : Int) = u16_to_short id) : g = id := by
  unfold u16_to_short at h
  split at h <;> omega

/-- An id carried by no row before the sentinel is looked up to NULL. -/
theorem group_map_entry_by_id_unmapped (id : Nat) (hid : id < 65536)
    (hn : ∀ e ∈ group_map, e.size ≠ 0 → e.group_id ≠ id) :
    group_map_entry_by_id (u16_to_short id) = some none := by
  obtain ⟨r, hr⟩ := group_map_entry_by_id_defined (u16_to_short id)
  cases r with
  | none => exact hr
  | some e =>
    obtain ⟨h1, h2, h3⟩ := group_map_scan_found _ _ _ hr
    exact absurd (u16_to_short_eq_id id hid e.group_id h3) (hn e h1 h2)

/-! ## Registry server: facts about the copy -/

theorem memcpy_in_bounds (dst src : List Nat) (off n : Nat)
    (hs : off + n ≤ src.length) (hd : n ≤ dst.length) :
    memcpy dst src off n = some ((src.drop off).take n ++ dst.drop n) := by
  simp [memcpy, hs, hd]

theorem copied_length (src : List Nat) (off n : Nat) (hs : off + n ≤ src.length)
    (hn : n ≤ SNS_REG_GROUP_DATA_MAX_LEN) :
    ((src.drop off).take n ++ (List.replicate SNS_REG_GROUP_DATA_MAX_LEN 0).drop n).length
      = SNS_REG_GROUP_DATA_MAX_LEN := by
  simp only [List.length_append, List.length_take, List.length_drop, List.length_replicate]
  omega

theorem copied_prefix (src : List Nat) (off n i : Nat) (hs : off + n ≤ src.length) (hi : i < n) :
    ∃ b, src[off + i]? = some b ∧
      ((src.drop off).take n ++ (List.replicate SNS_REG_GROUP_DATA_MAX_LEN 0).drop n)[i]? = some b := by
  have hlt : off + i < src.length := by omega
  refine ⟨src[off + i], List.getElem?_eq_getElem hlt, ?_⟩
  have hlen : i < ((src.drop off).take n).length := by
    simp only [List.length_take, List.length_drop]; omega
  rw [List.getElem?_append_left hlen, List.getElem?_take_of_lt hi, List.getElem?_drop]
  exact List.getElem?_eq_getElem hlt

theorem copied_suffix (src : List Nat) (off n i : Nat) (hs : off + n ≤ src.length)
    (hn : n ≤ i) (hi : i < SNS_REG_GROUP_DATA_MAX_LEN) :
    ((src.drop off).take n ++ (List.replicate SNS_REG_GROUP_DATA_MAX_LEN 0).drop n)[i]? = some 0 := by
  have hlen : ((src.drop off).take n).length = n := by
    simp only [List.length_take, List.length_drop]; omega
  rw [List.getElem?_append_right (by omega), hlen, List.getElem?_drop]
  have : n + (i - n) = i := by omega
  rw [this, List.getElem?_replicate]
  simp [hi]

/-- The short blob has 0x205 bytes. -/
theorem blob_0x205_size : blob_0x205.size = 0x205 := by
  simp only [firmware.size, blob_0x205, List.length_replicate]

/-- The long blob has 0x5000 bytes. -/
theorem blob_0x5000_size : blob_0x5000.size = 0x5000 := by
  simp only [firmware.size, blob_0x5000, List.length_map, List.length_range]

/-! ## Registry server: the paths of the handler -/

/-- The run on a mapped row whose bounds check passes. -/
theorem handler_mapped_pass (data : qcom_sns_reg_data) (fw : firmware) (e : group_map_entry)
    (he : e ∈ group_map) (hsz : e.size ≠ 0) (hfw : data.fw = some fw)
    (hb : ¬ (e.offset ≥ fw.size ∨ e.offset + e.size ≥ fw.size)) :
    qcom_sns_reg_get_group_req_handler true data ⟨e.group_id⟩ =
      some { sent := [{ result := qmi_result_type_v01.QMI_RESULT_SUCCESS_V01
                        id := e.group_id
                        data_len := e.size
                        data := (fw.data.drop e.offset).take e.size ++
                          (List.replicate SNS_REG_GROUP_DATA_MAX_LEN 0).drop e.size }]
             fw_reads := List.range' e.offset e.size } := by
  have h256 := group_map_size_le e he
  have hmod : e.size % 65536 = e.size := by
    unfold SNS_REG_GROUP_DATA_MAX_LEN at h256; omega
  have hcp := memcpy_in_bounds (List.replicate SNS_REG_GROUP_DATA_MAX_LEN 0) fw.data
    e.offset e.size (by unfold firmware.size at hb; omega) (by simpa using h256)
  simp only [qcom_sns_reg_get_group_req_handler, group_map_entry_by_id_mapped e he hsz, hfw]
  simp [hb, hcp, hmod]

/-- The run on a mapped row without a blob, or with a blob the bounds check rejects. -/
theorem handler_mapped_fail (kz : Bool) (data : qcom_sns_reg_data) (e : group_map_entry)
    (he : e ∈ group_map) (hsz : e.size ≠ 0)
    (hb : data.fw = none ∨ ∃ fw, data.fw = some fw ∧ fw.size ≤ e.offset + e.size) :
    qcom_sns_reg_get_group_req_handler kz data ⟨e.group_id⟩ =
      some { sent := if kz then [{ result := qmi_result_type_v01.QMI_RESULT_FAILURE_V01
                                   id := e.group_id
                                   data_len := 0
                                   data := List.replicate SNS_REG_GROUP_DATA_MAX_LEN 0 }]
                     else []
             fw_reads := [] } := by
  simp only [qcom_sns_reg_get_group_req_handler, group_map_entry_by_id_mapped e he hsz]
  cases kz with
  | false => simp
  | true =>
    rcases hb with hnone | ⟨fw, hfw, hlen⟩
    · simp [hnone]
    · have : e.offset ≥ fw.size ∨ e.offset + e.size ≥ fw.size := Or.inr hlen
      simp [hfw, this]

/-- The run on an id that no row carries. -/
theorem handler_unmapped (kz : Bool) (data : qcom_sns_reg_data) (id : Nat) (hid : id < 65536)
    (hn : ∀ e ∈ group_map, e.size ≠ 0 → e.group_id ≠ id) :
    qcom_sns_reg_get_group_req_handler kz data ⟨id⟩ =
      some { sent := if kz then [{ result := qmi_result_type_v01.QMI_RESULT_FAILURE_V01
                                   id := id
                                   data_len := 0
                                   data := List.replicate SNS_REG_GROUP_DATA_MAX_LEN 0 }]
                     else []
             fw_reads := [] } := by
  simp only [qcom_sns_reg_get_group_req_handler, group_map_entry_by_id_unmapped id hid hn]
  cases kz <;> simp

/-- Every run of the handler is defined, sends one response when the
response was allocated and none otherwise, and reads the blob only at
indices below its length. -/
theorem handler_total (kz : Bool) (data : qcom_sns_reg_data) (req : sns_reg_group_req) :
    ∃ r, qcom_sns_reg_get_group_req_handler kz data req = some r ∧
      r.sent.length = (if kz then 1 else 0) ∧
      ∀ i ∈ r.fw_reads, ∃ fw, data.fw = some fw ∧ i < fw.size := by
  obtain ⟨g, hg⟩ := group_map_entry_by_id_defined (u16_to_short req.id)
  cases kz with
  | false =>
    simp only [qcom_sns_reg_get_group_req_handler, hg, if_true]
    exact ⟨_, rfl, by simp, by simp⟩
  | true =>
    cases g with
    | none =>
      simp only [qcom_sns_reg_get_group_req_handler, hg]
      exact ⟨_, rfl, by simp, by simp⟩
    | some e =>
      obtain ⟨he, _, _⟩ := group_map_scan_found _ _ _ hg
      have h256 := group_map_size_le e he
      cases hfw : data.fw with
      | none =>
        simp only [qcom_sns_reg_get_group_req_handler, hg, hfw]
        exact ⟨_, rfl, by simp, by simp⟩
      | some fw =>
        by_cases hb : e.offset ≥ fw.size ∨ e.offset + e.size ≥ fw.size
        · simp only [qcom_sns_reg_get_group_req_handler, hg, hfw, hb, if_true]
          exact ⟨_, rfl, by simp, by simp⟩
        · have hcp := memcpy_in_bounds (List.replicate SNS_REG_GROUP_DATA_MAX_LEN 0) fw.data
            e.offset e.size (by unfold firmware.size at hb; omega) (by simpa using h256)
          simp only [qcom_sns_reg_get_group_req_handler, hg, hfw, hb, if_false, hcp]
          refine ⟨_, rfl, by simp, ?_⟩
          intro i hi
          refine ⟨fw, rfl, ?_⟩
          simp only [List.mem_range'_1] at hi
          unfold firmware.size at hb ⊢
          omega

/-- The handler reads nothing of the session but the firmware pointer. -/
theorem handler_depends_on_fw (kz : Bool) (d1 d2 : qcom_sns_reg_data) (req : sns_reg_group_req)
    (h : d1.fw = d2.fw) :
    qcom_sns_reg_get_group_req_handler kz d1 req = qcom_sns_reg_get_group_req_handler kz d2 req := by
  simp only [qcom_sns_reg_get_group_req_handler, h]

end QcomSnsReg

namespace QcomSnsReg

/-! ## Registry server: the group fetch -/

/-- C1, bounds safety of the group fetch.  For every row of `group_map` before
the sentinel and every session in which no blob is loaded or `offset + size`
exceeds the length of the blob, the handler sends nothing but the response
with the failure result, `data_len` 0 and an untouched zero payload (and sends
it whenever the response was allocated), and it reads no byte of the blob.
Moreover in every run, of any request, each blob index read lies below the
length of the loaded blob. -/
theorem get_group_bounds_safety (kz : Bool) (data : qcom_sns_reg_data) (e : group_map_entry)
    (he : e ∈ group_map) (hsz : e.size ≠ 0)
    (hb : data.fw = none ∨ ∃ fw, data.fw = some fw ∧ fw.size < e.offset + e.size) :
    qcom_sns_reg_get_group_req_handler kz data ⟨e.group_id⟩ =
      some { sent := if kz then [{ result := qmi_result_type_v01.QMI_RESULT_FAILURE_V01
                                   id := e.group_id
                                   data_len := 0
                                   data := List.replicate SNS_REG_GROUP_DATA_MAX_LEN 0 }]
                     else []
             fw_reads := [] } ∧
    ∀ (req : sns_reg_group_req) (r : handler_effects),
      qcom_sns_reg_get_group_req_handler kz data req = some r →
      ∀ i ∈ r.fw_reads, ∃ fw, data.fw = some fw ∧ i < fw.size := by
  refine ⟨handler_mapped_fail kz data e he hsz ?_, ?_⟩
  · rcases hb with h | ⟨fw, hfw, hlt⟩
    · exact Or.inl h
    · exact Or.inr ⟨fw, hfw, Nat.le_of_lt hlt⟩
  · intro req r hr
    obtain ⟨r1, h1, _, h3⟩ := handler_total kz data req
    rw [h1] at hr
    cases hr
    exact h3

/-- Witness of C1: group 2000 (offset 0x200, size 0x10) against a blob of 0x205 bytes. -/
theorem get_group_bounds_safety_witness :
    ((⟨2000, 0x0200, 0x010⟩ : group_map_entry) ∈ group_map ∧
      session_blob_0x205.fw = some blob_0x205 ∧ blob_0x205.size < 0x0200 + 0x010) ∧
    qcom_sns_reg_get_group_req_handler true session_blob_0x205 ⟨2000⟩ =
      some { sent := [{ result := qmi_result_type_v01.QMI_RESULT_FAILURE_V01
                        id := 2000
                        data_len := 0
                        data := List.replicate SNS_REG_GROUP_DATA_MAX_LEN 0 }]
             fw_reads := [] } :=
  ⟨⟨by decide, rfl, by rw [blob_0x205_size]; decide⟩,
   (get_group_bounds_safety true session_blob_0x205 ⟨2000, 0x0200, 0x010⟩ (by decide)
      (by decide) (Or.inr ⟨blob_0x205, rfl, by rw [blob_0x205_size]; decide⟩)).1⟩

/-- C2, successful group fetch.  For every row of `group_map` before the
sentinel and every loaded blob that passes the bounds check of the handler,
the one response sent has the success result, echoes the requested id, has
`data_len = size`, a payload of 256 bytes whose byte `i` is byte
`offset + i` of the blob for every `i < size`, and zero bytes after them; the
blob is read at the indices `offset .. offset + size - 1` and nowhere else. -/
theorem get_group_success (data : qcom_sns_reg_data) (fw : firmware) (e : group_map_entry)
    (he : e ∈ group_map) (hsz : e.size ≠ 0) (hfw : data.fw = some fw)
    (hb : ¬ (e.offset ≥ fw.size ∨ e.offset + e.size ≥ fw.size)) :
    ∃ rsp, qcom_sns_reg_get_group_req_handler true data ⟨e.group_id⟩ =
        some { sent := [rsp], fw_reads := List.range' e.offset e.size } ∧
      rsp.result = qmi_result_type_v01.QMI_RESULT_SUCCESS_V01 ∧
      rsp.id = e.group_id ∧
      rsp.data_len = e.size ∧
      rsp.data.length = SNS_REG_GROUP_DATA_MAX_LEN ∧
      (∀ i, i < e.size → ∃ b, fw.data[e.offset + i]? = some b ∧ rsp.data[i]? = some b) ∧
      (∀ i, e.size ≤ i → i < SNS_REG_GROUP_DATA_MAX_LEN → rsp.data[i]? = some 0) := by
  have hs : e.offset + e.size ≤ fw.data.length := by unfold firmware.size at hb; omega
  refine ⟨_, handler_mapped_pass data fw e he hsz hfw hb, rfl, rfl, rfl, ?_, ?_, ?_⟩
  · exact copied_length fw.data e.offset e.size hs (group_map_size_le e he)
  · intro i hi
    exact copied_prefix fw.data e.offset e.size i hs hi
  · intro i hn hi
    exact copied_suffix fw.data e.offset e.size i hs hn hi

/-- Witness of C2: group 2000 (offset 0x200, size 0x10) against a blob of
0x5000 bytes is answered with success and the 16 bytes at 0x200 .. 0x20f. -/
theorem get_group_success_witness :
    ((⟨2000, 0x0200, 0x010⟩ : group_map_entry) ∈ group_map ∧
      session_blob_0x5000.fw = some blob_0x5000 ∧ blob_0x5000.size = 0x5000 ∧
      ¬ (0x0200 ≥ blob_0x5000.size ∨ 0x0200 + 0x010 ≥ blob_0x5000.size)) ∧
    ∃ rsp, qcom_sns_reg_get_group_req_handler true session_blob_0x5000 ⟨2000⟩ =
        some { sent := [rsp], fw_reads := List.range' 0x0200 0x010 } ∧
      rsp.result = qmi_result_type_v01.QMI_RESULT_SUCCESS_V01 ∧
      rsp.id = 2000 ∧
      rsp.data_len = 0x010 ∧
      rsp.data.length = SNS_REG_GROUP_DATA_MAX_LEN ∧
      (∀ i, i < 0x010 →
        ∃ b, blob_0x5000.data[0x0200 + i]? = some b ∧
          rsp.data[i]? = some b) ∧
      (∀ i, 0x010 ≤ i → i < SNS_REG_GROUP_DATA_MAX_LEN → rsp.data[i]? = some 0) :=
  ⟨⟨by decide, rfl, blob_0x5000_size, by rw [blob_0x5000_size]; decide⟩,
   get_group_success session_blob_0x5000 blob_0x5000 ⟨2000, 0x0200, 0x010⟩ (by decide)
     (by decide) rfl (by rw [blob_0x5000_size]; decide)⟩

/-- C3, group lookup totality.  For every 16-bit id carried by no row of
`group_map` before the sentinel, and every session, the handler sends nothing
but the response with the failure result, `data_len` 0 and the requested id
(and sends it whenever the response was allocated), and reads no byte of the
blob; the response does not depend on the session, so it is the same
whatever the blob holds and whether or not one is loaded. -/
theorem get_group_unmapped (kz : Bool) (data : qcom_sns_reg_data) (id : Nat) (hid : id < 65536)
    (hn : ∀ e ∈ group_map, e.size ≠ 0 → e.group_id ≠ id) :
    qcom_sns_reg_get_group_req_handler kz data ⟨id⟩ =
      some { sent := if kz then [{ result := qmi_result_type_v01.QMI_RESULT_FAILURE_V01
                                   id := id
                                   data_len := 0
                                   data := List.replicate SNS_REG_GROUP_DATA_MAX_LEN 0 }]
                     else []
             fw_reads := [] } :=
  handler_unmapped kz data id hid hn

/-- Witness of C3: the id 9999 is in no row and is answered with failure,
length 0 and id 9999. -/
theorem get_group_unmapped_witness :
    (9999 < 65536 ∧ ∀ e ∈ group_map, e.size ≠ 0 → e.group_id ≠ 9999) ∧
    qcom_sns_reg_get_group_req_handler true session_blob_0x5000 ⟨9999⟩ =
      some { sent := [{ result := qmi_result_type_v01.QMI_RESULT_FAILURE_V01
                        id := 9999
                        data_len := 0
                        data := List.replicate SNS_REG_GROUP_DATA_MAX_LEN 0 }]
             fw_reads := [] } :=
  ⟨⟨by decide, by decide⟩,
   get_group_unmapped true session_blob_0x5000 9999 (by decide) (by decide)⟩

/-- C10 as stated fails: when the allocation of the response fails, the
handler returns without sending, here for the mapped group 2000 with a blob
of 0x5000 bytes loaded. -/
theorem get_group_one_response_counterexample :
    ¬ ∃ r, qcom_sns_reg_get_group_req_handler false session_blob_0x5000 ⟨2000⟩ = some r ∧
        r.sent.length = 1 := by
  rintro ⟨r, hr, hlen⟩
  obtain ⟨r1, h1, h2, _⟩ := handler_total false session_blob_0x5000 ⟨2000⟩
  rw [h1] at hr
  cases hr
  simp [h2] at hlen

/-- C10, amended.  For every session and every decoded request, a run whose
response was allocated sends exactly one response, and a run whose allocation
failed sends none and reads nothing; in both cases the run is a function of
the requested id and the firmware pointer alone: two sessions with the same
blob give the same run. -/
theorem get_group_one_response (data : qcom_sns_reg_data) (req : sns_reg_group_req) :
    (∃ rsp reads, qcom_sns_reg_get_group_req_handler true data req =
        some { sent := [rsp], fw_reads := reads }) ∧
    qcom_sns_reg_get_group_req_handler false data req = some { sent := [], fw_reads := [] } ∧
    ∀ (kz : Bool) (data2 : qcom_sns_reg_data), data2.fw = data.fw →
      qcom_sns_reg_get_group_req_handler kz data2 req =
        qcom_sns_reg_get_group_req_handler kz data req := by
  refine ⟨?_, ?_, ?_⟩
  · obtain ⟨r, h1, h2, _⟩ := handler_total true data req
    obtain ⟨sent, reads⟩ := r
    match sent, h2 with
    | [rsp], _ => exact ⟨rsp, reads, h1⟩
  · obtain ⟨g, hg⟩ := group_map_entry_by_id_defined (u16_to_short req.id)
    simp [qcom_sns_reg_get_group_req_handler, hg]
  · intro kz data2 h
    exact handler_depends_on_fw kz data2 data req h

end QcomSnsReg

namespace QcomSmgr

/-! ## Sensor manager client: facts about the rate selection -/

/-- Every entry is at most the highest entry. -/
theorem max_native_rate_ge (rates : List Nat) : ∀ r ∈ rates, r ≤ max_native_rate rates := by
  induction rates with
  | nil => simp
  | cons a rest ih =>
    intro r hr
    simp only [max_native_rate, List.foldr_cons] at ih ⊢
    rcases List.mem_cons.mp hr with rfl | h
    · exact Nat.le_max_left _ _
    · exact Nat.le_trans (ih r h) (Nat.le_max_right _ _)

/-- In a non-empty ascending list the entry at index `length - 1` is the highest entry. -/
theorem max_native_rate_ascending (rates : List Nat) (hne : rates ≠ [])
    (hasc : rates.Pairwise (fun a b => a ≤ b)) :
    rates[rates.length - 1]? = some (max_native_rate rates) := by
  induction rates with
  | nil => exact absurd rfl hne
  | cons a rest ih =>
    cases rest with
    | nil => simp [max_native_rate]
    | cons b rest2 =>
      have hp := List.pairwise_cons.mp hasc
      have hlast : (b :: rest2)[(b :: rest2).length - 1]? = some (max_native_rate (b :: rest2)) :=
        ih (by simp) hp.2
      have hle : a ≤ max_native_rate (b :: rest2) := hp.1 _ (List.getElem?_mem hlast)
      have hmax : max_native_rate (a :: b :: rest2) = max_native_rate (b :: rest2) := by
        show max a (max_native_rate (b :: rest2)) = _
        exact Nat.max_eq_right hle
      rw [hmax]
      simpa using hlast

/-- The first assignment to `sample_rate` for a stored list whose count is its length. -/
theorem native_sample_rate_last_stored (dt : qcom_smgr_data_type_item) (rates : List Nat)
    (hr : dt.native_sample_rates = some rates) (hc : dt.native_sample_rate_count = rates.length)
    (hne : rates ≠ []) :
    native_sample_rate_last dt = rates[rates.length - 1]? := by
  have hlen : rates.length ≠ 0 := by
    intro h0
    exact hne (List.length_eq_zero.mp h0)
  simp [native_sample_rate_last, hr, hc, hlen]

/-- The product of a u16 rate and `SMGR_REPORT_RATE_HZ`, computed in `int` and
stored in a u32, is the exact product. -/
theorem report_rate_exact (r : Nat) (h : r ≤ 65535) :
    int_to_u32 (wrap_s32 ((r : Int) * (SMGR_REPORT_RATE_HZ : Int))) = r * 65536 := by
  simp only [int_to_u32, wrap_s32, SMGR_REPORT_RATE_HZ, SMGR_TICKS_PER_SECOND]
  omega

/-- The request and the rate of the enable path, from the item read and the last native rate. -/
theorem request_buffering_req_enable (sensor : qcom_smgr_sensor) (dt : qcom_smgr_data_type_item)
    (last : Nat) (hdt : data_types_0 sensor = some dt)
    (hlast : native_sample_rate_last dt = some last) :
    qcom_smgr_request_buffering_req sensor true =
      some ({ report_id := sensor.id
              notify_suspend_valid := false
              action := sns_smgr_buffering_action.SNS_SMGR_BUFFERING_ACTION_ADD
              report_rate := int_to_u32 (wrap_s32
                ((clamp_sample_rate last dt.max_sample_rate : Int) * (SMGR_REPORT_RATE_HZ : Int)))
              item_len := 1
              items := [{ sensor_id := sensor.id
                          data_type := qcom_smgr_data_type.SNS_SMGR_DATA_TYPE_PRIMARY
                          sampling_rate := clamp_sample_rate last dt.max_sample_rate
                          val1 := 3
                          val2 := 1 }] },
            clamp_sample_rate last dt.max_sample_rate) := by
  simp [qcom_smgr_request_buffering_req, hdt, hlast]

/-- Whenever the enable path builds a request, the item and the last native
rate were read, and the request has the shape above. -/
theorem request_buffering_req_enable_inv (sensor : qcom_smgr_sensor)
    (req : sns_smgr_buffering_req) (r : Nat)
    (h : qcom_smgr_request_buffering_req sensor true = some (req, r)) :
    ∃ dt last, data_types_0 sensor = some dt ∧ native_sample_rate_last dt = some last ∧
      r = clamp_sample_rate last dt.max_sample_rate ∧
      req = { report_id := sensor.id
              notify_suspend_valid := false
              action := sns_smgr_buffering_action.SNS_SMGR_BUFFERING_ACTION_ADD
              report_rate := int_to_u32 (wrap_s32 ((r : Int) * (SMGR_REPORT_RATE_HZ : Int)))
              item_len := 1
              items := [{ sensor_id := sensor.id
                          data_type := qcom_smgr_data_type.SNS_SMGR_DATA_TYPE_PRIMARY
                          sampling_rate := r
                          val1 := 3
                          val2 := 1 }] } := by
  cases hdt : data_types_0 sensor with
  | none => simp [qcom_smgr_request_buffering_req, hdt] at h
  | some dt =>
    cases hlast : native_sample_rate_last dt with
    | none => simp [qcom_smgr_request_buffering_req, hdt, hlast] at h
    | some last =>
      rw [request_buffering_req_enable sensor dt last hdt hlast] at h
      simp only [Option.some.injEq, Prod.mk.injEq] at h
      obtain ⟨h1, h2⟩ := h
      subst h2
      exact ⟨dt, last, rfl, hlast, rfl, h1.symm⟩

/-- The item read by `data_types_0` heads the stored array. -/
theorem data_types_0_some (sensor : qcom_smgr_sensor) (dt : qcom_smgr_data_type_item)
    (h : data_types_0 sensor = some dt) : ∃ rest, sensor.data_types = some (dt :: rest) := by
  unfold data_types_0 at h
  split at h
  · rename_i d rest heq
    simp only [Option.some.injEq] at h
    subst h
    exact ⟨rest, heq⟩
  · simp at h

/-- The function on a transaction that fails before the rate is recorded. -/
theorem request_buffering_failed (txn : qmi_txn_outcome) (sensor : qcom_smgr_sensor)
    (enable : Bool) (req : sns_smgr_buffering_req) (r : Nat)
    (h : qcom_smgr_request_buffering_req sensor enable = some (req, r))
    (hf : txn.txn_init_ret < 0 ∨ txn.send_request_ret < 0 ∨ txn.txn_wait_ret < 0 ∨
      txn.resp_result ≠ 0) :
    ∃ eff, qcom_smgr_request_buffering txn sensor enable = some eff ∧ eff.ret < 0 ∧
      eff.sensor = sensor ∧ (eff.sent = [] ∨ eff.sent = [req]) := by
  simp only [qcom_smgr_request_buffering, h]
  by_cases h1 : txn.txn_init_ret < 0
  · simp only [h1, if_true]
    exact ⟨_, rfl, h1, rfl, Or.inl rfl⟩
  · by_cases h2 : txn.send_request_ret < 0
    · simp only [h1, h2, if_true, if_false]
      exact ⟨_, rfl, h2, rfl, Or.inr rfl⟩
    · by_cases h3 : txn.txn_wait_ret < 0
      · simp only [h1, h2, h3, if_true, if_false]
        exact ⟨_, rfl, h3, rfl, Or.inr rfl⟩
      · have h4 : txn.resp_result ≠ 0 := by
          rcases hf with h | h | h | h
          · exact absurd h h1
          · exact absurd h h2
          · exact absurd h h3
          · exact h
        simp only [h1, h2, h3, h4, ne_eq, not_false_eq_true, if_true, if_false]
        exact ⟨_, rfl, by simp [ EREMOTEIO], rfl, Or.inr rfl⟩

/-- The function on a transaction that succeeds: the local `sample_rate` is
written to `cur_sample_rate` of the first item, nothing else changes. -/
theorem request_buffering_succeeded (txn : qmi_txn_outcome) (sensor : qcom_smgr_sensor)
    (enable : Bool) (req : sns_smgr_buffering_req) (r : Nat)
    (dt : qcom_smgr_data_type_item) (rest : List qcom_smgr_data_type_item)
    (h : qcom_smgr_request_buffering_req sensor enable = some (req, r))
    (hdt : sensor.data_types = some (dt :: rest))
    (hs : 0 ≤ txn.txn_init_ret ∧ 0 ≤ txn.send_request_ret ∧ 0 ≤ txn.txn_wait_ret ∧
      txn.resp_result = 0) :
    qcom_smgr_request_buffering txn sensor enable =
      some { ret := 0
             sensor := { sensor with
               data_types := some ({ dt with cur_sample_rate := r } :: rest) }
             sent := [req] } := by
  obtain ⟨h1, h2, h3, h4⟩ := hs
  have h1n : ¬ txn.txn_init_ret < 0 := by omega
  have h2n : ¬ txn.send_request_ret < 0 := by omega
  have h3n : ¬ txn.txn_wait_ret < 0 := by omega
  simp [qcom_smgr_request_buffering, h, h1n, h2n, h3n, h4, set_cur_sample_rate, hdt]

end QcomSmgr

namespace QcomSmgr

/-! ## Sensor manager client: rate negotiation and buffering control -/

/-- The enable path takes the entry at index `count - 1`.  On a list that does
not ascend, which the data model does not have, that entry need not be the
highest one: for the native rates [50, 200, 100] and a maximum rate of 150 it
chooses 100, while the minimum of the highest native rate and the maximum
rate is 150. -/
theorem unsorted_rates_last_entry :
    (qcom_smgr_request_buffering_req (accel_sensor [50, 200, 100] 150) true).map
        (fun p => p.2) = some 100 ∧
    (if max_native_rate [50, 200, 100] ≠ 0 then min (max_native_rate [50, 200, 100]) 150
      else 150) ≠ 100 := by
  decide

/-- C4, rate negotiation determinism.  For every sensor whose first data-type
item stores a non-empty list of native rates, ascending as the data model
has it, and every maximum rate, the enable path builds a request and chooses
the minimum of the highest native rate and `max_sample_rate` when the
highest native rate is nonzero, and `max_sample_rate` otherwise. -/
theorem rate_negotiation_ascending (sensor : qcom_smgr_sensor) (dt : qcom_smgr_data_type_item)
    (rates : List Nat) (hdt : data_types_0 sensor = some dt)
    (hr : dt.native_sample_rates = some rates) (hc : dt.native_sample_rate_count = rates.length)
    (hne : rates ≠ []) (hasc : rates.Pairwise (fun a b => a ≤ b)) :
    (qcom_smgr_request_buffering_req sensor true).map (fun p => p.2) =
      some (if max_native_rate rates ≠ 0 then min (max_native_rate rates) dt.max_sample_rate
            else dt.max_sample_rate) := by
  have hlast : native_sample_rate_last dt = some (max_native_rate rates) := by
    rw [native_sample_rate_last_stored dt rates hr hc hne]
    exact max_native_rate_ascending rates hne hasc
  rw [request_buffering_req_enable sensor dt _ hdt hlast]
  simp only [Option.map_some', clamp_sample_rate, Option.some.injEq]
  by_cases h0 : max_native_rate rates = 0
  · simp [h0]
  · by_cases hgt : max_native_rate rates > dt.max_sample_rate
    · simp only [h0, hgt, or_true, false_or, if_true, ne_eq, not_false_eq_true]
      omega
    · simp only [h0, hgt, or_self, if_false, ne_eq, not_false_eq_true, if_true]
      omega

/-- Witness of C4: the ascending rates [50, 100, 200] with maximum rate 150. -/
theorem rate_negotiation_ascending_witness :
    ([50, 100, 200] ≠ [] ∧ [50, 100, 200].Pairwise (fun a b => a ≤ b)) ∧
    (qcom_smgr_request_buffering_req (accel_sensor [50, 100, 200] 150) true).map
        (fun p => p.2) =
      some (if max_native_rate [50, 100, 200] ≠ 0 then min (max_native_rate [50, 100, 200]) 150
            else 150) :=
  ⟨⟨by decide, by decide⟩,
   rate_negotiation_ascending (accel_sensor [50, 100, 200] 150) (accel_item [50, 100, 200] 150)
     [50, 100, 200] rfl rfl rfl (by decide) (by decide)⟩

/-- C5 as stated fails: for the native rates [50, 100, 200] and a maximum rate
of 150 no request with sampling rate 100 and report rate 100 * 65536 is built. -/
theorem rate_selection_scenario_counterexample :
    ¬ ∃ req, qcom_smgr_request_buffering_req (accel_sensor [50, 100, 200] 150) true =
        some (req, 100) ∧ req.report_rate = 100 * 65536 := by
  rintro ⟨req, h, _⟩
  have hv : (qcom_smgr_request_buffering_req (accel_sensor [50, 100, 200] 150) true).map
      (fun p => p.2) = some 150 := by decide
  rw [h] at hv
  simp at hv

/-- C5, amended.  For the native rates [50, 100, 200] and a maximum rate of
150 the enable path selects the rate 150 and the report rate 150 * 65536.  In
general, for a stored non-empty list of native rates, the selected rate is the
last native rate when that rate is nonzero and at most `max_sample_rate`, and
it is `max_sample_rate` when the last native rate is zero or above it. -/
theorem rate_selection_scenario :
    qcom_smgr_request_buffering_req (accel_sensor [50, 100, 200] 150) true =
      some ({ report_id := 0x12
              notify_suspend_valid := false
              action := sns_smgr_buffering_action.SNS_SMGR_BUFFERING_ACTION_ADD
              report_rate := 150 * 65536
              item_len := 1
              items := [{ sensor_id := 0x12
                          data_type := qcom_smgr_data_type.SNS_SMGR_DATA_TYPE_PRIMARY
                          sampling_rate := 150
                          val1 := 3
                          val2 := 1 }] }, 150) ∧
    ∀ (sensor : qcom_smgr_sensor) (dt : qcom_smgr_data_type_item) (rates : List Nat) (last : Nat),
      data_types_0 sensor = some dt → dt.native_sample_rates = some rates →
      dt.native_sample_rate_count = rates.length → rates.getLast? = some last →
      ((last ≠ 0 ∧ last ≤ dt.max_sample_rate →
          (qcom_smgr_request_buffering_req sensor true).map (fun p => p.2) = some last) ∧
       (last = 0 ∨ dt.max_sample_rate < last →
          (qcom_smgr_request_buffering_req sensor true).map (fun p => p.2) =
            some dt.max_sample_rate)) := by
  refine ⟨by decide, ?_⟩
  intro sensor dt rates last hdt hr hc hl
  have hne : rates ≠ [] := by
    intro h
    simp [h] at hl
  have hlast : native_sample_rate_last dt = some last := by
    rw [native_sample_rate_last_stored dt rates hr hc hne, ← List.getLast?_eq_getElem?]
    exact hl
  rw [request_buffering_req_enable sensor dt _ hdt hlast]
  simp only [Option.map_some', clamp_sample_rate, Option.some.injEq]
  constructor
  · rintro ⟨h0, hle⟩
    have : ¬ (last = 0 ∨ last > dt.max_sample_rate) := by omega
    simp [this]
  · intro h
    have : last = 0 ∨ last > dt.max_sample_rate := h
    simp [this]

/-- Witness of C5, amended: the general part at the native rates [50, 100]
with maximum rate 150, where the last native rate 100 is selected. -/
theorem rate_selection_scenario_witness :
    (100 ≠ 0 ∧ 100 ≤ 150) ∧
    (qcom_smgr_request_buffering_req (accel_sensor [50, 100] 150) true).map (fun p => p.2) =
      some 100 :=
  ⟨⟨by decide, by decide⟩,
   (rate_selection_scenario.2 (accel_sensor [50, 100] 150) (accel_item [50, 100] 150) [50, 100]
      100 rfl rfl rfl rfl).1 ⟨by decide, by decide⟩⟩

/-- C6, report-rate invariant.  Whenever the enable path builds a request with
a chosen rate `r`, `0 < r <= 65535`, the report rate of the request is
`r * SMGR_REPORT_RATE_HZ` with `SMGR_REPORT_RATE_HZ = 2 * 32768 = 65536`; the
product is below 2^32, so the u32 field holds the exact integer `r * 65536`,
and it is strictly greater than `r`. -/
theorem report_rate_invariant (sensor : qcom_smgr_sensor) (req : sns_smgr_buffering_req)
    (r : Nat) (h : qcom_smgr_request_buffering_req sensor true = some (req, r))
    (hpos : 0 < r) (hu16 : r ≤ 65535) :
    req.report_rate = r * SMGR_REPORT_RATE_HZ ∧
    SMGR_REPORT_RATE_HZ = 2 * 32768 ∧
    SMGR_REPORT_RATE_HZ = 65536 ∧
    r * SMGR_REPORT_RATE_HZ < 2 ^ 32 ∧
    req.report_rate = r * 65536 ∧
    r < req.report_rate := by
  obtain ⟨dt, last, _, _, _, hreq⟩ := request_buffering_req_enable_inv sensor req r h
  have hrate : req.report_rate = r * 65536 := by
    have hx := report_rate_exact r hu16
    rw [hreq]
    dsimp only
    rw [hx]
  have hk : SMGR_REPORT_RATE_HZ = 65536 := by decide
  refine ⟨by rw [hrate, hk], by decide, hk, by rw [hk]; omega, hrate, by omega⟩

/-- Witness of C6: the largest u16 rate, 65535, chosen for a sensor without
native rates and with maximum rate 65535. -/
theorem report_rate_invariant_witness :
    (∃ req, qcom_smgr_request_buffering_req (accel_sensor [] 65535) true = some (req, 65535) ∧
      req.report_rate = 65535 * 65536 ∧ 65535 < req.report_rate) ∧
    0 < 65535 ∧ 65535 ≤ 65535 :=
  ⟨⟨_, rfl,
      (report_rate_invariant (accel_sensor [] 65535) _ 65535 rfl (by decide) (by decide)).2.2.2.2.1,
      (report_rate_invariant (accel_sensor [] 65535) _ 65535 rfl (by decide) (by decide)).2.2.2.2.2⟩,
   by decide, by decide⟩

/-- C7, outcome of enabling buffering.  For every sensor on which the enable
path builds a request `req` with chosen rate `r`, and every outcome of the
transaction: when the transaction is opened, sent and answered with result 0,
the call returns 0 and leaves the sensor with `cur_sample_rate` of the first
item set to `r` and nothing else changed; when the transaction cannot be
opened or sent, the wait fails (timeout), or the result is nonzero, the call
returns a negative code and leaves the sensor exactly as it was. -/
theorem enable_buffering_outcome (txn : qmi_txn_outcome) (sensor : qcom_smgr_sensor)
    (req : sns_smgr_buffering_req) (r : Nat)
    (h : qcom_smgr_request_buffering_req sensor true = some (req, r)) :
    (0 ≤ txn.txn_init_ret ∧ 0 ≤ txn.send_request_ret ∧ 0 ≤ txn.txn_wait_ret ∧
        txn.resp_result = 0 →
      ∃ dt rest, sensor.data_types = some (dt :: rest) ∧
        qcom_smgr_request_buffering txn sensor true =
          some { ret := 0
                 sensor := { sensor with
                   data_types := some ({ dt with cur_sample_rate := r } :: rest) }
                 sent := [req] }) ∧
    (txn.txn_init_ret < 0 ∨ txn.send_request_ret < 0 ∨ txn.txn_wait_ret < 0 ∨
        txn.resp_result ≠ 0 →
      ∃ eff, qcom_smgr_request_buffering txn sensor true = some eff ∧ eff.ret < 0 ∧
        eff.sensor = sensor) := by
  constructor
  · intro hs
    obtain ⟨dt, _, hdt, _, _, _⟩ := request_buffering_req_enable_inv sensor req r h
    obtain ⟨rest, hrest⟩ := data_types_0_some sensor dt hdt
    exact ⟨dt, rest, hrest, request_buffering_succeeded txn sensor true req r dt rest h hrest hs⟩
  · intro hf
    obtain ⟨eff, h1, h2, h3, _⟩ := request_buffering_failed txn sensor true req r h hf
    exact ⟨eff, h1, h2, h3⟩

/-- Witness of C7: the accelerometer with native rates [50, 100] and maximum
rate 150, whose current rate 150 becomes 100 on success, and which is left
untouched by a wait that times out with -110. -/
theorem enable_buffering_outcome_witness :
    (∃ req, qcom_smgr_request_buffering_req (accel_sensor [50, 100] 150) true =
      some (req, 100)) ∧
    (∃ dt rest, (accel_sensor [50, 100] 150).data_types = some (dt :: rest) ∧
      qcom_smgr_request_buffering txn_success (accel_sensor [50, 100] 150) true =
        some { ret := 0
               sensor := { accel_sensor [50, 100] 150 with
                 data_types := some ({ dt with cur_sample_rate := 100 } :: rest) }
               sent := [{ report_id := 0x12
                          notify_suspend_valid := false
                          action := sns_smgr_buffering_action.SNS_SMGR_BUFFERING_ACTION_ADD
                          report_rate := 100 * 65536
                          item_len := 1
                          items := [{ sensor_id := 0x12
                                      data_type := qcom_smgr_data_type.SNS_SMGR_DATA_TYPE_PRIMARY
                                      sampling_rate := 100
                                      val1 := 3
                                      val2 := 1 }] }] }) ∧
    (∃ eff, qcom_smgr_request_buffering { txn_success with txn_wait_ret := -110 }
        (accel_sensor [50, 100] 150) true = some eff ∧ eff.ret < 0 ∧
      eff.sensor = accel_sensor [50, 100] 150) :=
  ⟨⟨_, rfl⟩,
   (enable_buffering_outcome txn_success (accel_sensor [50, 100] 150) _ 100 rfl).1
     (by decide),
   (enable_buffering_outcome { txn_success with txn_wait_ret := -110 }
     (accel_sensor [50, 100] 150) _ 100 rfl).2 (by decide)⟩

/-- C8 fails on the code: a successful disable stores the local `sample_rate`,
still 0 on that path, in `cur_sample_rate`.  The accelerometer whose current
rate is 150 is left with the current rate 0, the call returning 0. -/
theorem stop_buffering_resets_rate :
    (data_types_0 (accel_sensor [50, 100, 200] 150)).map (fun dt => dt.cur_sample_rate) =
      some 150 ∧
    (qcom_smgr_request_buffering txn_success (accel_sensor [50, 100, 200] 150) false).map
        (fun eff => (eff.ret, (data_types_0 eff.sensor).map (fun dt => dt.cur_sample_rate))) =
      some (0, some 0) := by
  decide

/-- The rate chosen by the clamp never exceeds the maximum rate. -/
theorem clamp_sample_rate_le (last max_sample_rate : Nat) :
    clamp_sample_rate last max_sample_rate ≤ max_sample_rate := by
  unfold clamp_sample_rate
  split
  · exact le_refl _
  · rename_i h
    omega

/-- C9, shape of the buffering request.  For every sensor the disable path
builds the request with `report_id = sensor.id`, action DELETE, no item
(`item_len = 0`) and `report_rate = 0`.  For every sensor whose first item
exists, with the index `count - 1` inside its rate list and a maximum rate
that is a u16, the enable path builds the request with
`report_id = sensor.id`, action ADD, `report_rate = r * 65536` and exactly one
item, with `sensor_id = sensor.id`, data type PRIMARY and `sampling_rate = r`,
where `r` is the chosen rate `clamp_sample_rate last max_sample_rate`; and
whenever the enable path builds a request at all, that request is the ADD
request with one such item.  The full function is defined on such a sensor
and passes the request built, and no other, to the transport. -/
theorem buffering_request_shape (sensor : qcom_smgr_sensor) :
    qcom_smgr_request_buffering_req sensor false =
      some ({ report_id := sensor.id
              notify_suspend_valid := false
              action := sns_smgr_buffering_action.SNS_SMGR_BUFFERING_ACTION_DELETE
              report_rate := 0
              item_len := 0
              items := [] }, 0) ∧
    (∀ (dt : qcom_smgr_data_type_item) (last : Nat),
      data_types_0 sensor = some dt → native_sample_rate_last dt = some last →
      dt.max_sample_rate < 65536 →
      qcom_smgr_request_buffering_req sensor true =
        some ({ report_id := sensor.id
                notify_suspend_valid := false
                action := sns_smgr_buffering_action.SNS_SMGR_BUFFERING_ACTION_ADD
                report_rate := clamp_sample_rate last dt.max_sample_rate * 65536
                item_len := 1
                items := [{ sensor_id := sensor.id
                            data_type := qcom_smgr_data_type.SNS_SMGR_DATA_TYPE_PRIMARY
                            sampling_rate := clamp_sample_rate last dt.max_sample_rate
                            val1 := 3
                            val2 := 1 }] },
              clamp_sample_rate last dt.max_sample_rate) ∧
      ∀ (txn : qmi_txn_outcome) (enable : Bool),
        ∃ eff req r, qcom_smgr_request_buffering txn sensor enable = some eff ∧
          qcom_smgr_request_buffering_req sensor enable = some (req, r) ∧
          eff.sent = if txn.txn_init_ret < 0 then [] else [req]) ∧
    (∀ (req : sns_smgr_buffering_req) (r : Nat),
      qcom_smgr_request_buffering_req sensor true = some (req, r) →
      req.report_id = sensor.id ∧
      req.action = sns_smgr_buffering_action.SNS_SMGR_BUFFERING_ACTION_ADD ∧
      req.item_len = 1 ∧
      req.items = [{ sensor_id := sensor.id
                     data_type := qcom_smgr_data_type.SNS_SMGR_DATA_TYPE_PRIMARY
                     sampling_rate := r
                     val1 := 3
                     val2 := 1 }] ∧
      (r < 65536 → req.report_rate = r * 65536)) ∧
    (∀ (txn : qmi_txn_outcome) (enable : Bool) (eff : buffering_effects),
      qcom_smgr_request_buffering txn sensor enable = some eff →
      ∃ req r, qcom_smgr_request_buffering_req sensor enable = some (req, r) ∧
        eff.sent = if txn.txn_init_ret < 0 then [] else [req]) := by
  have hsent : ∀ (txn : qmi_txn_outcome) (enable : Bool) (eff : buffering_effects),
      qcom_smgr_request_buffering txn sensor enable = some eff →
      ∃ req r, qcom_smgr_request_buffering_req sensor enable = some (req, r) ∧
        eff.sent = if txn.txn_init_ret < 0 then [] else [req] := by
    intro txn enable eff h
    cases hb : qcom_smgr_request_buffering_req sensor enable with
    | none => simp [qcom_smgr_request_buffering, hb] at h
    | some p =>
      obtain ⟨req, r⟩ := p
      refine ⟨req, r, rfl, ?_⟩
      simp only [qcom_smgr_request_buffering, hb] at h
      by_cases h1 : txn.txn_init_ret < 0
      · simp only [h1, if_true, Option.some.injEq] at h
        simp [← h, h1]
      · simp only [h1, if_false] at h ⊢
        split at h
        · simp only [Option.some.injEq] at h; simp [← h]
        · split at h
          · simp only [Option.some.injEq] at h; simp [← h]
          · split at h
            · simp only [Option.some.injEq] at h; simp [← h]
            · split at h
              · simp at h
              · simp only [Option.some.injEq] at h; simp [← h]
  refine ⟨rfl, ?_, ?_, hsent⟩
  · intro dt last hdt hlast hmax
    have hle := clamp_sample_rate_le last dt.max_sample_rate
    refine ⟨?_, ?_⟩
    · rw [request_buffering_req_enable sensor dt last hdt hlast,
        report_rate_exact (clamp_sample_rate last dt.max_sample_rate) (by omega)]
    · intro txn enable
      obtain ⟨rest, hrest⟩ := data_types_0_some sensor dt hdt
      have hdef : ∃ req r, qcom_smgr_request_buffering_req sensor enable = some (req, r) := by
        cases enable with
        | false => exact ⟨_, _, rfl⟩
        | true => exact ⟨_, _, request_buffering_req_enable sensor dt last hdt hlast⟩
      obtain ⟨req, r, hreq⟩ := hdef
      have heff : ∃ eff, qcom_smgr_request_buffering txn sensor enable = some eff := by
        by_cases hf : txn.txn_init_ret < 0 ∨ txn.send_request_ret < 0 ∨
            txn.txn_wait_ret < 0 ∨ txn.resp_result ≠ 0
        · obtain ⟨eff, he, _⟩ := request_buffering_failed txn sensor enable req r hreq hf
          exact ⟨eff, he⟩
        · have hs : 0 ≤ txn.txn_init_ret ∧ 0 ≤ txn.send_request_ret ∧
              0 ≤ txn.txn_wait_ret ∧ txn.resp_result = 0 := by
            refine ⟨?_, ?_, ?_, ?_⟩
            · by_contra h; exact hf (Or.inl (by omega))
            · by_contra h; exact hf (Or.inr (Or.inl (by omega)))
            · by_contra h; exact hf (Or.inr (Or.inr (Or.inl (by omega))))
            · by_contra h; exact hf (Or.inr (Or.inr (Or.inr h)))
          exact ⟨_, request_buffering_succeeded txn sensor enable req r dt rest hreq hrest hs⟩
      obtain ⟨eff, he⟩ := heff
      obtain ⟨req2, r2, hreq2, hs2⟩ := hsent txn enable eff he
      exact ⟨eff, req2, r2, he, hreq2, hs2⟩
  · intro req r h
    obtain ⟨dt, last, _, _, _, hreq⟩ := request_buffering_req_enable_inv sensor req r h
    subst hreq
    refine ⟨rfl, rfl, rfl, rfl, ?_⟩
    intro hr
    dsimp only
    exact report_rate_exact r (by omega)

/-- Witness of C9: the enable request of the accelerometer with native rates
[50, 100] and maximum rate 150 is the ADD request with the one item at rate
100 and report rate 100 * 65536, and it is the request sent. -/
theorem buffering_request_shape_witness :
    (data_types_0 (accel_sensor [50, 100] 150) = some (accel_item [50, 100] 150) ∧
      native_sample_rate_last (accel_item [50, 100] 150) = some 100 ∧
      (accel_item [50, 100] 150).max_sample_rate < 65536) ∧
    qcom_smgr_request_buffering_req (accel_sensor [50, 100] 150) true =
      some ({ report_id := 0x12
              notify_suspend_valid := false
              action := sns_smgr_buffering_action.SNS_SMGR_BUFFERING_ACTION_ADD
              report_rate := 100 * 65536
              item_len := 1
              items := [{ sensor_id := 0x12
                          data_type := qcom_smgr_data_type.SNS_SMGR_DATA_TYPE_PRIMARY
                          sampling_rate := 100
                          val1 := 3
                          val2 := 1 }] }, 100) ∧
    (qcom_smgr_request_buffering txn_success (accel_sensor [50, 100] 150) true).map
        (fun eff => eff.sent.map (fun req => (req.action, req.item_len, req.report_rate))) =
      some [(sns_smgr_buffering_action.SNS_SMGR_BUFFERING_ACTION_ADD, 1, 100 * 65536)] :=
  ⟨⟨by decide, by decide, by decide⟩,
   ((buffering_request_shape (accel_sensor [50, 100] 150)).2.1
     (accel_item [50, 100] 150) 100 (by decide) (by decide) (by decide)).1,
   by decide⟩

end QcomSmgr

namespace QcomSnsReg

/-! ## Registry server: facts about the lifecycle -/

/-- The blob of 0x210 bytes has 0x210 bytes. -/
theorem blob_0x210_size : blob_0x210.size = 0x210 := by
  simp only [firmware.size, blob_0x210, List.length_replicate]

/-- The service start on a published session does nothing and returns 0. -/
theorem service_start_started (env : sns_reg_env) (data : qcom_sns_reg_data)
    (h : data.qmi_svc_started = true) :
    qcom_sns_reg_qmi_service_start env data = (0, data, []) := by
  simp [qcom_sns_reg_qmi_service_start, h]

/-- The service start on an unpublished session registers the server once and
publishes exactly when the registration returns 0. -/
theorem service_start_not_started (env : sns_reg_env) (data : qcom_sns_reg_data)
    (h : data.qmi_svc_started = false) :
    qcom_sns_reg_qmi_service_start env data =
      (env.qmi_add_server_ret,
       if env.qmi_add_server_ret = 0 then { data with qmi_svc_started := true } else data,
       [sns_reg_call.qmi_add_server env.qmi_add_server_ret]) := by
  by_cases h0 : env.qmi_add_server_ret = 0
  · simp [qcom_sns_reg_qmi_service_start, h, h0]
  · simp [qcom_sns_reg_qmi_service_start, h, h0]

/-- The condition under which `qcom_sns_reg_maybe_start` attempts the start. -/
theorem maybe_start_eq (env : sns_reg_env) (data : qcom_sns_reg_data) :
    qcom_sns_reg_maybe_start env data =
      if (data.target_rproc = sns_reg_target_rproc.RPROC_ADSP ∧
            env.qcom_ssr_last_status "lpass" = QCOM_SSR_AFTER_POWERUP) ∨
          (data.target_rproc = sns_reg_target_rproc.RPROC_SLPI ∧
            env.qcom_ssr_last_status "dsps" = QCOM_SSR_AFTER_POWERUP)
      then ((qcom_sns_reg_qmi_service_start env data).2.1,
            (qcom_sns_reg_qmi_service_start env data).2.2)
      else (data, []) := by
  unfold qcom_sns_reg_maybe_start
  cases ht : data.target_rproc with
  | NOT_SUPPORTED => simp
  | RPROC_ADSP =>
    by_cases h : env.qcom_ssr_last_status "lpass" = QCOM_SSR_AFTER_POWERUP
    · simp [h]
    · simp [h]
  | RPROC_SLPI =>
    by_cases h : env.qcom_ssr_last_status "dsps" = QCOM_SSR_AFTER_POWERUP
    · simp [h]
    · simp [h]

/-- The three possible results of `qcom_sns_reg_maybe_start`: nothing happens,
a registration fails, or a registration succeeds and the flag is set. -/
theorem maybe_start_cases (env : sns_reg_env) (data : qcom_sns_reg_data) :
    qcom_sns_reg_maybe_start env data = (data, []) ∨
    (data.qmi_svc_started = false ∧ env.qmi_add_server_ret ≠ 0 ∧
      data.target_rproc ≠ sns_reg_target_rproc.NOT_SUPPORTED ∧
      qcom_sns_reg_maybe_start env data =
        (data, [sns_reg_call.qmi_add_server env.qmi_add_server_ret])) ∨
    (data.qmi_svc_started = false ∧ env.qmi_add_server_ret = 0 ∧
      data.target_rproc ≠ sns_reg_target_rproc.NOT_SUPPORTED ∧
      qcom_sns_reg_maybe_start env data =
        ({ data with qmi_svc_started := true }, [sns_reg_call.qmi_add_server 0])) := by
  rw [maybe_start_eq]
  split
  · rename_i hc
    have hsup : data.target_rproc ≠ sns_reg_target_rproc.NOT_SUPPORTED := by
      rcases hc with ⟨h, _⟩ | ⟨h, _⟩ <;> simp [h]
    cases hs : data.qmi_svc_started with
    | true =>
      left
      rw [service_start_started env data hs]
    | false =>
      rw [service_start_not_started env data hs]
      by_cases h0 : env.qmi_add_server_ret = 0
      · right; right
        exact ⟨rfl, h0, hsup, by simp [h0]⟩
      · right; left
        exact ⟨rfl, h0, hsup, by simp [h0]⟩
  · left; rfl

end QcomSnsReg

namespace QcomSnsReg

/-- The firmware loop changes nothing of the session but the firmware pointer. -/
theorem load_firmware_loop_frame (env : sns_reg_env) (names : List (Option String)) :
    ∀ (ret : Int) (data : qcom_sns_reg_data) (calls : List sns_reg_call),
      (load_firmware_loop env names ret data calls).2.1.refcnt = data.refcnt ∧
      (load_firmware_loop env names ret data calls).2.1.qmi_svc_started = data.qmi_svc_started ∧
      (load_firmware_loop env names ret data calls).2.1.target_rproc = data.target_rproc ∧
      (load_firmware_loop env names ret data calls).2.1.first_auxdev = data.first_auxdev ∧
      (load_firmware_loop env names ret data calls).2.1.ssr_cookie = data.ssr_cookie := by
  induction names with
  | nil => intro ret data calls; simp [load_firmware_loop]
  | cons n rest ih =>
    intro ret data calls
    cases n with
    | none =>
      simp only [load_firmware_loop]
      exact ih ret data calls
    | some name =>
      simp only [load_firmware_loop]
      split
      · simp
      · exact ih _ _ _

/-- Loading the firmware changes nothing of the session but the firmware pointer. -/
theorem load_firmware_frame (env : sns_reg_env) (data : qcom_sns_reg_data) :
    (qcom_sns_reg_load_firmware env data).2.1.refcnt = data.refcnt ∧
    (qcom_sns_reg_load_firmware env data).2.1.qmi_svc_started = data.qmi_svc_started ∧
    (qcom_sns_reg_load_firmware env data).2.1.target_rproc = data.target_rproc ∧
    (qcom_sns_reg_load_firmware env data).2.1.first_auxdev = data.first_auxdev ∧
    (qcom_sns_reg_load_firmware env data).2.1.ssr_cookie = data.ssr_cookie := by
  unfold qcom_sns_reg_load_firmware
  dsimp only
  split
  · simp
  · exact load_firmware_loop_frame env _ 0 data []

/-- The cleanup keeps the count, the flag, the target and the logging device. -/
theorem probe_once_err_cleanup_frame (data : qcom_sns_reg_data) :
    (probe_once_err_cleanup data).1.refcnt = data.refcnt ∧
    (probe_once_err_cleanup data).1.qmi_svc_started = data.qmi_svc_started ∧
    (probe_once_err_cleanup data).1.target_rproc = data.target_rproc ∧
    (probe_once_err_cleanup data).1.first_auxdev = data.first_auxdev := by
  unfold probe_once_err_cleanup
  cases hfw : data.fw <;> cases hc : data.ssr_cookie <;> simp [hc]

/-- The initialisation after target detection keeps the count, the flag and the target. -/
theorem probe_once_supported_frame (env : sns_reg_env) (name : String)
    (data : qcom_sns_reg_data) :
    (probe_once_supported env name data).2.1.refcnt = data.refcnt ∧
    (probe_once_supported env name data).2.1.qmi_svc_started = data.qmi_svc_started ∧
    (probe_once_supported env name data).2.1.target_rproc = data.target_rproc := by
  obtain ⟨l1, l2, l3, _, _⟩ := load_firmware_frame env data
  unfold probe_once_supported
  dsimp only
  split
  · exact ⟨l1, l2, l3⟩
  · split
    · obtain ⟨c1, c2, c3, _⟩ := probe_once_err_cleanup_frame (qcom_sns_reg_load_firmware env data).2.1
      dsimp only
      exact ⟨c1.trans l1, c2.trans l2, c3.trans l3⟩
    · split
      · rename_i cookie _ _
        obtain ⟨c1, c2, c3, _⟩ := probe_once_err_cleanup_frame
          { (qcom_sns_reg_load_firmware env data).2.1 with ssr_cookie := some cookie }
        dsimp only
        exact ⟨c1.trans l1, c2.trans l2, c3.trans l3⟩
      · exact ⟨l1, l2, l3⟩

/-- The first-attach initialisation keeps the count and the flag, and records
the detected target. -/
theorem probe_once_frame (env : sns_reg_env) (auxdev : Nat) (data : qcom_sns_reg_data) :
    (qcom_sns_reg_probe_once env auxdev data).2.1.refcnt = data.refcnt ∧
    (qcom_sns_reg_probe_once env auxdev data).2.1.qmi_svc_started = data.qmi_svc_started ∧
    (qcom_sns_reg_probe_once env auxdev data).2.1.target_rproc =
      get_target_rproc env.of_match_node := by
  unfold qcom_sns_reg_probe_once
  dsimp only
  split
  · rename_i h
    obtain ⟨f1, f2, f3⟩ := probe_once_supported_frame env "lpass"
      { data with first_auxdev := some auxdev
                  target_rproc := get_target_rproc env.of_match_node }
    exact ⟨f1, f2, f3⟩
  · rename_i h
    obtain ⟨f1, f2, f3⟩ := probe_once_supported_frame env "dsps"
      { data with first_auxdev := some auxdev
                  target_rproc := get_target_rproc env.of_match_node }
    exact ⟨f1, f2, f3⟩
  · exact ⟨rfl, rfl, rfl⟩

/-- The conditional start changes nothing of the session but the publish flag. -/
theorem maybe_start_frame (env : sns_reg_env) (data : qcom_sns_reg_data) :
    (qcom_sns_reg_maybe_start env data).1 =
      { data with qmi_svc_started := (qcom_sns_reg_maybe_start env data).1.qmi_svc_started } := by
  rcases maybe_start_cases env data with h | ⟨_, _, _, h⟩ | ⟨_, _, _, h⟩ <;> rw [h]

/-- The conditional start never clears the publish flag. -/
theorem maybe_start_mono (env : sns_reg_env) (data : qcom_sns_reg_data)
    (h : data.qmi_svc_started = true) :
    qcom_sns_reg_maybe_start env data = (data, []) := by
  rcases maybe_start_cases env data with h1 | ⟨h1, _⟩ | ⟨h1, _⟩
  · exact h1
  · rw [h] at h1; cases h1
  · rw [h] at h1; cases h1

/-- An attach on an installed session: the count grows by one, the conditional
start runs, nothing else. -/
theorem probe_installed (env : sns_reg_env) (auxdev : Nat) (data : qcom_sns_reg_data) :
    qcom_sns_reg_probe env auxdev (some data) =
      (0, some (qcom_sns_reg_maybe_start env { data with refcnt := data.refcnt + 1 }).1,
        (qcom_sns_reg_maybe_start env { data with refcnt := data.refcnt + 1 }).2) := by
  simp [qcom_sns_reg_probe, refcount_inc]

/-- A detach on a device whose driver data points to the installed session:
the last reference tears the session down, any other reference is dropped,
and a count of zero is left alone. -/
theorem remove_installed (data : qcom_sns_reg_data) :
    qcom_sns_reg_remove true (some data) =
      if data.refcnt = 0 then some (some data, [])
      else if data.refcnt = 1 then
        some (none, [sns_reg_call.qcom_unregister_ssr_notifier data.ssr_cookie,
                     sns_reg_call.qmi_handle_release,
                     sns_reg_call.release_firmware data.fw,
                     sns_reg_call.kfree_data])
      else some (some { data with refcnt := data.refcnt - 1 }, []) := by
  by_cases h0 : data.refcnt = 0
  · have hd : { data with refcnt := 0 } = data := by
      cases data
      simp only at h0
      subst h0
      rfl
    simp [qcom_sns_reg_remove, refcount_dec_and_mutex_lock, h0, hd]
  · by_cases h1 : data.refcnt = 1
    · simp [qcom_sns_reg_remove, refcount_dec_and_mutex_lock, h1]
    · simp [qcom_sns_reg_remove, refcount_dec_and_mutex_lock, h0, h1]

end QcomSnsReg

namespace QcomSnsReg

/-- A first attach that returns 0 installs a session with count 1. -/
theorem probe_first_ok (env : sns_reg_env) (auxdev : Nat)
    (h : (qcom_sns_reg_probe env auxdev none).1 = 0) :
    ∃ d, (qcom_sns_reg_probe env auxdev none).2.1 = some d ∧ d.refcnt = 1 := by
  unfold qcom_sns_reg_probe at h ⊢
  by_cases hk : env.kzalloc_ok = false
  · simp [hk, ENOMEM] at h
  · simp only [hk, if_false]
    refine ⟨_, rfl, ?_⟩
    rw [maybe_start_frame]
    exact (probe_once_frame env auxdev { kzalloc_data with refcnt := 1 }).1

/-- Attaches on an installed session all return 0, add their number to the
count and keep the blob, the cookie and the target. -/
theorem probe_all_installed (auxdev : Nat) (envs : List sns_reg_env) :
    ∀ d : qcom_sns_reg_data,
      ∃ d1, (probe_all auxdev (some d) envs).2.1 = some d1 ∧
        d1.refcnt = d.refcnt + envs.length ∧ d1.fw = d.fw ∧ d1.ssr_cookie = d.ssr_cookie ∧
        d1.target_rproc = d.target_rproc ∧
        ∀ r ∈ (probe_all auxdev (some d) envs).1, r = 0 := by
  induction envs with
  | nil => intro d; exact ⟨d, rfl, rfl, rfl, rfl, rfl, by simp [probe_all]⟩
  | cons env rest ih =>
    intro d
    simp only [probe_all, probe_installed]
    obtain ⟨d1, h1, h2, h3, h4, h5, h6⟩ :=
      ih (qcom_sns_reg_maybe_start env { d with refcnt := d.refcnt + 1 }).1
    rw [maybe_start_frame] at h2 h3 h4 h5
    refine ⟨d1, h1, ?_, h3, h4, h5, ?_⟩
    · simp only [List.length_cons] at h2 ⊢
      omega
    · intro r hr
      rcases List.mem_cons.mp hr with rfl | hr
      · rfl
      · exact h6 r hr

/-- Fewer detaches than the count only lower the count. -/
theorem remove_n_below (k : Nat) :
    ∀ d : qcom_sns_reg_data, k < d.refcnt →
      remove_n (some d) k = some (some { d with refcnt := d.refcnt - k }, []) := by
  induction k with
  | zero => intro d _; rfl
  | succ k ih =>
    intro d hk
    have h0 : d.refcnt ≠ 0 := by omega
    have h1 : d.refcnt ≠ 1 := by omega
    simp only [remove_n, remove_installed, h0, h1, if_false]
    rw [ih { d with refcnt := d.refcnt - 1 } (by simp only; omega)]
    simp only [List.append_nil, Option.some.injEq, Prod.mk.injEq, and_true]
    congr 1
    omega

/-- As many detaches as the count tear the session down in the last one. -/
theorem remove_n_all (d : qcom_sns_reg_data) (h : 1 ≤ d.refcnt) :
    remove_n (some d) d.refcnt =
      some (none, [sns_reg_call.qcom_unregister_ssr_notifier d.ssr_cookie,
                   sns_reg_call.qmi_handle_release,
                   sns_reg_call.release_firmware d.fw,
                   sns_reg_call.kfree_data]) := by
  have hsplit : d.refcnt = (d.refcnt - 1) + 1 := by omega
  have hlast : ∀ (k : Nat) (d0 : qcom_sns_reg_data), d0.refcnt = k + 1 →
      remove_n (some d0) (k + 1) =
        some (none, [sns_reg_call.qcom_unregister_ssr_notifier d0.ssr_cookie,
                     sns_reg_call.qmi_handle_release,
                     sns_reg_call.release_firmware d0.fw,
                     sns_reg_call.kfree_data]) := by
    intro k
    induction k with
    | zero =>
      intro d0 h0
      simp [remove_n, remove_installed, h0]
    | succ k ih =>
      intro d0 h0
      have hne0 : d0.refcnt ≠ 0 := by omega
      have hne1 : d0.refcnt ≠ 1 := by omega
      rw [remove_n]
      simp only [remove_installed, hne0, hne1, if_false]
      rw [ih { d0 with refcnt := d0.refcnt - 1 } (by simp only; omega)]
      simp
  rw [hsplit]
  exact hlast (d.refcnt - 1) d (by omega)

end QcomSnsReg

namespace QcomSnsReg

/-- The count of successful registrations adds up over concatenation. -/
theorem count_add_server_ok_append (c1 c2 : List sns_reg_call) :
    count_add_server_ok (c1 ++ c2) = count_add_server_ok c1 + count_add_server_ok c2 := by
  simp [count_add_server_ok, List.filter_append]

/-- Calls without a registration count no successful registration. -/
theorem count_add_server_ok_none (c : List sns_reg_call)
    (h : ∀ ret, sns_reg_call.qmi_add_server ret ∉ c) : count_add_server_ok c = 0 := by
  simp only [count_add_server_ok, List.length_eq_zero, List.filter_eq_nil_iff,
    decide_eq_true_eq]
  intro a ha h0
  exact h 0 (h0 ▸ ha)

/-- What the conditional start does to the publish flag and the registrations. -/
theorem maybe_start_publish (env : sns_reg_env) (d : qcom_sns_reg_data) :
    (d.qmi_svc_started = true →
      (qcom_sns_reg_maybe_start env d).1.qmi_svc_started = true ∧
      ∀ ret, sns_reg_call.qmi_add_server ret ∉ (qcom_sns_reg_maybe_start env d).2) ∧
    count_add_server_ok (qcom_sns_reg_maybe_start env d).2 ≤ 1 ∧
    (count_add_server_ok (qcom_sns_reg_maybe_start env d).2 = 1 →
      (qcom_sns_reg_maybe_start env d).1.qmi_svc_started = true) ∧
    sns_reg_call.kfree_data ∉ (qcom_sns_reg_maybe_start env d).2 := by
  rcases maybe_start_cases env d with h | ⟨hs, h0, _, h⟩ | ⟨hs, h0, _, h⟩
  · rw [h]
    simp [count_add_server_ok]
  · rw [h]
    refine ⟨?_, ?_, ?_, ?_⟩
    · intro ht; rw [ht] at hs; cases hs
    · simp [count_add_server_ok, h0]
    · simp [count_add_server_ok, h0]
    · simp
  · rw [h]
    refine ⟨?_, ?_, ?_, ?_⟩
    · intro ht; rw [ht] at hs; cases hs
    · simp [count_add_server_ok]
    · simp
    · simp

/-- One entry point on an installed session that is not torn down by it. -/
theorem step_alive (d : qcom_sns_reg_data) (op : sns_reg_op) (g : Option qcom_sns_reg_data)
    (calls : List sns_reg_call) (h : sns_reg_step (some d) op = some (g, calls))
    (hk : sns_reg_call.kfree_data ∉ calls) :
    ∃ d1, g = some d1 ∧
      (d.qmi_svc_started = true →
        d1.qmi_svc_started = true ∧ ∀ ret, sns_reg_call.qmi_add_server ret ∉ calls) ∧
      count_add_server_ok calls ≤ 1 ∧
      (count_add_server_ok calls = 1 → d1.qmi_svc_started = true) := by
  cases op with
  | probe env auxdev =>
    simp only [sns_reg_step, probe_installed, Option.some.injEq, Prod.mk.injEq] at h
    obtain ⟨hg, hc⟩ := h
    subst hg; subst hc
    obtain ⟨p1, p2, p3, _⟩ := maybe_start_publish env { d with refcnt := d.refcnt + 1 }
    exact ⟨_, rfl, p1, p2, p3⟩
  | remove has_drvdata =>
    cases has_drvdata with
    | false =>
      simp only [sns_reg_step, qcom_sns_reg_remove, if_true, Option.some.injEq,
        Prod.mk.injEq] at h
      obtain ⟨hg, hc⟩ := h
      subst hg; subst hc
      exact ⟨d, rfl, fun ht => ⟨ht, by simp⟩, by simp [count_add_server_ok],
        by simp [count_add_server_ok]⟩
    | true =>
      simp only [sns_reg_step, remove_installed] at h
      by_cases h0 : d.refcnt = 0
      · rw [if_pos h0] at h
        simp only [Option.some.injEq, Prod.mk.injEq] at h
        obtain ⟨hg, hc⟩ := h
        subst hg; subst hc
        exact ⟨d, rfl, fun ht => ⟨ht, by simp⟩, by simp [count_add_server_ok],
          by simp [count_add_server_ok]⟩
      · by_cases h1 : d.refcnt = 1
        · rw [if_neg h0, if_pos h1] at h
          simp only [Option.some.injEq, Prod.mk.injEq] at h
          obtain ⟨_, hc⟩ := h
          subst hc
          simp at hk
        · rw [if_neg h0, if_neg h1] at h
          simp only [Option.some.injEq, Prod.mk.injEq] at h
          obtain ⟨hg, hc⟩ := h
          subst hg; subst hc
          exact ⟨_, rfl, fun ht => ⟨ht, by simp⟩, by simp [count_add_server_ok],
            by simp [count_add_server_ok]⟩
  | ssr_notify action =>
    simp only [sns_reg_step, qcom_sns_reg_ssr_notify_handler, Option.some.injEq,
      Prod.mk.injEq] at h
    obtain ⟨hg, hc⟩ := h
    subst hg; subst hc
    refine ⟨d, rfl, fun ht => ⟨ht, ?_⟩, ?_, ?_⟩
    · intro ret; split <;> simp
    · split <;> simp [count_add_server_ok]
    · split <;> simp [count_add_server_ok]
  | ssr_notifier_work env =>
    simp only [sns_reg_step, qcom_sns_reg_ssr_notifier_work, Option.some.injEq,
      Prod.mk.injEq] at h
    obtain ⟨hg, hc⟩ := h
    subst hg; subst hc
    obtain ⟨p1, p2, p3, _⟩ := maybe_start_publish env d
    exact ⟨_, rfl, p1, p2, p3⟩

/-- A run of entry points on an installed session that is never torn down:
once published it stays published without another registration, and at most
one registration succeeds. -/
theorem run_alive (ops : List sns_reg_op) :
    ∀ (d : qcom_sns_reg_data) (g : Option qcom_sns_reg_data) (calls : List sns_reg_call),
      sns_reg_run (some d) ops = some (g, calls) → sns_reg_call.kfree_data ∉ calls →
      ∃ d1, g = some d1 ∧
        (d.qmi_svc_started = true →
          d1.qmi_svc_started = true ∧ ∀ ret, sns_reg_call.qmi_add_server ret ∉ calls) ∧
        count_add_server_ok calls ≤ 1 ∧
        (count_add_server_ok calls = 1 → d1.qmi_svc_started = true) := by
  induction ops with
  | nil =>
    intro d g calls h _
    simp only [sns_reg_run, Option.some.injEq, Prod.mk.injEq] at h
    obtain ⟨hg, hc⟩ := h
    subst hg; subst hc
    exact ⟨d, rfl, fun ht => ⟨ht, by simp⟩, by simp [count_add_server_ok],
      by simp [count_add_server_ok]⟩
  | cons op rest ih =>
    intro d g calls h hk
    simp only [sns_reg_run] at h
    cases hs : sns_reg_step (some d) op with
    | none => simp [hs] at h
    | some r1 =>
      obtain ⟨g1, c1⟩ := r1
      simp only [hs] at h
      cases hr : sns_reg_run g1 rest with
      | none => simp [hr] at h
      | some r2 =>
        obtain ⟨g2, c2⟩ := r2
        simp only [hr, Option.some.injEq, Prod.mk.injEq] at h
        obtain ⟨hg, hc⟩ := h
        subst hg; subst hc
        have hk1 : sns_reg_call.kfree_data ∉ c1 := fun hm => hk (List.mem_append_left _ hm)
        have hk2 : sns_reg_call.kfree_data ∉ c2 := fun hm => hk (List.mem_append_right _ hm)
        obtain ⟨d1, hg1, s1, s2, s3⟩ := step_alive d op g1 c1 hs hk1
        subst hg1
        obtain ⟨d2, hg2, t1, t2, t3⟩ := ih d1 g2 c2 hr hk2
        refine ⟨d2, hg2, ?_, ?_, ?_⟩
        · intro ht
          obtain ⟨a1, a2⟩ := s1 ht
          obtain ⟨b1, b2⟩ := t1 a1
          refine ⟨b1, fun ret hm => ?_⟩
          rcases List.mem_append.mp hm with hm | hm
          · exact a2 ret hm
          · exact b2 ret hm
        · rw [count_add_server_ok_append]
          by_cases hc1 : count_add_server_ok c1 = 1
          · have := count_add_server_ok_none c2 (t1 (s3 hc1)).2
            omega
          · omega
        · rw [count_add_server_ok_append]
          intro htot
          by_cases hc2 : count_add_server_ok c2 = 1
          · exact t3 hc2
          · have hc1 : count_add_server_ok c1 = 1 := by omega
            exact (t1 (s3 hc1)).1

end QcomSnsReg

namespace QcomSnsReg

/-- On a session whose target is not supported the conditional start does nothing. -/
theorem maybe_start_unsupported (env : sns_reg_env) (d : qcom_sns_reg_data)
    (h : d.target_rproc = sns_reg_target_rproc.NOT_SUPPORTED) :
    qcom_sns_reg_maybe_start env d = (d, []) := by
  rcases maybe_start_cases env d with h1 | ⟨_, _, hs, _⟩ | ⟨_, _, hs, _⟩
  · exact h1
  · exact absurd h hs
  · exact absurd h hs

/-- The first attach on a platform without a target, the session allocated. -/
theorem probe_first_unsupported (env : sns_reg_env) (auxdev : Nat)
    (hk : env.kzalloc_ok = true)
    (hm : get_target_rproc env.of_match_node = sns_reg_target_rproc.NOT_SUPPORTED) :
    qcom_sns_reg_probe env auxdev none =
      (- ENODEV,
       some { refcnt := 1
              first_auxdev := some auxdev
              qmi_svc_started := false
              fw := none
              target_rproc := sns_reg_target_rproc.NOT_SUPPORTED
              ssr_cookie := none },
       []) := by
  have hp : qcom_sns_reg_probe_once env auxdev { kzalloc_data with refcnt := 1 } =
      (- ENODEV,
       { refcnt := 1
         first_auxdev := some auxdev
         qmi_svc_started := false
         fw := none
         target_rproc := sns_reg_target_rproc.NOT_SUPPORTED
         ssr_cookie := none }, []) := by
    simp [qcom_sns_reg_probe_once, hm, kzalloc_data]
  simp only [qcom_sns_reg_probe, hk, Bool.true_eq_false, if_false, hp]
  rw [maybe_start_unsupported env _ rfl]
  rfl

/-- One entry point on a platform without a target: no session with a target
or a set publish flag appears, and the server is not registered. -/
theorem step_unsupported (g : Option qcom_sns_reg_data) (op : sns_reg_op)
    (g1 : Option qcom_sns_reg_data) (calls : List sns_reg_call)
    (hq : ∀ d, g = some d →
      d.target_rproc = sns_reg_target_rproc.NOT_SUPPORTED ∧ d.qmi_svc_started = false)
    (hop : ∀ env auxdev, op = sns_reg_op.probe env auxdev →
      get_target_rproc env.of_match_node = sns_reg_target_rproc.NOT_SUPPORTED)
    (h : sns_reg_step g op = some (g1, calls)) :
    (∀ d, g1 = some d →
      d.target_rproc = sns_reg_target_rproc.NOT_SUPPORTED ∧ d.qmi_svc_started = false) ∧
    ∀ ret, sns_reg_call.qmi_add_server ret ∉ calls := by
  cases op with
  | probe env auxdev =>
    have hm := hop env auxdev rfl
    cases g with
    | none =>
      cases hk : env.kzalloc_ok with
      | false =>
        simp [sns_reg_step, qcom_sns_reg_probe, hk] at h
        obtain ⟨hg, hc⟩ := h
        subst hg; subst hc
        exact ⟨by simp, by simp⟩
      | true =>
        simp only [sns_reg_step, probe_first_unsupported env auxdev hk hm, Option.some.injEq,
          Prod.mk.injEq] at h
        obtain ⟨hg, hc⟩ := h
        subst hg; subst hc
        refine ⟨?_, by simp⟩
        intro d hd
        simp only [Option.some.injEq] at hd
        subst hd
        exact ⟨rfl, rfl⟩
    | some d0 =>
      obtain ⟨ht, hs⟩ := hq d0 rfl
      simp only [sns_reg_step, probe_installed] at h
      rw [maybe_start_unsupported env _ (by simpa using ht)] at h
      simp only [Option.some.injEq, Prod.mk.injEq] at h
      obtain ⟨hg, hc⟩ := h
      subst hg; subst hc
      refine ⟨?_, by simp⟩
      intro d hd
      simp only [Option.some.injEq] at hd
      subst hd
      exact ⟨ht, hs⟩
  | remove has_drvdata =>
    cases has_drvdata with
    | false =>
      simp only [sns_reg_step, qcom_sns_reg_remove, if_true, Option.some.injEq,
        Prod.mk.injEq] at h
      obtain ⟨hg, hc⟩ := h
      subst hg; subst hc
      exact ⟨hq, by simp⟩
    | true =>
      cases g with
      | none => simp [sns_reg_step, qcom_sns_reg_remove] at h
      | some d0 =>
        obtain ⟨ht, hs⟩ := hq d0 rfl
        simp only [sns_reg_step, remove_installed] at h
        by_cases h0 : d0.refcnt = 0
        · rw [if_pos h0] at h
          simp only [Option.some.injEq, Prod.mk.injEq] at h
          obtain ⟨hg, hc⟩ := h
          subst hg; subst hc
          exact ⟨hq, by simp⟩
        · by_cases h1 : d0.refcnt = 1
          · rw [if_neg h0, if_pos h1] at h
            simp only [Option.some.injEq, Prod.mk.injEq] at h
            obtain ⟨hg, hc⟩ := h
            subst hg; subst hc
            exact ⟨by simp, by simp⟩
          · rw [if_neg h0, if_neg h1] at h
            simp only [Option.some.injEq, Prod.mk.injEq] at h
            obtain ⟨hg, hc⟩ := h
            subst hg; subst hc
            refine ⟨?_, by simp⟩
            intro d hd
            simp only [Option.some.injEq] at hd
            subst hd
            exact ⟨ht, hs⟩
  | ssr_notify action =>
    simp only [sns_reg_step, qcom_sns_reg_ssr_notify_handler, Option.some.injEq,
      Prod.mk.injEq] at h
    obtain ⟨hg, hc⟩ := h
    subst hg; subst hc
    refine ⟨hq, ?_⟩
    intro ret; split <;> simp
  | ssr_notifier_work env =>
    cases g with
    | none => simp [sns_reg_step, qcom_sns_reg_ssr_notifier_work] at h
    | some d0 =>
      obtain ⟨ht, hs⟩ := hq d0 rfl
      simp only [sns_reg_step, qcom_sns_reg_ssr_notifier_work] at h
      rw [maybe_start_unsupported env _ ht] at h
      simp only [Option.some.injEq, Prod.mk.injEq] at h
      obtain ⟨hg, hc⟩ := h
      subst hg; subst hc
      exact ⟨hq, by simp⟩

/-- A run of entry points on a platform without a target never registers the
server and never sets the publish flag. -/
theorem run_unsupported (ops : List sns_reg_op) :
    ∀ (g g1 : Option qcom_sns_reg_data) (calls : List sns_reg_call),
      (∀ d, g = some d →
        d.target_rproc = sns_reg_target_rproc.NOT_SUPPORTED ∧ d.qmi_svc_started = false) →
      (∀ op ∈ ops, ∀ env auxdev, op = sns_reg_op.probe env auxdev →
        get_target_rproc env.of_match_node = sns_reg_target_rproc.NOT_SUPPORTED) →
      sns_reg_run g ops = some (g1, calls) →
      (∀ d, g1 = some d →
        d.target_rproc = sns_reg_target_rproc.NOT_SUPPORTED ∧ d.qmi_svc_started = false) ∧
      ∀ ret, sns_reg_call.qmi_add_server ret ∉ calls := by
  induction ops with
  | nil =>
    intro g g1 calls hq _ h
    simp only [sns_reg_run, Option.some.injEq, Prod.mk.injEq] at h
    obtain ⟨hg, hc⟩ := h
    subst hg; subst hc
    exact ⟨hq, by simp⟩
  | cons op rest ih =>
    intro g g1 calls hq hops h
    simp only [sns_reg_run] at h
    cases hs : sns_reg_step g op with
    | none => simp [hs] at h
    | some r1 =>
      obtain ⟨ga, c1⟩ := r1
      simp only [hs] at h
      cases hr : sns_reg_run ga rest with
      | none => simp [hr] at h
      | some r2 =>
        obtain ⟨gb, c2⟩ := r2
        simp only [hr, Option.some.injEq, Prod.mk.injEq] at h
        obtain ⟨hg, hc⟩ := h
        subst hg; subst hc
        obtain ⟨q1, n1⟩ := step_unsupported g op ga c1 hq
          (hops op (List.mem_cons_self _ _)) hs
        obtain ⟨q2, n2⟩ := ih ga gb c2 q1
          (fun o ho => hops o (List.mem_cons_of_mem _ ho)) hr
        refine ⟨q2, fun ret hm => ?_⟩
        rcases List.mem_append.mp hm with hm | hm
        · exact n1 ret hm
        · exact n2 ret hm

end QcomSnsReg

namespace QcomSnsReg

/-- The firmware loop registers no server. -/
theorem load_firmware_loop_calls (env : sns_reg_env) (names : List (Option String)) :
    ∀ (ret : Int) (data : qcom_sns_reg_data) (calls : List sns_reg_call),
      (∀ r, sns_reg_call.qmi_add_server r ∉ calls) →
      ∀ r, sns_reg_call.qmi_add_server r ∉ (load_firmware_loop env names ret data calls).2.2 := by
  induction names with
  | nil => intro ret data calls h; simpa [load_firmware_loop] using h
  | cons n rest ih =>
    intro ret data calls h
    cases n with
    | none =>
      simp only [load_firmware_loop]
      exact ih ret data calls h
    | some name =>
      have h1 : ∀ r, sns_reg_call.qmi_add_server r ∉
          calls ++ [sns_reg_call.request_firmware name] := by
        intro r hm
        rcases List.mem_append.mp hm with hm | hm
        · exact h r hm
        · simp at hm
      simp only [load_firmware_loop]
      split
      · exact h1
      · exact ih _ _ _ h1

/-- Loading the firmware registers no server. -/
theorem load_firmware_calls (env : sns_reg_env) (data : qcom_sns_reg_data) :
    ∀ r, sns_reg_call.qmi_add_server r ∉ (qcom_sns_reg_load_firmware env data).2.2 := by
  unfold qcom_sns_reg_load_firmware
  dsimp only
  split
  · simp
  · exact load_firmware_loop_calls env _ 0 data [] (by simp)

/-- The cleanup registers no server. -/
theorem probe_once_err_cleanup_calls (data : qcom_sns_reg_data) :
    ∀ r, sns_reg_call.qmi_add_server r ∉ (probe_once_err_cleanup data).2 := by
  intro r
  unfold probe_once_err_cleanup
  cases hfw : data.fw <;> cases hc : data.ssr_cookie <;> simp [hc]

/-- The initialisation after target detection registers no server. -/
theorem probe_once_supported_calls (env : sns_reg_env) (name : String)
    (data : qcom_sns_reg_data) :
    ∀ r, sns_reg_call.qmi_add_server r ∉ (probe_once_supported env name data).2.2 := by
  intro r
  have hl := load_firmware_calls env data r
  unfold probe_once_supported
  dsimp only
  split
  · exact hl
  · split
    · have hc := probe_once_err_cleanup_calls (qcom_sns_reg_load_firmware env data).2.1 r
      simp only [List.mem_append, List.mem_singleton, not_or]
      exact ⟨⟨hl, by simp⟩, hc⟩
    · split
      · rename_i cookie _ _
        have hc := probe_once_err_cleanup_calls
          { (qcom_sns_reg_load_firmware env data).2.1 with ssr_cookie := some cookie } r
        simp only [List.mem_append, List.mem_singleton, not_or]
        exact ⟨⟨⟨hl, by simp⟩, by simp⟩, hc⟩
      · simp only [List.mem_append, List.mem_singleton, not_or]
        exact ⟨⟨hl, by simp⟩, by simp⟩

/-- The first-attach initialisation registers no server. -/
theorem probe_once_calls (env : sns_reg_env) (auxdev : Nat) (data : qcom_sns_reg_data) :
    ∀ r, sns_reg_call.qmi_add_server r ∉ (qcom_sns_reg_probe_once env auxdev data).2.2 := by
  intro r
  unfold qcom_sns_reg_probe_once
  dsimp only
  split
  · exact probe_once_supported_calls env "lpass" _ r
  · exact probe_once_supported_calls env "dsps" _ r
  · simp

/-- The first attach with the session allocated: at most one registration
succeeds, and if one does the session is published. -/
theorem probe_first_count (env : sns_reg_env) (auxdev : Nat) (hkz : env.kzalloc_ok = true) :
    ∃ d1, (qcom_sns_reg_probe env auxdev none).2.1 = some d1 ∧
      count_add_server_ok (qcom_sns_reg_probe env auxdev none).2.2 ≤ 1 ∧
      (count_add_server_ok (qcom_sns_reg_probe env auxdev none).2.2 = 1 →
        d1.qmi_svc_started = true) := by
  have hp : qcom_sns_reg_probe env auxdev none =
      ((qcom_sns_reg_probe_once env auxdev { kzalloc_data with refcnt := 1 }).1,
       some (qcom_sns_reg_maybe_start env
         (qcom_sns_reg_probe_once env auxdev { kzalloc_data with refcnt := 1 }).2.1).1,
       (qcom_sns_reg_probe_once env auxdev { kzalloc_data with refcnt := 1 }).2.2 ++
       (qcom_sns_reg_maybe_start env
         (qcom_sns_reg_probe_once env auxdev { kzalloc_data with refcnt := 1 }).2.1).2) := by
    simp [qcom_sns_reg_probe, hkz]
  have h21 : (qcom_sns_reg_probe env auxdev none).2.1 =
      some (qcom_sns_reg_maybe_start env
        (qcom_sns_reg_probe_once env auxdev { kzalloc_data with refcnt := 1 }).2.1).1 := by
    rw [hp]
  have h22 : (qcom_sns_reg_probe env auxdev none).2.2 =
      (qcom_sns_reg_probe_once env auxdev { kzalloc_data with refcnt := 1 }).2.2 ++
      (qcom_sns_reg_maybe_start env
        (qcom_sns_reg_probe_once env auxdev { kzalloc_data with refcnt := 1 }).2.1).2 := by
    rw [hp]
  obtain ⟨_, m2, m3, _⟩ := maybe_start_publish env
    (qcom_sns_reg_probe_once env auxdev { kzalloc_data with refcnt := 1 }).2.1
  rw [h21, h22, count_add_server_ok_append,
    count_add_server_ok_none _ (probe_once_calls env auxdev _), Nat.zero_add]
  exact ⟨_, rfl, m2, m3⟩

/-- From the state without a session on, as long as no session is torn down,
at most one registration of the server succeeds. -/
theorem run_from_none (ops : List sns_reg_op) :
    ∀ (g : Option qcom_sns_reg_data) (calls : List sns_reg_call),
      sns_reg_run none ops = some (g, calls) → sns_reg_call.kfree_data ∉ calls →
      count_add_server_ok calls ≤ 1 := by
  induction ops with
  | nil =>
    intro g calls h _
    simp only [sns_reg_run, Option.some.injEq, Prod.mk.injEq] at h
    obtain ⟨_, hc⟩ := h
    subst hc
    simp [count_add_server_ok]
  | cons op rest ih =>
    intro g calls h hk
    simp only [sns_reg_run] at h
    cases hs : sns_reg_step none op with
    | none => simp [hs] at h
    | some r1 =>
      obtain ⟨g1, c1⟩ := r1
      simp only [hs] at h
      cases hr : sns_reg_run g1 rest with
      | none => simp [hr] at h
      | some r2 =>
        obtain ⟨g2, c2⟩ := r2
        simp only [hr, Option.some.injEq, Prod.mk.injEq] at h
        obtain ⟨hg, hc⟩ := h
        subst hg; subst hc
        have hk2 : sns_reg_call.kfree_data ∉ c2 := fun hm => hk (List.mem_append_right _ hm)
        rw [count_add_server_ok_append]
        cases op with
        | probe env auxdev =>
          simp only [sns_reg_step, Option.some.injEq, Prod.mk.injEq] at hs
          obtain ⟨hg1, hc1⟩ := hs
          cases hkz : env.kzalloc_ok with
          | false =>
            have hp : qcom_sns_reg_probe env auxdev none = (- ENOMEM, none, []) := by
              simp [qcom_sns_reg_probe, hkz]
            rw [hp] at hg1 hc1
            subst hg1; subst hc1
            have := ih g2 c2 hr hk2
            simp only [count_add_server_ok, List.filter_nil, List.length_nil, Nat.zero_add]
            exact this
          | true =>
            obtain ⟨d1, e1, e2, e3⟩ := probe_first_count env auxdev hkz
            rw [hc1] at e2 e3
            rw [hg1] at e1
            subst e1
            obtain ⟨_, _, a1, a2, _⟩ := run_alive rest d1 g2 c2 hr hk2
            by_cases hone : count_add_server_ok c1 = 1
            · have := count_add_server_ok_none c2 (a1 (e3 hone)).2
              omega
            · omega
        | remove has_drvdata =>
          cases has_drvdata with
          | false =>
            simp only [sns_reg_step, qcom_sns_reg_remove, if_true, Option.some.injEq,
              Prod.mk.injEq] at hs
            obtain ⟨hg1, hc1⟩ := hs
            subst hg1; subst hc1
            have := ih g2 c2 hr hk2
            simp only [count_add_server_ok, List.filter_nil, List.length_nil, Nat.zero_add]
            exact this
          | true => simp [sns_reg_step, qcom_sns_reg_remove] at hs
        | ssr_notify action =>
          simp only [sns_reg_step, qcom_sns_reg_ssr_notify_handler, Option.some.injEq,
            Prod.mk.injEq] at hs
          obtain ⟨hg1, hc1⟩ := hs
          subst hg1; subst hc1
          have := ih g2 c2 hr hk2
          have h0 : count_add_server_ok
              (if action = QCOM_SSR_AFTER_POWERUP then (NOTIFY_OK, [sns_reg_call.schedule_work])
                else (NOTIFY_OK, [])).2 = 0 := by
            split <;> simp [count_add_server_ok]
          omega
        | ssr_notifier_work env =>
          simp [sns_reg_step, qcom_sns_reg_ssr_notifier_work] at hs

end QcomSnsReg

namespace QcomSnsReg

/-! ## Registry server: boundary of the bounds check and lifecycle claims -/

/-- C11 as stated fails: a blob whose length equals `offset + size` is
rejected.  Group 2000 (offset 0x200, size 0x10) against a blob of exactly
0x210 bytes is answered with the failure result and no data, although
`offset + size` does not exceed the length of the blob. -/
theorem blob_length_boundary_counterexample :
    (blob_0x210.size = 0x0200 + 0x010 ∧
      (⟨2000, 0x0200, 0x010⟩ : group_map_entry) ∈ group_map) ∧
    qcom_sns_reg_get_group_req_handler true session_blob_0x210 ⟨2000⟩ =
      some { sent := [{ result := qmi_result_type_v01.QMI_RESULT_FAILURE_V01
                        id := 2000
                        data_len := 0
                        data := List.replicate SNS_REG_GROUP_DATA_MAX_LEN 0 }]
             fw_reads := [] } :=
  ⟨⟨blob_0x210_size, by decide⟩,
   handler_mapped_fail true session_blob_0x210 ⟨2000, 0x0200, 0x010⟩ (by decide) (by decide)
     (Or.inr ⟨blob_0x210, rfl, by rw [blob_0x210_size]; decide⟩)⟩

/-- C11, amended.  For every row of `group_map` before the sentinel and every
loaded blob: when `offset + size` is strictly below the length of the blob
the fetch is answered with the success result, the id, `data_len = size` and
the bytes `offset .. offset + size - 1` of the blob; when `offset + size`
reaches or exceeds the length of the blob, equality included, the fetch is
answered with the failure result, `data_len` 0 and no byte of the blob is
read. -/
theorem blob_length_boundary (data : qcom_sns_reg_data) (fw : firmware) (e : group_map_entry)
    (he : e ∈ group_map) (hsz : e.size ≠ 0) (hfw : data.fw = some fw) :
    (e.offset + e.size < fw.size →
      ∃ rsp, qcom_sns_reg_get_group_req_handler true data ⟨e.group_id⟩ =
          some { sent := [rsp], fw_reads := List.range' e.offset e.size } ∧
        rsp.result = qmi_result_type_v01.QMI_RESULT_SUCCESS_V01 ∧
        rsp.id = e.group_id ∧
        rsp.data_len = e.size ∧
        ∀ i, i < e.size → ∃ b, fw.data[e.offset + i]? = some b ∧ rsp.data[i]? = some b) ∧
    (fw.size ≤ e.offset + e.size →
      qcom_sns_reg_get_group_req_handler true data ⟨e.group_id⟩ =
        some { sent := [{ result := qmi_result_type_v01.QMI_RESULT_FAILURE_V01
                          id := e.group_id
                          data_len := 0
                          data := List.replicate SNS_REG_GROUP_DATA_MAX_LEN 0 }]
               fw_reads := [] }) := by
  refine ⟨?_, ?_⟩
  · intro hlt
    have hb : ¬ (e.offset ≥ fw.size ∨ e.offset + e.size ≥ fw.size) := by omega
    have hs : e.offset + e.size ≤ fw.data.length := by unfold firmware.size at hlt; omega
    refine ⟨_, handler_mapped_pass data fw e he hsz hfw hb, rfl, rfl, rfl, ?_⟩
    intro i hi
    exact copied_prefix fw.data e.offset e.size i hs hi
  · intro hge
    exact handler_mapped_fail true data e he hsz (Or.inr ⟨fw, hfw, hge⟩)

/-- Witness of C11: group 2000 (offset 0x200, size 0x10) is served from a blob
of 0x5000 bytes, which its end 0x210 lies strictly inside. -/
theorem blob_length_boundary_witness :
    ((⟨2000, 0x0200, 0x010⟩ : group_map_entry) ∈ group_map ∧
      session_blob_0x5000.fw = some blob_0x5000 ∧ 0x0200 + 0x010 < blob_0x5000.size) ∧
    ∃ rsp, qcom_sns_reg_get_group_req_handler true session_blob_0x5000 ⟨2000⟩ =
        some { sent := [rsp], fw_reads := List.range' 0x0200 0x010 } ∧
      rsp.result = qmi_result_type_v01.QMI_RESULT_SUCCESS_V01 ∧
      rsp.id = 2000 ∧
      rsp.data_len = 0x010 ∧
      ∀ i, i < 0x010 → ∃ b, blob_0x5000.data[0x0200 + i]? = some b ∧ rsp.data[i]? = some b :=
  ⟨⟨by decide, rfl, by rw [blob_0x5000_size]; decide⟩,
   (blob_length_boundary session_blob_0x5000 blob_0x5000 ⟨2000, 0x0200, 0x010⟩ (by decide)
     (by decide) rfl).1 (by rw [blob_0x5000_size]; decide)⟩

/-- C12, reference-counted teardown.  Starting without a session, let
`N = 1 + length envs` attach calls all return 0.  Then a session is installed
with reference count `N`, holding the blob and the notifier cookie the first
attach left; `k < N` detach calls leave it installed with count `N - k`,
everything else as it was and no call made (the blob is not released); the
`N`-th detach clears the global pointer, unregisters the notifier, releases
the service handle, releases the blob and frees the session. -/
theorem refcounted_teardown (auxdev : Nat) (env : sns_reg_env) (envs : List sns_reg_env)
    (h : ∀ r ∈ (probe_all auxdev none (env :: envs)).1, r = 0) :
    ∃ d, (probe_all auxdev none (env :: envs)).2.1 = some d ∧
      d.refcnt = envs.length + 1 ∧
      (∃ d1, (qcom_sns_reg_probe env auxdev none).2.1 = some d1 ∧ d.fw = d1.fw ∧
        d.ssr_cookie = d1.ssr_cookie) ∧
      (∀ k, k < envs.length + 1 →
        remove_n (some d) k = some (some { d with refcnt := envs.length + 1 - k }, [])) ∧
      remove_n (some d) (envs.length + 1) =
        some (none, [sns_reg_call.qcom_unregister_ssr_notifier d.ssr_cookie,
                     sns_reg_call.qmi_handle_release,
                     sns_reg_call.release_firmware d.fw,
                     sns_reg_call.kfree_data]) := by
  have h0 : (qcom_sns_reg_probe env auxdev none).1 = 0 :=
    h _ (by simp [probe_all])
  obtain ⟨d1, hd1, hr1⟩ := probe_first_ok env auxdev h0
  obtain ⟨d, hd, hr, hfw, hck, _, _⟩ := probe_all_installed auxdev envs d1
  have hall : (probe_all auxdev none (env :: envs)).2.1 = some d := by
    simp only [probe_all, hd1]
    exact hd
  have hcnt : d.refcnt = envs.length + 1 := by omega
  refine ⟨d, hall, hcnt, ⟨d1, hd1, hfw, hck⟩, ?_, ?_⟩
  · intro k hk
    rw [← hcnt]
    exact remove_n_below k d (by omega)
  · rw [← hcnt]
    exact remove_n_all d (by omega)

/-- Witness of C12: three attaches on the ADSP platform, then up to three detaches. -/
theorem refcounted_teardown_witness :
    (∀ r ∈ (probe_all 3 none [env_adsp_up, env_adsp_up, env_adsp_up]).1, r = 0) ∧
    ∃ d, (probe_all 3 none [env_adsp_up, env_adsp_up, env_adsp_up]).2.1 = some d ∧
      d.refcnt = [env_adsp_up, env_adsp_up].length + 1 ∧
      (∃ d1, (qcom_sns_reg_probe env_adsp_up 3 none).2.1 = some d1 ∧ d.fw = d1.fw ∧
        d.ssr_cookie = d1.ssr_cookie) ∧
      (∀ k, k < [env_adsp_up, env_adsp_up].length + 1 →
        remove_n (some d) k =
          some (some { d with refcnt := [env_adsp_up, env_adsp_up].length + 1 - k }, [])) ∧
      remove_n (some d) ([env_adsp_up, env_adsp_up].length + 1) =
        some (none, [sns_reg_call.qcom_unregister_ssr_notifier d.ssr_cookie,
                     sns_reg_call.qmi_handle_release,
                     sns_reg_call.release_firmware d.fw,
                     sns_reg_call.kfree_data]) :=
  ⟨by decide, refcounted_teardown 3 env_adsp_up [env_adsp_up, env_adsp_up] (by decide)⟩

/-- C13, idempotent publish.  On a published session the service start returns
0 and registers nothing; any run of attach, detach, notification and work
calls that does not tear a published session down leaves it published and
registers no server; and from the state without a session on, whatever the
calls and their outcomes, at most one registration of the server succeeds as
long as no session is torn down. -/
theorem idempotent_publish (env : sns_reg_env) (d : qcom_sns_reg_data)
    (ops : List sns_reg_op) :
    (d.qmi_svc_started = true → qcom_sns_reg_qmi_service_start env d = (0, d, [])) ∧
    (∀ g calls, d.qmi_svc_started = true → sns_reg_run (some d) ops = some (g, calls) →
      sns_reg_call.kfree_data ∉ calls →
      (∃ d1, g = some d1 ∧ d1.qmi_svc_started = true) ∧
      ∀ ret, sns_reg_call.qmi_add_server ret ∉ calls) ∧
    (∀ g calls, sns_reg_run none ops = some (g, calls) →
      sns_reg_call.kfree_data ∉ calls → count_add_server_ok calls ≤ 1) := by
  refine ⟨service_start_started env d, ?_, ?_⟩
  · intro g calls hs hrun hk
    obtain ⟨d1, hg, a1, _, _⟩ := run_alive ops d g calls hrun hk
    exact ⟨⟨d1, hg, (a1 hs).1⟩, (a1 hs).2⟩
  · intro g calls hrun hk
    exact run_from_none ops g calls hrun hk

/-- Witness of C13: on the published session left by an attach on the ADSP
platform, a notification, the work and two further attaches register nothing. -/
theorem idempotent_publish_witness :
    (qcom_sns_reg_probe env_adsp_up 3 none).2.1 = some session_published ∧
    session_published.qmi_svc_started = true ∧
    sns_reg_run (some session_published)
        [sns_reg_op.ssr_notify QCOM_SSR_AFTER_POWERUP, sns_reg_op.ssr_notifier_work env_adsp_up,
         sns_reg_op.probe env_adsp_up 4, sns_reg_op.probe env_adsp_up 5] =
      some (some { session_published with refcnt := 3 }, [sns_reg_call.schedule_work]) ∧
    sns_reg_call.kfree_data ∉ [sns_reg_call.schedule_work] ∧
    ((∃ d1, some { session_published with refcnt := 3 } = some d1 ∧
        d1.qmi_svc_started = true) ∧
      ∀ ret, sns_reg_call.qmi_add_server ret ∉ [sns_reg_call.schedule_work]) :=
  ⟨by decide, rfl, by decide, by decide,
    (idempotent_publish env_adsp_up session_published
      [sns_reg_op.ssr_notify QCOM_SSR_AFTER_POWERUP, sns_reg_op.ssr_notifier_work env_adsp_up,
       sns_reg_op.probe env_adsp_up 4, sns_reg_op.probe env_adsp_up 5]).2.1
      (some { session_published with refcnt := 3 }) [sns_reg_call.schedule_work] rfl
      (by decide) (by decide)⟩

/-- C14, publish gating on the tracked target.  The conditional start runs the
service start exactly when the target of the session is the ADSP and the last
status of "lpass" is after-power-up, or the target is the SLPI and the last
status of "dsps" is after-power-up, and otherwise does nothing; so a server
registration is made exactly when that condition holds on an unpublished
session, whatever the status of the other processor.  The notifier callback
schedules the work for the after-power-up action and for no other action. -/
theorem publish_gating (env : sns_reg_env) (data : qcom_sns_reg_data) (action : Nat) :
    qcom_sns_reg_maybe_start env data =
      (if (data.target_rproc = sns_reg_target_rproc.RPROC_ADSP ∧
            env.qcom_ssr_last_status "lpass" = QCOM_SSR_AFTER_POWERUP) ∨
          (data.target_rproc = sns_reg_target_rproc.RPROC_SLPI ∧
            env.qcom_ssr_last_status "dsps" = QCOM_SSR_AFTER_POWERUP)
       then ((qcom_sns_reg_qmi_service_start env data).2.1,
             (qcom_sns_reg_qmi_service_start env data).2.2)
       else (data, [])) ∧
    ((∃ ret, sns_reg_call.qmi_add_server ret ∈ (qcom_sns_reg_maybe_start env data).2) ↔
      data.qmi_svc_started = false ∧
      ((data.target_rproc = sns_reg_target_rproc.RPROC_ADSP ∧
          env.qcom_ssr_last_status "lpass" = QCOM_SSR_AFTER_POWERUP) ∨
        (data.target_rproc = sns_reg_target_rproc.RPROC_SLPI ∧
          env.qcom_ssr_last_status "dsps" = QCOM_SSR_AFTER_POWERUP))) ∧
    (sns_reg_call.schedule_work ∈ (qcom_sns_reg_ssr_notify_handler action).2 ↔
      action = QCOM_SSR_AFTER_POWERUP) ∧
    (qcom_sns_reg_ssr_notify_handler action).1 = NOTIFY_OK := by
  refine ⟨maybe_start_eq env data, ?_, ?_, ?_⟩
  · rw [maybe_start_eq]
    by_cases hc : (data.target_rproc = sns_reg_target_rproc.RPROC_ADSP ∧
            env.qcom_ssr_last_status "lpass" = QCOM_SSR_AFTER_POWERUP) ∨
          (data.target_rproc = sns_reg_target_rproc.RPROC_SLPI ∧
            env.qcom_ssr_last_status "dsps" = QCOM_SSR_AFTER_POWERUP)
    · rw [if_pos hc]
      cases hs : data.qmi_svc_started with
      | true =>
        rw [service_start_started env data hs]
        simp
      | false =>
        rw [service_start_not_started env data hs]
        simp [hc]
    · rw [if_neg hc]
      simp [hc]
  · unfold qcom_sns_reg_ssr_notify_handler
    by_cases ha : action = QCOM_SSR_AFTER_POWERUP
    · simp [ha]
    · simp [ha]
  · unfold qcom_sns_reg_ssr_notify_handler
    split <;> rfl

/-- C15, subsequent attaches do not re-initialise.  An attach on an installed
session returns 0 and is the conditional start run on the session with its
reference count raised by one: the count grows by exactly one, the blob, the
target, the logging device and the notifier cookie are unchanged, every call
made is a server registration by the conditional start (no target detection,
firmware request, notifier registration or handle initialisation), and the
publish flag can only change from unset to set, through a registration that
returned 0. -/
theorem subsequent_attach (env : sns_reg_env) (auxdev : Nat) (d : qcom_sns_reg_data) :
    (qcom_sns_reg_probe env auxdev (some d)).1 = 0 ∧
    ((qcom_sns_reg_probe env auxdev (some d)).2.1,
      (qcom_sns_reg_probe env auxdev (some d)).2.2) =
      (some (qcom_sns_reg_maybe_start env { d with refcnt := d.refcnt + 1 }).1,
        (qcom_sns_reg_maybe_start env { d with refcnt := d.refcnt + 1 }).2) ∧
    (∃ d1, (qcom_sns_reg_probe env auxdev (some d)).2.1 = some d1 ∧
      d1.refcnt = d.refcnt + 1 ∧ d1.fw = d.fw ∧ d1.target_rproc = d.target_rproc ∧
      d1.first_auxdev = d.first_auxdev ∧ d1.ssr_cookie = d.ssr_cookie ∧
      (d.qmi_svc_started = true → d1.qmi_svc_started = true) ∧
      (d1.qmi_svc_started ≠ d.qmi_svc_started →
        sns_reg_call.qmi_add_server 0 ∈ (qcom_sns_reg_probe env auxdev (some d)).2.2)) ∧
    (∀ c ∈ (qcom_sns_reg_probe env auxdev (some d)).2.2,
      c = sns_reg_call.qmi_add_server env.qmi_add_server_ret) := by
  rw [probe_installed]
  refine ⟨rfl, rfl, ?_, ?_⟩
  · refine ⟨_, rfl, ?_⟩
    rcases maybe_start_cases env { d with refcnt := d.refcnt + 1 } with
      h | ⟨_, _, _, h⟩ | ⟨_, h0, _, h⟩
    · rw [h]; simp
    · rw [h]; simp
    · rw [h]; simp
  · intro c hc
    rcases maybe_start_cases env { d with refcnt := d.refcnt + 1 } with
      h | ⟨_, _, _, h⟩ | ⟨_, h0, _, h⟩
    · rw [h] at hc; simp at hc
    · rw [h] at hc; simpa using hc
    · rw [h] at hc; simpa [h0] using hc

end QcomSnsReg

namespace QcomSnsReg

/-- The firmware load when both file names were built. -/
theorem load_firmware_two_names (env : sns_reg_env) (data : qcom_sns_reg_data)
    (top_compatible : String) (hc : env.top_compatible = some top_compatible)
    (hk0 : env.kasprintf_ok_0 = true) (hk1 : env.kasprintf_ok_1 = true) :
    qcom_sns_reg_load_firmware env data =
      if (env.request_firmware ("qcom/sensors/sns.reg-" ++ top_compatible)).ret = 0 then
        (0, { data with
                fw := (env.request_firmware ("qcom/sensors/sns.reg-" ++ top_compatible)).fw },
          [sns_reg_call.request_firmware ("qcom/sensors/sns.reg-" ++ top_compatible)])
      else if (env.request_firmware "qcom/sensors/sns.reg").ret = 0 then
        (0, { data with fw := (env.request_firmware "qcom/sensors/sns.reg").fw },
          [sns_reg_call.request_firmware ("qcom/sensors/sns.reg-" ++ top_compatible),
           sns_reg_call.request_firmware "qcom/sensors/sns.reg"])
      else
        ((env.request_firmware "qcom/sensors/sns.reg").ret,
          { data with fw := (env.request_firmware "qcom/sensors/sns.reg").fw },
          [sns_reg_call.request_firmware ("qcom/sensors/sns.reg-" ++ top_compatible),
           sns_reg_call.request_firmware "qcom/sensors/sns.reg"]) := by
  simp only [qcom_sns_reg_load_firmware, firmware_names, hc, hk0, hk1, if_true]
  by_cases h1 : (env.request_firmware ("qcom/sensors/sns.reg-" ++ top_compatible)).ret = 0
  · simp [load_firmware_loop, h1]
  · by_cases h2 : (env.request_firmware "qcom/sensors/sns.reg").ret = 0
    · simp [load_firmware_loop, h1, h2]
    · simp [load_firmware_loop, h1, h2]

/-- C16 as stated fails: when the second `kasprintf` fails the load returns
`-ENOMEM` without requesting any file, although the generic file
`qcom/sensors/sns.reg` would load. -/
theorem firmware_fallback_counterexample :
    (env_adsp_no_memory.request_firmware "qcom/sensors/sns.reg").ret = 0 ∧
    qcom_sns_reg_load_firmware env_adsp_no_memory kzalloc_data = (- ENOMEM, kzalloc_data, []) := by
  decide

/-- C16, amended.  When the root `compatible` string is read: if either file
name cannot be allocated the load returns `-ENOMEM` before any request;
otherwise the load requests the platform-specific name
`qcom/sensors/sns.reg-<compatible>` first and stops there if it loads, else it
requests the generic name `qcom/sensors/sns.reg` and stops there if it loads;
it then fails exactly when both requests fail, with the code of the second,
and in particular succeeds whenever the generic file loads.  A failed load
makes the first-attach initialisation return that code without registering
the notifier or initialising the handle. -/
theorem firmware_fallback (env : sns_reg_env) (data : qcom_sns_reg_data)
    (top_compatible : String) (name : String) (hc : env.top_compatible = some top_compatible) :
    (env.kasprintf_ok_0 = false ∨ env.kasprintf_ok_1 = false →
      qcom_sns_reg_load_firmware env data = (- ENOMEM, data, [])) ∧
    (env.kasprintf_ok_0 = true → env.kasprintf_ok_1 = true →
      ((env.request_firmware ("qcom/sensors/sns.reg-" ++ top_compatible)).ret = 0 →
        qcom_sns_reg_load_firmware env data =
          (0, { data with
                  fw := (env.request_firmware ("qcom/sensors/sns.reg-" ++ top_compatible)).fw },
            [sns_reg_call.request_firmware ("qcom/sensors/sns.reg-" ++ top_compatible)])) ∧
      ((env.request_firmware ("qcom/sensors/sns.reg-" ++ top_compatible)).ret ≠ 0 →
        (env.request_firmware "qcom/sensors/sns.reg").ret = 0 →
        qcom_sns_reg_load_firmware env data =
          (0, { data with fw := (env.request_firmware "qcom/sensors/sns.reg").fw },
            [sns_reg_call.request_firmware ("qcom/sensors/sns.reg-" ++ top_compatible),
             sns_reg_call.request_firmware "qcom/sensors/sns.reg"])) ∧
      ((qcom_sns_reg_load_firmware env data).1 ≠ 0 ↔
        (env.request_firmware ("qcom/sensors/sns.reg-" ++ top_compatible)).ret ≠ 0 ∧
        (env.request_firmware "qcom/sensors/sns.reg").ret ≠ 0) ∧
      ((env.request_firmware "qcom/sensors/sns.reg").ret = 0 →
        (qcom_sns_reg_load_firmware env data).1 = 0) ∧
      ((qcom_sns_reg_load_firmware env data).1 ≠ 0 →
        probe_once_supported env name data = qcom_sns_reg_load_firmware env data ∧
        (qcom_sns_reg_load_firmware env data).1 =
          (env.request_firmware "qcom/sensors/sns.reg").ret)) := by
  constructor
  · intro hfail
    rcases hfail with h | h
    · simp [qcom_sns_reg_load_firmware, firmware_names, hc, h]
    · simp [qcom_sns_reg_load_firmware, firmware_names, hc, h]
  intro hk0 hk1
  have hl := load_firmware_two_names env data top_compatible hc hk0 hk1
  by_cases h1 : (env.request_firmware ("qcom/sensors/sns.reg-" ++ top_compatible)).ret = 0
  · rw [if_pos h1] at hl
    refine ⟨fun _ => hl, fun h => absurd h1 h, ?_, ?_, ?_⟩
    · rw [hl]; simp [h1]
    · intro _; rw [hl]
    · intro h; rw [hl] at h; simp at h
  · by_cases h2 : (env.request_firmware "qcom/sensors/sns.reg").ret = 0
    · rw [if_neg h1, if_pos h2] at hl
      refine ⟨fun h => absurd h h1, fun _ _ => hl, ?_, ?_, ?_⟩
      · rw [hl]; simp [h2]
      · intro _; rw [hl]
      · intro h; rw [hl] at h; simp at h
    · rw [if_neg h1, if_neg h2] at hl
      refine ⟨fun h => absurd h h1, fun _ h => absurd h h2, ?_, ?_, ?_⟩
      · rw [hl]; simp [h1, h2]
      · intro h; exact absurd h h2
      · intro h
        refine ⟨?_, by rw [hl]⟩
        unfold probe_once_supported
        simp only [h, ne_eq, not_false_eq_true, if_true]

/-- Witness of C16, amended: on the ADSP platform the platform-specific file
is missing and the generic file loads. -/
theorem firmware_fallback_witness :
    (env_adsp_up.top_compatible = some "xiaomi,rosy" ∧
      (env_adsp_up.request_firmware ("qcom/sensors/sns.reg-" ++ "xiaomi,rosy")).ret ≠ 0 ∧
      (env_adsp_up.request_firmware "qcom/sensors/sns.reg").ret = 0) ∧
    qcom_sns_reg_load_firmware env_adsp_up kzalloc_data =
      (0, { kzalloc_data with fw := (env_adsp_up.request_firmware "qcom/sensors/sns.reg").fw },
        [sns_reg_call.request_firmware ("qcom/sensors/sns.reg-" ++ "xiaomi,rosy"),
         sns_reg_call.request_firmware "qcom/sensors/sns.reg"]) :=
  ⟨⟨rfl, by decide, by decide⟩,
   ((firmware_fallback env_adsp_up kzalloc_data "xiaomi,rosy" "lpass" rfl).2 rfl rfl).2.1
     (by decide) (by decide)⟩

/-- C17, unsupported platforms.  On a platform that matches no row of the SoC
table the first attach, once the session is allocated, returns `-ENODEV`
without any call: no firmware request, no notifier registration, no handle
initialisation; it leaves a session whose target is NOT_SUPPORTED.  After
that, whatever attach, detach, notification and work calls follow on that
platform and whatever the processors report, the server is never registered
and no session is ever published. -/
theorem unsupported_platform (env : sns_reg_env) (auxdev : Nat) (ops : List sns_reg_op)
    (hk : env.kzalloc_ok = true)
    (hm : get_target_rproc env.of_match_node = sns_reg_target_rproc.NOT_SUPPORTED)
    (hops : ∀ op ∈ ops, ∀ e a, op = sns_reg_op.probe e a →
      get_target_rproc e.of_match_node = sns_reg_target_rproc.NOT_SUPPORTED) :
    qcom_sns_reg_probe env auxdev none =
      (- ENODEV,
       some { refcnt := 1
              first_auxdev := some auxdev
              qmi_svc_started := false
              fw := none
              target_rproc := sns_reg_target_rproc.NOT_SUPPORTED
              ssr_cookie := none },
       []) ∧
    ∀ g calls, sns_reg_run (qcom_sns_reg_probe env auxdev none).2.1 ops = some (g, calls) →
      (∀ ret, sns_reg_call.qmi_add_server ret ∉ calls) ∧
      ∀ d, g = some d → d.qmi_svc_started = false := by
  have hp := probe_first_unsupported env auxdev hk hm
  refine ⟨hp, ?_⟩
  intro g calls hrun
  rw [hp] at hrun
  obtain ⟨q, n⟩ := run_unsupported ops _ g calls
    (by
      intro d hd
      simp only [Option.some.injEq] at hd
      subst hd
      exact ⟨rfl, rfl⟩) hops hrun
  exact ⟨n, fun d hd => (q d hd).2⟩

/-- Witness of C17: on the unsupported platform with both processors up, a
second attach, a notification and the work register nothing. -/
theorem unsupported_platform_witness :
    (env_unsupported.kzalloc_ok = true ∧
      get_target_rproc env_unsupported.of_match_node = sns_reg_target_rproc.NOT_SUPPORTED) ∧
    sns_reg_run (qcom_sns_reg_probe env_unsupported 1 none).2.1
        [sns_reg_op.probe env_unsupported 2, sns_reg_op.ssr_notify QCOM_SSR_AFTER_POWERUP,
         sns_reg_op.ssr_notifier_work env_unsupported] =
      some (some { refcnt := 2
                   first_auxdev := some 1
                   qmi_svc_started := false
                   fw := none
                   target_rproc := sns_reg_target_rproc.NOT_SUPPORTED
                   ssr_cookie := none }, [sns_reg_call.schedule_work]) ∧
    (∀ ret, sns_reg_call.qmi_add_server ret ∉ [sns_reg_call.schedule_work]) :=
  ⟨⟨rfl, rfl⟩, by decide,
   ((unsupported_platform env_unsupported 1
      [sns_reg_op.probe env_unsupported 2, sns_reg_op.ssr_notify QCOM_SSR_AFTER_POWERUP,
       sns_reg_op.ssr_notifier_work env_unsupported] rfl rfl
      (by
        intro op hop e a he
        subst he
        simp only [List.mem_cons, sns_reg_op.probe.injEq, List.mem_singleton, List.mem_nil_iff,
          or_false] at hop
        rcases hop with ⟨h1, _⟩ | h | h
        · subst h1; rfl
        · cases h
        · cases h)).2
      (some { refcnt := 2
              first_auxdev := some 1
              qmi_svc_started := false
              fw := none
              target_rproc := sns_reg_target_rproc.NOT_SUPPORTED
              ssr_cookie := none })
      [sns_reg_call.schedule_work] (by decide)).1⟩

end QcomSnsReg

namespace QcomSmgr

/-! ## Sensor manager client: facts about dispatch and enrollment -/

/-- On a client whose count is the length of its array, the loop from index
`i` on finds the first sensor with the report id among the sensors from `i` on. -/
theorem buffering_report_loop_find (l : List qcom_smgr_sensor) (count : Nat)
    (ind : sns_smgr_buffering_report_ind) (n : Nat) :
    ∀ i, i + n = l.length →
      buffering_report_loop { sensor_count := count, sensors := some l } ind i n =
        some (match (l.drop i).find? (fun s => decide (s.id = ind.report_id)) with
              | none => []
              | some sensor =>
                match sensor.iio_dev with
                | none => []
                | some iio_dev =>
                  [{ iio_dev := iio_dev
                     values := ind.samples_0.values
                     timestamp := ind.timestamp }]) := by
  induction n with
  | zero =>
    intro i hi
    have : l.drop i = [] := List.drop_eq_nil_of_le (by omega)
    simp [buffering_report_loop, this]
  | succ n ih =>
    intro i hi
    have hlt : i < l.length := by omega
    have hd : l.drop i = l[i] :: l.drop (i + 1) := List.drop_eq_getElem_cons hlt
    have hget : l[i]? = some l[i] := List.getElem?_eq_getElem hlt
    simp only [buffering_report_loop, hget, hd, List.find?_cons]
    by_cases hid : l[i].id = ind.report_id
    · simp only [hid, ne_eq, not_true_eq_false, if_false, decide_True]
      cases l[i].iio_dev <;> rfl
    · simp only [hid, ne_eq, not_false_eq_true, if_true, decide_False]
      exact ih (i + 1) (by omega)

/-- The metadata loop fills one element per response item. -/
theorem fill_data_types_length (env : single_sensor_info_env)
    (todo : List sns_smgr_single_sensor_info_data_type) :
    ∀ (i : Nat) (filled : List qcom_smgr_data_type_item),
      (fill_data_types env i todo filled).2.length = filled.length + todo.length := by
  induction todo with
  | nil => intro i filled; simp [fill_data_types]
  | cons item rest ih =>
    intro i filled
    simp only [fill_data_types]
    split
    · split
      · simp only [List.length_append, List.length_cons, List.length_nil,
          List.length_replicate]
        omega
      · rw [ih]
        simp only [List.length_append, List.length_cons, List.length_nil]
        omega
    · rw [ih]
      simp only [List.length_append, List.length_cons, List.length_nil]
      omega

/-- A metadata query keeps the id of the sensor. -/
theorem request_single_sensor_info_id (env : single_sensor_info_env)
    (sensor : qcom_smgr_sensor) :
    (qcom_smgr_request_single_sensor_info env sensor).2.id = sensor.id := by
  unfold qcom_smgr_request_single_sensor_info
  split
  · rfl
  · split
    · rfl
    · split
      · rfl
      · split
        · rfl
        · dsimp only
          split <;> rfl

/-- After a metadata query that did not fail, the default rate can be stored
and the sensor keeps its id. -/
theorem request_single_sensor_info_ok (env : single_sensor_info_env)
    (sensor : qcom_smgr_sensor)
    (h : ¬ (qcom_smgr_request_single_sensor_info env sensor).1 < 0) :
    ∃ sensor1, default_sample_rate (qcom_smgr_request_single_sensor_info env sensor).2 =
        some sensor1 ∧ sensor1.id = sensor.id := by
  unfold qcom_smgr_request_single_sensor_info at h ⊢
  by_cases h1 : env.txn.txn_init_ret < 0
  · rw [if_pos h1] at h
    exact absurd h1 h
  · rw [if_neg h1] at h ⊢
    by_cases h2 : env.txn.send_request_ret < 0
    · rw [if_pos h2] at h
      exact absurd h2 h
    · rw [if_neg h2] at h ⊢
      by_cases h3 : env.txn.txn_wait_ret < 0
      · rw [if_pos h3] at h
        exact absurd h3 h
      · rw [if_neg h3] at h ⊢
        by_cases h4 : env.txn.resp_result ≠ 0
        · rw [if_pos h4] at h
          simp [ EREMOTEIO] at h
        · rw [if_neg h4] at h ⊢
          dsimp only at h ⊢
          by_cases h5 : env.data_types.length % 256 ≠ 0 ∧ env.data_types_alloc_ok = false
          · rw [if_pos h5] at h
            simp [ENOMEM] at h
          · rw [if_neg h5]
            have hlen := fill_data_types_length env
              (env.data_types.take (env.data_types.length % 256)) 0 []
            have hmod : env.data_types.length % 256 ≤ env.data_types.length :=
              Nat.mod_le _ _
            simp only [List.length_nil, List.length_take, Nat.zero_add] at hlen
            rw [Nat.min_eq_left hmod] at hlen
            unfold default_sample_rate
            dsimp only
            by_cases h0 : env.data_types.length % 256 = 0
            · rw [if_pos h0]
              exact ⟨_, rfl, rfl⟩
            · rw [if_neg h0]
              cases hf : (fill_data_types env 0
                  (env.data_types.take (env.data_types.length % 256)) []).2 with
              | nil =>
                rw [hf] at hlen
                simp at hlen
                exact absurd hlen.symm h0
              | cons dt rest => exact ⟨_, rfl, rfl⟩

end QcomSmgr

namespace QcomSmgr

/-- The enrollment loop when no metadata query fails: it returns 0 and every
sensor is queried and registered, in order. -/
theorem probe_sensors_loop_all_ok (single_info : Nat → single_sensor_info_env)
    (todo : List qcom_smgr_sensor) :
    ∀ (i : Nat) (done : List qcom_smgr_sensor),
      (∀ j s, todo[j]? = some s →
        ¬ (qcom_smgr_request_single_sensor_info (single_info (i + j)) s).1 < 0) →
      ∃ arr calls, probe_sensors_loop single_info i todo done = some (0, arr, calls) ∧
        queried_ids calls = todo.map (fun s => s.id) ∧
        registered_ids calls = todo.map (fun s => s.id) := by
  induction todo with
  | nil =>
    intro i done _
    exact ⟨done, [], rfl, rfl, rfl⟩
  | cons sensor rest ih =>
    intro i done hall
    have h0 : ¬ (qcom_smgr_request_single_sensor_info (single_info i) sensor).1 < 0 := by
      simpa using hall 0 sensor (by simp)
    obtain ⟨s1, hs1, hid⟩ := request_single_sensor_info_ok (single_info i) sensor h0
    obtain ⟨arr, calls, hl, hq, hr⟩ := ih (i + 1) (done ++ [s1]) (by
      intro j s hj
      have := hall (j + 1) s (by simpa using hj)
      rwa [Nat.add_assoc, Nat.add_comm 1 j])
    refine ⟨arr, [smgr_call.request_single_sensor_info sensor.id,
      smgr_call.register_sensor s1] ++ calls, ?_, ?_, ?_⟩
    · simp only [probe_sensors_loop]
      rw [if_neg h0, hs1]
      simp only [hl]
    · simp [queried_ids] at hq ⊢
      exact hq
    · simp [registered_ids] at hr ⊢
      exact ⟨hid, hr⟩

/-- The enrollment loop when the query of the sensor at position `k` is the
first to fail: it returns that error, the sensors before `k` are registered,
the sensors up to `k` are queried, and nothing happens for the sensors after. -/
theorem probe_sensors_loop_first_fail (single_info : Nat → single_sensor_info_env)
    (todo : List qcom_smgr_sensor) :
    ∀ (i : Nat) (done : List qcom_smgr_sensor) (k : Nat) (s : qcom_smgr_sensor),
      todo[k]? = some s →
      (∀ j t, j < k → todo[j]? = some t →
        ¬ (qcom_smgr_request_single_sensor_info (single_info (i + j)) t).1 < 0) →
      (qcom_smgr_request_single_sensor_info (single_info (i + k)) s).1 < 0 →
      ∃ arr calls, probe_sensors_loop single_info i todo done =
          some ((qcom_smgr_request_single_sensor_info (single_info (i + k)) s).1, arr, calls) ∧
        queried_ids calls = (todo.map (fun s => s.id)).take (k + 1) ∧
        registered_ids calls = (todo.map (fun s => s.id)).take k := by
  induction todo with
  | nil =>
    intro i done k s hk
    simp at hk
  | cons sensor rest ih =>
    intro i done k s hk hbefore hfail
    cases k with
    | zero =>
      simp only [List.getElem?_cons_zero, Option.some.injEq] at hk
      subst hk
      simp only [Nat.add_zero] at hfail ⊢
      refine ⟨done ++ [(qcom_smgr_request_single_sensor_info (single_info i) sensor).2] ++ rest,
        [smgr_call.request_single_sensor_info sensor.id], ?_, ?_, ?_⟩
      · simp only [probe_sensors_loop]
        rw [if_pos hfail]
      · simp [queried_ids]
      · simp [registered_ids]
    | succ k =>
      have h0 : ¬ (qcom_smgr_request_single_sensor_info (single_info i) sensor).1 < 0 := by
        simpa using hbefore 0 sensor (by omega) (by simp)
      obtain ⟨s1, hs1, hid⟩ := request_single_sensor_info_ok (single_info i) sensor h0
      have hk1 : rest[k]? = some s := by simpa using hk
      have hfail1 : (qcom_smgr_request_single_sensor_info (single_info (i + 1 + k)) s).1 < 0 := by
        have : i + 1 + k = i + (k + 1) := by omega
        rw [this]; exact hfail
      obtain ⟨arr, calls, hl, hq, hr⟩ := ih (i + 1) (done ++ [s1]) k s hk1 (by
        intro j t hj ht
        have := hbefore (j + 1) t (by omega) (by simpa using ht)
        rwa [Nat.add_assoc, Nat.add_comm 1 j]) hfail1
      have hidx : i + 1 + k = i + (k + 1) := by omega
      rw [hidx] at hl
      refine ⟨arr, [smgr_call.request_single_sensor_info sensor.id,
        smgr_call.register_sensor s1] ++ calls, ?_, ?_, ?_⟩
      · simp only [probe_sensors_loop]
        rw [if_neg h0, hs1]
        simp only [hl]
      · simp [queried_ids] at hq ⊢
        exact hq
      · simp [registered_ids] at hr ⊢
        exact ⟨hid, hr⟩

/-- The probe after a successful inventory query is the enrollment loop over
the stored sensors. -/
theorem probe_after_inventory (env : smgr_probe_env) (arr : List qcom_smgr_sensor)
    (hk : env.smgr_alloc_ok = true) (hi : ¬ env.qmi_handle_init_ret < 0)
    (hall : qcom_smgr_request_all_sensor_info env.all_info none =
      some ((arr.length : Int), some arr))
    (hlen : arr.length < 256) :
    qcom_smgr_probe env =
      match probe_sensors_loop env.single_info 0 arr [] with
      | none => none
      | some (ret1, arr1, calls) =>
        some (ret1, some { sensor_count := arr.length, sensors := some arr1 },
          smgr_call.request_all_sensor_info :: calls) := by
  have hnn : ¬ ((arr.length : Int) < 0) := by omega
  have hmod : (arr.length : Int).toNat % 256 = arr.length := by
    simp only [Int.toNat_ofNat]
    omega
  simp only [qcom_smgr_probe, hk, Bool.true_eq_false, if_false, hi, hall, hnn, hmod,
    List.take_length, List.drop_length, List.append_nil]

end QcomSmgr

namespace QcomSmgr

/-! ## Sensor manager client: dispatch, enrollment and inventory claims -/

/-- C18, indication dispatch.  For every list of sensors and every report the
handler leaves the client state as it was and pushes at most one sample: when
the first sensor whose id equals the report id has a consumer, it pushes the
values of `samples[0]` with the timestamp of the report to that consumer; when
that sensor has no consumer, or no sensor has the report id, it pushes
nothing.  The samples after index 0 do not influence the result. -/
theorem indication_dispatch (l : List qcom_smgr_sensor) (ind : sns_smgr_buffering_report_ind) :
    qcom_smgr_buffering_report_handler { sensor_count := l.length, sensors := some l } ind =
      some ({ sensor_count := l.length, sensors := some l },
        match l.find? (fun s => decide (s.id = ind.report_id)) with
        | none => []
        | some sensor =>
          match sensor.iio_dev with
          | none => []
          | some iio_dev =>
            [{ iio_dev := iio_dev
               values := ind.samples_0.values
               timestamp := ind.timestamp }]) ∧
    (∀ r, qcom_smgr_buffering_report_handler
        { sensor_count := l.length, sensors := some l } ind = some r → r.2.length ≤ 1) ∧
    (∀ rest, qcom_smgr_buffering_report_handler { sensor_count := l.length, sensors := some l }
        { ind with samples_rest := rest } =
      qcom_smgr_buffering_report_handler { sensor_count := l.length, sensors := some l } ind) := by
  have hloop := buffering_report_loop_find l l.length ind l.length 0 (by omega)
  have hmain : qcom_smgr_buffering_report_handler
      { sensor_count := l.length, sensors := some l } ind =
      some ({ sensor_count := l.length, sensors := some l },
        match l.find? (fun s => decide (s.id = ind.report_id)) with
        | none => []
        | some sensor =>
          match sensor.iio_dev with
          | none => []
          | some iio_dev =>
            [{ iio_dev := iio_dev
               values := ind.samples_0.values
               timestamp := ind.timestamp }]) := by
    simp only [qcom_smgr_buffering_report_handler, hloop, List.drop_zero]
  refine ⟨hmain, ?_, ?_⟩
  · intro r hr
    rw [hmain] at hr
    simp only [Option.some.injEq] at hr
    subst hr
    dsimp only
    split
    · simp
    · split <;> simp
  · intro rest
    have hloop2 := buffering_report_loop_find l l.length { ind with samples_rest := rest }
      l.length 0 (by omega)
    simp only [qcom_smgr_buffering_report_handler, hloop, hloop2]

/-- C19 as stated fails: when the metadata query of the first of two sensors
times out, the probe returns `-ETIMEDOUT` and the second sensor, whose query
would succeed, is neither queried nor registered. -/
theorem enrollment_isolation_counterexample :
    (qcom_smgr_request_single_sensor_info (probe_env_first_fails.single_info 1)
      (new_sensor 0x14 qcom_smgr_sensor_type.SNS_SMGR_SENSOR_TYPE_GYRO)).1 = 0 ∧
    (qcom_smgr_probe probe_env_first_fails).map (fun r => (r.1, r.2.2)) =
      some (- ETIMEDOUT,
        [smgr_call.request_all_sensor_info, smgr_call.request_single_sensor_info 0x12]) := by
  decide

/-- C19, amended.  After a successful inventory query that stored the sensors
`arr`: when no metadata query fails the probe returns 0 and every sensor is
queried and registered, in inventory order; when the query of the sensor at
position `k` is the first to fail, the probe returns the error of that query,
the sensors before position `k` have been registered, and no sensor after
position `k` is queried or registered. -/
theorem enrollment_pass (env : smgr_probe_env) (arr : List qcom_smgr_sensor)
    (hk : env.smgr_alloc_ok = true) (hi : 0 ≤ env.qmi_handle_init_ret)
    (hall : qcom_smgr_request_all_sensor_info env.all_info none =
      some ((arr.length : Int), some arr))
    (hlen : arr.length < 256) :
    ((∀ j s, arr[j]? = some s →
        ¬ (qcom_smgr_request_single_sensor_info (env.single_info j) s).1 < 0) →
      ∃ smgr calls, qcom_smgr_probe env = some (0, some smgr, calls) ∧
        queried_ids calls = arr.map (fun s => s.id) ∧
        registered_ids calls = arr.map (fun s => s.id)) ∧
    (∀ k s, arr[k]? = some s →
      (∀ j t, j < k → arr[j]? = some t →
        ¬ (qcom_smgr_request_single_sensor_info (env.single_info j) t).1 < 0) →
      (qcom_smgr_request_single_sensor_info (env.single_info k) s).1 < 0 →
      ∃ smgr calls, qcom_smgr_probe env =
          some ((qcom_smgr_request_single_sensor_info (env.single_info k) s).1,
            some smgr, calls) ∧
        queried_ids calls = (arr.map (fun s => s.id)).take (k + 1) ∧
        registered_ids calls = (arr.map (fun s => s.id)).take k) := by
  have hp := probe_after_inventory env arr hk (by omega) hall hlen
  constructor
  · intro hok
    obtain ⟨arr1, calls, hl, hq, hr⟩ := probe_sensors_loop_all_ok env.single_info arr 0 []
      (by intro j s hj; simpa using hok j s hj)
    rw [hl] at hp
    exact ⟨_, _, hp, by simpa [queried_ids] using hq, by simpa [registered_ids] using hr⟩
  · intro k s hks hbefore hfail
    obtain ⟨arr1, calls, hl, hq, hr⟩ := probe_sensors_loop_first_fail env.single_info arr 0 []
      k s hks (by intro j t hj ht; simpa using hbefore j t hj ht) (by simpa using hfail)
    simp only [Nat.zero_add] at hl
    rw [hl] at hp
    exact ⟨_, _, hp, by simpa [queried_ids] using hq, by simpa [registered_ids] using hr⟩

/-- Witness of C19, amended: the two-sensor inventory with the first metadata
query timing out. -/
theorem enrollment_pass_witness :
    (probe_env_first_fails.smgr_alloc_ok = true ∧ 0 ≤ probe_env_first_fails.qmi_handle_init_ret ∧
      (qcom_smgr_request_single_sensor_info (probe_env_first_fails.single_info 0)
        (new_sensor 0x12 qcom_smgr_sensor_type.SNS_SMGR_SENSOR_TYPE_ACCEL)).1 < 0) ∧
    ∃ smgr calls, qcom_smgr_probe probe_env_first_fails =
        some ((qcom_smgr_request_single_sensor_info (probe_env_first_fails.single_info 0)
            (new_sensor 0x12 qcom_smgr_sensor_type.SNS_SMGR_SENSOR_TYPE_ACCEL)).1,
          some smgr, calls) ∧
      queried_ids calls =
        ([new_sensor 0x12 qcom_smgr_sensor_type.SNS_SMGR_SENSOR_TYPE_ACCEL,
          new_sensor 0x14 qcom_smgr_sensor_type.SNS_SMGR_SENSOR_TYPE_GYRO].map
            (fun s => s.id)).take (0 + 1) ∧
      registered_ids calls =
        ([new_sensor 0x12 qcom_smgr_sensor_type.SNS_SMGR_SENSOR_TYPE_ACCEL,
          new_sensor 0x14 qcom_smgr_sensor_type.SNS_SMGR_SENSOR_TYPE_GYRO].map
            (fun s => s.id)).take 0 :=
  ⟨⟨rfl, by decide, by decide⟩,
   (enrollment_pass probe_env_first_fails
      [new_sensor 0x12 qcom_smgr_sensor_type.SNS_SMGR_SENSOR_TYPE_ACCEL,
       new_sensor 0x14 qcom_smgr_sensor_type.SNS_SMGR_SENSOR_TYPE_GYRO]
      rfl (by decide) (by decide) (by decide)).2 0
      (new_sensor 0x12 qcom_smgr_sensor_type.SNS_SMGR_SENSOR_TYPE_ACCEL) rfl
      (by intro j t hj; omega) (by decide)⟩

/-- C20, inventory query failure.  With the transaction opened and sent, a
response whose result is nonzero makes `qcom_smgr_request_all_sensor_info`
return `-EREMOTEIO`, and a failed wait makes it return the code of the wait,
`-ETIMEDOUT` for a timeout, which differs from `-EREMOTEIO`; in both cases the
sensor pointer is left as it was, and `qcom_smgr_probe` returns that code
with no sensor stored, having made no call but the inventory query (no
metadata query, no registration). -/
theorem inventory_query_failure (env : smgr_probe_env)
    (sensors : Option (List qcom_smgr_sensor))
    (h1 : 0 ≤ env.all_info.txn.txn_init_ret) (h2 : env.all_info.txn.send_request_ret = 0) :
    (0 ≤ env.all_info.txn.txn_wait_ret → env.all_info.txn.resp_result ≠ 0 →
      qcom_smgr_request_all_sensor_info env.all_info sensors = some (- EREMOTEIO, sensors) ∧
      (env.smgr_alloc_ok = true → 0 ≤ env.qmi_handle_init_ret →
        qcom_smgr_probe env =
          some (- EREMOTEIO, some { sensor_count := 0, sensors := none },
            [smgr_call.request_all_sensor_info]))) ∧
    (env.all_info.txn.txn_wait_ret < 0 →
      qcom_smgr_request_all_sensor_info env.all_info sensors =
        some (env.all_info.txn.txn_wait_ret, sensors) ∧
      (env.smgr_alloc_ok = true → 0 ≤ env.qmi_handle_init_ret →
        qcom_smgr_probe env =
          some (env.all_info.txn.txn_wait_ret, some { sensor_count := 0, sensors := none },
            [smgr_call.request_all_sensor_info]))) ∧
    - ETIMEDOUT ≠ - EREMOTEIO := by
  have h1n : ¬ env.all_info.txn.txn_init_ret < 0 := by omega
  refine ⟨?_, ?_, by decide⟩
  · intro h3 h4
    have h3n : ¬ env.all_info.txn.txn_wait_ret < 0 := by omega
    have hq : ∀ p, qcom_smgr_request_all_sensor_info env.all_info p = some (- EREMOTEIO, p) := by
      intro p
      simp [qcom_smgr_request_all_sensor_info, h1n, h2, h3n, h4]
    refine ⟨hq sensors, ?_⟩
    intro hk hi
    have hin : ¬ env.qmi_handle_init_ret < 0 := by omega
    simp [qcom_smgr_probe, hk, hin, hq none, EREMOTEIO]
  · intro h3
    have hq : ∀ p, qcom_smgr_request_all_sensor_info env.all_info p =
        some (env.all_info.txn.txn_wait_ret, p) := by
      intro p
      simp [qcom_smgr_request_all_sensor_info, h1n, h2, h3]
    refine ⟨hq sensors, ?_⟩
    intro hk hi
    have hin : ¬ env.qmi_handle_init_ret < 0 := by omega
    simp [qcom_smgr_probe, hk, hin, hq none, h3]

/-- Witness of C20: an inventory query rejected with result 1, and one that
times out. -/
theorem inventory_query_failure_witness :
    (0 ≤ probe_env_inventory_rejected.all_info.txn.txn_init_ret ∧
      probe_env_inventory_rejected.all_info.txn.send_request_ret = 0 ∧
      probe_env_inventory_rejected.all_info.txn.resp_result ≠ 0 ∧
      probe_env_inventory_timeout.all_info.txn.txn_wait_ret = - ETIMEDOUT) ∧
    qcom_smgr_probe probe_env_inventory_rejected =
      some (- EREMOTEIO, some { sensor_count := 0, sensors := none },
        [smgr_call.request_all_sensor_info]) ∧
    qcom_smgr_probe probe_env_inventory_timeout =
      some (probe_env_inventory_timeout.all_info.txn.txn_wait_ret,
        some { sensor_count := 0, sensors := none }, [smgr_call.request_all_sensor_info]) :=
  ⟨⟨by decide, rfl, by decide, rfl⟩,
   ((inventory_query_failure probe_env_inventory_rejected none (by decide) rfl).1
      (by decide) (by decide)).2 rfl (by decide),
   ((inventory_query_failure probe_env_inventory_timeout none (by decide) rfl).2.1
      (by decide)).2 rfl (by decide)⟩

end QcomSmgr
namespace QcomSnsReg

/-! ## Registry server: facts about the table -/

/-- The rows before the sentinel are rows of the table with a nonzero size. -/
theorem group_map_dropLast_mem : ∀ e ∈ group_map.dropLast, e ∈ group_map ∧ e.size ≠ 0 := by
  decide

/-- A row of the table with a nonzero size stands before the sentinel. -/
theorem group_map_mem_dropLast : ∀ e ∈ group_map, e.size ≠ 0 → e ∈ group_map.dropLast := by
  decide

/-- Every group id of the table is below 0x8000. -/
theorem group_map_id_lt : ∀ e ∈ group_map, e.group_id < 0x8000 := by
  decide

/-- The last row of the table is the zero-filled sentinel. -/
theorem group_map_getLast : group_map.getLast? = some ⟨0, 0, 0⟩ := by
  decide

/-- The ids of the rows before the sentinel ascend strictly. -/
theorem group_map_ids_ascend :
    List.Pairwise (fun a b : group_map_entry => a.group_id < b.group_id) group_map.dropLast := by
  decide

set_option maxRecDepth 100000 in
/-- Any two different rows of the table cover ranges of which one ends
before the other begins. -/
theorem group_map_ranges_apart :
    ∀ a ∈ group_map, ∀ b ∈ group_map, a ≠ b →
      a.offset + a.size ≤ b.offset ∨ b.offset + b.size ≤ a.offset := by
  decide

end QcomSnsReg
namespace QcomSnsReg

/-! ## Registry server: table claims -/

/-- C22, group map well-formedness.  The rows of `group_map` before the
sentinel carry strictly ascending group ids, row after row, so no two of
them carry the same id: the list of their ids has no duplicate, and two rows
before the sentinel with equal ids are the same row.  The table ends with the
zero-filled sentinel. -/
theorem group_map_well_formed :
    List.Pairwise (fun a b : group_map_entry => a.group_id < b.group_id) group_map.dropLast ∧
    (group_map.dropLast.map (fun e => e.group_id)).Nodup ∧
    (∀ a ∈ group_map.dropLast, ∀ b ∈ group_map.dropLast, a.group_id = b.group_id → a = b) ∧
    group_map.getLast? = some ⟨0, 0, 0⟩ ∧
    group_map.dropLast.length = 68 := by
  refine ⟨group_map_ids_ascend, ?_, ?_, group_map_getLast, by decide⟩
  · rw [List.Nodup, List.pairwise_map]
    exact group_map_ids_ascend.imp (fun h => Nat.ne_of_lt h)
  · intro a ha b hb hab
    by_contra hne
    have hsym : Symmetric (fun a b : group_map_entry => a.group_id ≠ b.group_id) :=
      fun _ _ h => h.symm
    exact (group_map_ids_ascend.imp (fun h => Nat.ne_of_lt h)).forall hsym ha hb hne hab

/-- C26, lookup over the whole 16-bit id space.  For every unsigned 16-bit
id, converted to `short` as the handler does: a row before the sentinel that
carries the id is what the lookup returns; when no row before the sentinel
carries the id the lookup returns NULL, which is the case of every id from
0x8000 on, whose conversion is negative; the lookup always ends at a row or
at the sentinel, never past the end of the table.  Every row before the
sentinel has a nonzero size and is found by the lookup of its own id. -/
theorem lookup_whole_id_space (id : Nat) (hid : id < 65536) :
    (∀ e ∈ group_map.dropLast, e.group_id = id →
      group_map_entry_by_id (u16_to_short id) = some (some e)) ∧
    ((∀ e ∈ group_map.dropLast, e.group_id ≠ id) →
      group_map_entry_by_id (u16_to_short id) = some none) ∧
    (0x8000 ≤ id →
      u16_to_short id < 0 ∧ group_map_entry_by_id (u16_to_short id) = some none) ∧
    (∃ r, group_map_entry_by_id (u16_to_short id) = some r ∧
      ∀ e, r = some e → e ∈ group_map.dropLast ∧ e.group_id = id) ∧
    (∀ e ∈ group_map.dropLast,
      e.size ≠ 0 ∧ group_map_entry_by_id (u16_to_short e.group_id) = some (some e)) := by
  have hun : (∀ e ∈ group_map.dropLast, e.group_id ≠ id) →
      group_map_entry_by_id (u16_to_short id) = some none := by
    intro hn
    exact group_map_entry_by_id_unmapped id hid
      (fun e he hsz => hn e (group_map_mem_dropLast e he hsz))
  refine ⟨?_, hun, ?_, ?_, ?_⟩
  · intro e he heq
    obtain ⟨hm, hsz⟩ := group_map_dropLast_mem e he
    rw [← heq]
    exact group_map_entry_by_id_mapped e hm hsz
  · intro h8
    refine ⟨?_, hun ?_⟩
    · unfold u16_to_short
      split <;> omega
    · intro e he heq
      have := group_map_id_lt e (group_map_dropLast_mem e he).1
      omega
  · obtain ⟨r, hr⟩ := group_map_entry_by_id_defined (u16_to_short id)
    refine ⟨r, hr, ?_⟩
    intro e hre
    subst hre
    obtain ⟨h1, h2, h3⟩ := group_map_scan_found _ _ _ hr
    exact ⟨group_map_mem_dropLast e h1 h2, u16_to_short_eq_id id hid e.group_id h3⟩
  · intro e he
    obtain ⟨hm, hsz⟩ := group_map_dropLast_mem e he
    exact ⟨hsz, group_map_entry_by_id_mapped e hm hsz⟩

/-- Witness of C26: the id 0x8001, whose conversion to `short` is negative. -/
theorem lookup_whole_id_space_witness :
    (0x8001 < 65536) ∧
    u16_to_short 0x8001 < 0 ∧ group_map_entry_by_id (u16_to_short 0x8001) = some none :=
  ⟨by decide, (lookup_whole_id_space 0x8001 (by decide)).2.2.1 (by decide)⟩

end QcomSnsReg
namespace QcomSnsReg

/-- The run on a mapped row reads the blob inside the range of the row only,
and a response with the success result is the one of the passing path. -/
theorem handler_mapped_cases (kz : Bool) (data : qcom_sns_reg_data) (e : group_map_entry)
    (he : e ∈ group_map) (hsz : e.size ≠ 0) (r : handler_effects)
    (hr : qcom_sns_reg_get_group_req_handler kz data ⟨e.group_id⟩ = some r) :
    (r.fw_reads = [] ∧
      ∀ rsp ∈ r.sent, rsp.result = qmi_result_type_v01.QMI_RESULT_FAILURE_V01) ∨
    (∃ fw, data.fw = some fw ∧ e.offset + e.size < fw.size ∧
      r = { sent := [{ result := qmi_result_type_v01.QMI_RESULT_SUCCESS_V01
                       id := e.group_id
                       data_len := e.size
                       data := (fw.data.drop e.offset).take e.size ++
                         (List.replicate SNS_REG_GROUP_DATA_MAX_LEN 0).drop e.size }]
            fw_reads := List.range' e.offset e.size }) := by
  by_cases hpass : kz = true ∧ ∃ fw, data.fw = some fw ∧
      ¬ (e.offset ≥ fw.size ∨ e.offset + e.size ≥ fw.size)
  · obtain ⟨hkz, fw, hfw, hb⟩ := hpass
    subst hkz
    rw [handler_mapped_pass data fw e he hsz hfw hb] at hr
    right
    exact ⟨fw, hfw, by omega, (Option.some.inj hr).symm⟩
  · left
    have hfail : data.fw = none ∨ kz = false ∨
        ∃ fw, data.fw = some fw ∧ fw.size ≤ e.offset + e.size := by
      cases hfw : data.fw with
      | none => exact Or.inl rfl
      | some fw =>
        right
        cases kz with
        | false => exact Or.inl rfl
        | true =>
          right
          refine ⟨fw, rfl, ?_⟩
          by_contra hlt
          exact hpass ⟨rfl, fw, hfw, by omega⟩
    have hres : r.fw_reads = [] ∧ (r.sent = [] ∨
        r.sent = [{ result := qmi_result_type_v01.QMI_RESULT_FAILURE_V01
                    id := e.group_id
                    data_len := 0
                    data := List.replicate SNS_REG_GROUP_DATA_MAX_LEN 0 }]) := by
      rcases hfail with h | h | h
      · rw [handler_mapped_fail kz data e he hsz (Or.inl h)] at hr
        rw [← Option.some.inj hr]
        cases kz <;> simp
      · subst h
        simp only [qcom_sns_reg_get_group_req_handler,
          group_map_entry_by_id_mapped e he hsz, if_true] at hr
        rw [← Option.some.inj hr]
        simp
      · rw [handler_mapped_fail kz data e he hsz (Or.inr h)] at hr
        rw [← Option.some.inj hr]
        cases kz <;> simp
    refine ⟨hres.1, ?_⟩
    intro rsp hrsp
    rcases hres.2 with h | h
    · rw [h] at hrsp
      exact absurd hrsp (List.not_mem_nil _)
    · rw [h, List.mem_singleton] at hrsp
      rw [hrsp]

/-- C27, payload capacity.  Every row of `group_map` before the sentinel has
a size above 0 and at most 256, the length of the data field of the
response.  For every request with a 16-bit id and every response sent with
the success result, the requested id is the id of a row before the sentinel,
the copy of `size` bytes into the 256-byte data field is inside both arrays
and leaves the field 256 bytes long, and `data_len` holds the size of the
row, which is below 65536 and so not reduced by the 16-bit field. -/
theorem payload_capacity (kz : Bool) (data : qcom_sns_reg_data) (req : sns_reg_group_req)
    (hid : req.id < 65536) :
    (∀ e ∈ group_map.dropLast, 0 < e.size ∧ e.size ≤ SNS_REG_GROUP_DATA_MAX_LEN) ∧
    SNS_REG_GROUP_DATA_MAX_LEN = 256 ∧
    ∀ r rsp, qcom_sns_reg_get_group_req_handler kz data req = some r → rsp ∈ r.sent →
      rsp.result = qmi_result_type_v01.QMI_RESULT_SUCCESS_V01 →
      ∃ e ∈ group_map.dropLast, ∃ fw, e.group_id = req.id ∧ data.fw = some fw ∧
        memcpy (List.replicate SNS_REG_GROUP_DATA_MAX_LEN 0) fw.data e.offset e.size =
          some rsp.data ∧
        rsp.data.length = 256 ∧ rsp.data_len = e.size ∧ e.size < 65536 := by
  have hrows : ∀ e ∈ group_map.dropLast, 0 < e.size ∧ e.size ≤ SNS_REG_GROUP_DATA_MAX_LEN := by
    intro e he
    obtain ⟨hm, hsz⟩ := group_map_dropLast_mem e he
    exact ⟨Nat.pos_of_ne_zero hsz, group_map_size_le e hm⟩
  refine ⟨hrows, rfl, ?_⟩
  intro r rsp hr hrsp hres
  cases req with
  | mk id =>
  simp only at hid
  by_cases hmap : ∃ e ∈ group_map.dropLast, e.group_id = id
  · obtain ⟨e, he, hid2⟩ := hmap
    obtain ⟨hm, hsz⟩ := group_map_dropLast_mem e he
    subst hid2
    rcases handler_mapped_cases kz data e hm hsz r hr with ⟨_, hfail⟩ | ⟨fw, hfw, hlt, hreq⟩
    · have := hfail rsp hrsp
      rw [hres] at this
      exact absurd this (by decide)
    · subst hreq
      rw [List.mem_singleton] at hrsp
      subst hrsp
      have h256 := (hrows e he).2
      have hs : e.offset + e.size ≤ fw.data.length := by unfold firmware.size at hlt; omega
      refine ⟨e, he, fw, rfl, hfw, ?_, ?_, rfl, ?_⟩
      · exact memcpy_in_bounds (List.replicate SNS_REG_GROUP_DATA_MAX_LEN 0) fw.data
          e.offset e.size hs (by simpa using h256)
      · exact copied_length fw.data e.offset e.size hs h256
      · unfold SNS_REG_GROUP_DATA_MAX_LEN at h256; omega
  · have hn : ∀ e ∈ group_map, e.size ≠ 0 → e.group_id ≠ id := by
      intro e he hsz heq
      exact hmap ⟨e, group_map_mem_dropLast e he hsz, heq⟩
    rw [handler_unmapped kz data id hid hn] at hr
    rw [← Option.some.inj hr] at hrsp
    cases kz with
    | false => simp at hrsp
    | true =>
      simp only [if_true, List.mem_singleton] at hrsp
      rw [hrsp] at hres
      simp at hres

end QcomSnsReg
namespace QcomSnsReg

/-- Witness of C27: the fetch of group 2000 (size 0x10) from a blob of 0x5000
bytes is answered with success, a data field of 256 bytes and `data_len`
0x10. -/
theorem payload_capacity_witness :
    (2000 < 65536) ∧
    ∃ r rsp, qcom_sns_reg_get_group_req_handler true session_blob_0x5000 ⟨2000⟩ = some r ∧
      rsp ∈ r.sent ∧ rsp.result = qmi_result_type_v01.QMI_RESULT_SUCCESS_V01 ∧
      rsp.data.length = 256 ∧ rsp.data_len = 0x010 := by
  have h := handler_mapped_pass session_blob_0x5000 blob_0x5000 ⟨2000, 0x0200, 0x010⟩
    (by decide) (by decide) rfl (by rw [blob_0x5000_size]; decide)
  obtain ⟨_, _, _, _, _, _, h4, _, _⟩ :=
    (payload_capacity true session_blob_0x5000 ⟨2000⟩ (by decide)).2.2 _ _ h
      (List.mem_singleton.mpr rfl) rfl
  exact ⟨by decide, _, _, h, List.mem_singleton.mpr rfl, rfl, h4, rfl⟩

/-- C28, disjoint group ranges.  For every two different rows of `group_map`
the byte ranges from `offset` up to `offset + size` lie apart: one ends where
or before the other begins, so no index belongs to both.  Two different rows
before the sentinel carry different ids, and the blob indices read by a
fetch of one are never read by a fetch of the other: no blob byte is served
under two group ids. -/
theorem disjoint_group_ranges (a b : group_map_entry) (ha : a ∈ group_map)
    (hb : b ∈ group_map) (hne : a ≠ b) :
    (a.offset + a.size ≤ b.offset ∨ b.offset + b.size ≤ a.offset) ∧
    (∀ i, ¬ (a.offset ≤ i ∧ i < a.offset + a.size ∧ b.offset ≤ i ∧ i < b.offset + b.size)) ∧
    (a.size ≠ 0 → b.size ≠ 0 →
      a.group_id ≠ b.group_id ∧
      ∀ kz1 kz2 d1 d2 r1 r2,
        qcom_sns_reg_get_group_req_handler kz1 d1 ⟨a.group_id⟩ = some r1 →
        qcom_sns_reg_get_group_req_handler kz2 d2 ⟨b.group_id⟩ = some r2 →
        ∀ i ∈ r1.fw_reads, i ∉ r2.fw_reads) := by
  have hapart := group_map_ranges_apart a ha b hb hne
  refine ⟨hapart, ?_, ?_⟩
  · intro i hi
    omega
  · intro hsa hsb
    refine ⟨?_, ?_⟩
    · intro hid
      have hsym : Symmetric (fun a b : group_map_entry => a.group_id ≠ b.group_id) :=
        fun _ _ h => h.symm
      exact (group_map_ids_ascend.imp (fun h => Nat.ne_of_lt h)).forall hsym
        (group_map_mem_dropLast a ha hsa) (group_map_mem_dropLast b hb hsb) hne hid
    · intro kz1 kz2 d1 d2 r1 r2 h1 h2 i hi1 hi2
      rcases handler_mapped_cases kz1 d1 a ha hsa r1 h1 with ⟨hnil, _⟩ | ⟨_, _, _, hr1⟩
      · rw [hnil] at hi1
        exact absurd hi1 (List.not_mem_nil _)
      · rcases handler_mapped_cases kz2 d2 b hb hsb r2 h2 with ⟨hnil, _⟩ | ⟨_, _, _, hr2⟩
        · rw [hnil] at hi2
          exact absurd hi2 (List.not_mem_nil _)
        · rw [hr1] at hi1
          rw [hr2] at hi2
          simp only [List.mem_range'_1] at hi1 hi2
          omega

/-- Witness of C28: the rows of the groups 0 (bytes 0x0000 .. 0x0017) and 1040
(bytes 0x0100 .. 0x017f) lie apart. -/
theorem disjoint_group_ranges_witness :
    ((⟨0, 0x0000, 0x018⟩ : group_map_entry) ∈ group_map ∧
      (⟨1040, 0x0100, 0x080⟩ : group_map_entry) ∈ group_map ∧
      (⟨0, 0x0000, 0x018⟩ : group_map_entry) ≠ ⟨1040, 0x0100, 0x080⟩) ∧
    (0x0000 + 0x018 ≤ 0x0100 ∨ 0x0100 + 0x080 ≤ 0x0000) :=
  ⟨⟨by decide, by decide, by decide⟩,
   (disjoint_group_ranges ⟨0, 0x0000, 0x018⟩ ⟨1040, 0x0100, 0x080⟩
     (by decide) (by decide) (by decide)).1⟩

end QcomSnsReg
namespace QcomSmgr

/-! ## Sensor manager client: facts about the sampling-frequency write -/

/-- The write to `cur_sample_rate` is defined exactly on a sensor with a first
item, and changes that field of that item only. -/
theorem set_cur_sample_rate_some (sensor : qcom_smgr_sensor) (dt : qcom_smgr_data_type_item)
    (rest : List qcom_smgr_data_type_item) (v : Nat)
    (hdt : sensor.data_types = some (dt :: rest)) :
    set_cur_sample_rate sensor v =
      some { sensor with data_types := some ({ dt with cur_sample_rate := v } :: rest) } := by
  simp [set_cur_sample_rate, hdt]

/-- Without a first item the write to `cur_sample_rate` is outside the array. -/
theorem set_cur_sample_rate_none (sensor : qcom_smgr_sensor) (v : Nat)
    (hdt : data_types_0 sensor = none) : set_cur_sample_rate sensor v = none := by
  unfold data_types_0 at hdt
  unfold set_cur_sample_rate
  split
  · rename_i dt rest heq
    rw [heq] at hdt
    simp at hdt
  · rfl

/-- The request built does not read `cur_sample_rate`. -/
theorem request_buffering_req_cur (sensor : qcom_smgr_sensor) (dt : qcom_smgr_data_type_item)
    (rest : List qcom_smgr_data_type_item) (v : Nat) (enable : Bool)
    (hdt : sensor.data_types = some (dt :: rest)) :
    qcom_smgr_request_buffering_req
        { sensor with data_types := some ({ dt with cur_sample_rate := v } :: rest) } enable =
      qcom_smgr_request_buffering_req sensor enable := by
  cases enable with
  | false => rfl
  | true =>
    simp only [qcom_smgr_request_buffering_req, data_types_0, hdt, native_sample_rate_last,
      if_true]

/-- The return value and the requests sent by `qcom_smgr_request_buffering`
do not depend on `cur_sample_rate`; after a success neither does the sensor
left, and after a failure the sensor is left as it was. -/
theorem request_buffering_cur (txn : qmi_txn_outcome) (sensor : qcom_smgr_sensor)
    (dt : qcom_smgr_data_type_item) (rest : List qcom_smgr_data_type_item) (v : Nat)
    (enable : Bool) (hdt : sensor.data_types = some (dt :: rest)) :
    (qcom_smgr_request_buffering txn sensor enable = none ∧
      qcom_smgr_request_buffering txn
        { sensor with data_types := some ({ dt with cur_sample_rate := v } :: rest) }
        enable = none) ∨
    ∃ eff eff1, qcom_smgr_request_buffering txn sensor enable = some eff ∧
      qcom_smgr_request_buffering txn
        { sensor with data_types := some ({ dt with cur_sample_rate := v } :: rest) }
        enable = some eff1 ∧
      eff1.ret = eff.ret ∧ eff1.sent = eff.sent ∧
      ((eff.ret = 0 ∧ eff1.sensor = eff.sensor) ∨
       (eff.ret < 0 ∧ eff.sensor = sensor ∧
         eff1.sensor =
           { sensor with data_types := some ({ dt with cur_sample_rate := v } :: rest) })) := by
  have hreq := request_buffering_req_cur sensor dt rest v enable hdt
  cases hq : qcom_smgr_request_buffering_req sensor enable with
  | none =>
    left
    rw [hq] at hreq
    simp [qcom_smgr_request_buffering, hq, hreq]
  | some p =>
    obtain ⟨req, r⟩ := p
    rw [hq] at hreq
    right
    by_cases hf : txn.txn_init_ret < 0 ∨ txn.send_request_ret < 0 ∨ txn.txn_wait_ret < 0 ∨
        txn.resp_result ≠ 0
    · simp only [qcom_smgr_request_buffering, hq, hreq]
      by_cases h1 : txn.txn_init_ret < 0
      · simp only [h1, if_true]
        exact ⟨_, _, rfl, rfl, rfl, rfl, Or.inr ⟨h1, rfl, rfl⟩⟩
      · by_cases h2 : txn.send_request_ret < 0
        · simp only [h1, h2, if_true, if_false]
          exact ⟨_, _, rfl, rfl, rfl, rfl, Or.inr ⟨h2, rfl, rfl⟩⟩
        · by_cases h3 : txn.txn_wait_ret < 0
          · simp only [h1, h2, h3, if_true, if_false]
            exact ⟨_, _, rfl, rfl, rfl, rfl, Or.inr ⟨h3, rfl, rfl⟩⟩
          · have h4 : txn.resp_result ≠ 0 := by
              rcases hf with h | h | h | h
              · exact absurd h h1
              · exact absurd h h2
              · exact absurd h h3
              · exact h
            simp only [h1, h2, h3, h4, ne_eq, not_false_eq_true, if_true, if_false]
            exact ⟨_, _, rfl, rfl, rfl, rfl, Or.inr ⟨by simp [ EREMOTEIO], rfl, rfl⟩⟩
    · have hs : 0 ≤ txn.txn_init_ret ∧ 0 ≤ txn.send_request_ret ∧ 0 ≤ txn.txn_wait_ret ∧
          txn.resp_result = 0 := by
        refine ⟨?_, ?_, ?_, ?_⟩
        · by_contra h; exact hf (Or.inl (by omega))
        · by_contra h; exact hf (Or.inr (Or.inl (by omega)))
        · by_contra h; exact hf (Or.inr (Or.inr (Or.inl (by omega))))
        · by_contra h; exact hf (Or.inr (Or.inr (Or.inr h)))
      refine ⟨_, _, request_buffering_succeeded txn sensor enable req r dt rest hq hdt hs,
        request_buffering_succeeded txn _ enable req r { dt with cur_sample_rate := v } rest
          hreq rfl hs, rfl, rfl, Or.inl ⟨rfl, rfl⟩⟩

end QcomSmgr
namespace QcomSmgr

/-! ## Sensor manager client: sampling-frequency claims -/

/-- C21, rate change while active.  For every write with the selector
`IIO_CHAN_INFO_SAMP_FREQ`: while the buffer is enabled the call runs
`qcom_smgr_request_buffering` with `enable` true, so whenever enabling the
buffering of the sensor gives a result the write gives one with the same
return value and the same requests sent, and the other way round; while the
buffer is not enabled the call sends nothing and returns 0, having stored the
value, converted to u16, in `cur_sample_rate`.  For every other selector the
call returns `-EINVAL`, sends nothing and leaves the sensor as it was. -/
theorem rate_change_while_active (txn : qmi_txn_outcome) (sensor : qcom_smgr_sensor)
    (val val2 : Int) :
    (∀ eff, qcom_smgr_request_buffering txn sensor true = some eff →
      ∃ eff1, qcom_smgr_iio_write_raw txn true sensor val val2
          iio_chan_info_enum.IIO_CHAN_INFO_SAMP_FREQ = some eff1 ∧
        eff1.ret = eff.ret ∧ eff1.sent = eff.sent) ∧
    (∀ eff1, qcom_smgr_iio_write_raw txn true sensor val val2
        iio_chan_info_enum.IIO_CHAN_INFO_SAMP_FREQ = some eff1 →
      ∃ eff, qcom_smgr_request_buffering txn sensor true = some eff ∧
        eff1.ret = eff.ret ∧ eff1.sent = eff.sent) ∧
    (∀ dt rest, sensor.data_types = some (dt :: rest) →
      qcom_smgr_iio_write_raw txn false sensor val val2
          iio_chan_info_enum.IIO_CHAN_INFO_SAMP_FREQ =
        some { ret := 0
               sensor := { sensor with
                 data_types := some ({ dt with cur_sample_rate := int_to_u16 val } :: rest) }
               sent := [] }) ∧
    (∀ buffer_enabled mask, mask ≠ iio_chan_info_enum.IIO_CHAN_INFO_SAMP_FREQ →
      qcom_smgr_iio_write_raw txn buffer_enabled sensor val val2 mask =
        some { ret := - EINVAL, sensor := sensor, sent := [] }) := by
  refine ⟨?_, ?_, ?_, ?_⟩
  · intro eff heff
    cases hd : data_types_0 sensor with
    | none => simp [qcom_smgr_request_buffering, qcom_smgr_request_buffering_req, hd] at heff
    | some dt =>
      obtain ⟨rest, hdt⟩ := data_types_0_some sensor dt hd
      simp only [qcom_smgr_iio_write_raw, set_cur_sample_rate_some sensor dt rest _ hdt,
        if_true, qcom_smgr_sensor_postenable]
      rcases request_buffering_cur txn sensor dt rest (int_to_u16 val) true hdt with
        ⟨h0, _⟩ | ⟨eff0, eff1, h0, h1, hret, hsent, _⟩
      · rw [h0] at heff
        exact absurd heff (by simp)
      · rw [h0] at heff
        rw [← Option.some.inj heff]
        exact ⟨eff1, h1, hret, hsent⟩
  · intro eff1 heff1
    cases hd : data_types_0 sensor with
    | none =>
      simp [qcom_smgr_iio_write_raw, set_cur_sample_rate_none sensor _ hd] at heff1
    | some dt =>
      obtain ⟨rest, hdt⟩ := data_types_0_some sensor dt hd
      simp only [qcom_smgr_iio_write_raw, set_cur_sample_rate_some sensor dt rest _ hdt,
        if_true, qcom_smgr_sensor_postenable] at heff1
      rcases request_buffering_cur txn sensor dt rest (int_to_u16 val) true hdt with
        ⟨_, h1⟩ | ⟨eff0, eff2, h0, h1, hret, hsent, _⟩
      · rw [h1] at heff1
        exact absurd heff1 (by simp)
      · rw [h1] at heff1
        rw [← Option.some.inj heff1]
        exact ⟨eff0, h0, hret, hsent⟩
  · intro dt rest hdt
    simp [qcom_smgr_iio_write_raw, set_cur_sample_rate_some sensor dt rest _ hdt]
  · intro buffer_enabled mask hmask
    cases mask with
    | IIO_CHAN_INFO_SAMP_FREQ => exact absurd rfl hmask
    | IIO_CHAN_INFO_SCALE => rfl
    | IIO_CHAN_INFO_OFFSET => rfl
    | other m => rfl

/-- Witness of C21: on the accelerometer with native rates [50, 100, 200] and
maximum rate 150, the write of 70 while the buffer is enabled returns what
enabling returns and sends the request enabling sends. -/
theorem rate_change_while_active_witness :
    ∃ eff eff1,
      qcom_smgr_request_buffering txn_success (accel_sensor [50, 100, 200] 150) true = some eff ∧
      qcom_smgr_iio_write_raw txn_success true (accel_sensor [50, 100, 200] 150) 70 0
        iio_chan_info_enum.IIO_CHAN_INFO_SAMP_FREQ = some eff1 ∧
      eff1.ret = eff.ret ∧ eff1.sent = eff.sent ∧ eff.ret = 0 ∧ eff.sent.length = 1 := by
  have h0 : ∃ eff, qcom_smgr_request_buffering txn_success
      (accel_sensor [50, 100, 200] 150) true = some eff ∧ eff.ret = 0 ∧ eff.sent.length = 1 := by
    decide
  obtain ⟨eff, h, hr, hl⟩ := h0
  obtain ⟨eff1, h1, h2, h3⟩ :=
    (rate_change_while_active txn_success (accel_sensor [50, 100, 200] 150) 70 0).1 eff h
  exact ⟨eff, eff1, h, h1, h2, h3, hr, hl⟩

end QcomSmgr
namespace QcomSmgr

/-- C29, the written sampling frequency does not reach the remote.  For every
sensor, transaction outcome and two written values, the writes made while
the buffer is enabled return the same value and send the same requests.
Whenever such a write gives a result, the request it may send is the one
enabling builds from the first item, with the rate
`clamp_sample_rate last max_sample_rate` derived from the native rates and
the maximum rate; after a return value of 0 that request was sent and
`cur_sample_rate` holds that rate, not the written value.  Two sensors whose
first items agree on the native rates, their count and the maximum rate get
the same sampling rate and report rate. -/
theorem written_value_ignored (txn : qmi_txn_outcome) (sensor : qcom_smgr_sensor)
    (v1 v2 w1 w2 : Int) :
    ((qcom_smgr_iio_write_raw txn true sensor v1 w1
        iio_chan_info_enum.IIO_CHAN_INFO_SAMP_FREQ).map (fun e => (e.ret, e.sent)) =
      (qcom_smgr_iio_write_raw txn true sensor v2 w2
        iio_chan_info_enum.IIO_CHAN_INFO_SAMP_FREQ).map (fun e => (e.ret, e.sent))) ∧
    (∀ eff, qcom_smgr_iio_write_raw txn true sensor v1 w1
        iio_chan_info_enum.IIO_CHAN_INFO_SAMP_FREQ = some eff →
      ∃ dt last req, data_types_0 sensor = some dt ∧ native_sample_rate_last dt = some last ∧
        qcom_smgr_request_buffering_req sensor true =
          some (req, clamp_sample_rate last dt.max_sample_rate) ∧
        (eff.sent = [] ∨ eff.sent = [req]) ∧
        (eff.ret = 0 → eff.sent = [req] ∧
          ∃ dt1, data_types_0 eff.sensor = some dt1 ∧
            dt1.cur_sample_rate = clamp_sample_rate last dt.max_sample_rate)) ∧
    (∀ sensor2 dt dt2, data_types_0 sensor = some dt → data_types_0 sensor2 = some dt2 →
      dt.native_sample_rates = dt2.native_sample_rates →
      dt.native_sample_rate_count = dt2.native_sample_rate_count →
      dt.max_sample_rate = dt2.max_sample_rate →
      (qcom_smgr_request_buffering_req sensor true).map
          (fun p => (p.1.report_rate, p.1.items.map (fun it => it.sampling_rate), p.2)) =
        (qcom_smgr_request_buffering_req sensor2 true).map
          (fun p => (p.1.report_rate, p.1.items.map (fun it => it.sampling_rate), p.2))) := by
  refine ⟨?_, ?_, ?_⟩
  · cases hd : data_types_0 sensor with
    | none =>
      simp [qcom_smgr_iio_write_raw, set_cur_sample_rate_none sensor _ hd]
    | some dt =>
      obtain ⟨rest, hdt⟩ := data_types_0_some sensor dt hd
      simp only [qcom_smgr_iio_write_raw, set_cur_sample_rate_some sensor dt rest _ hdt,
        if_true, qcom_smgr_sensor_postenable]
      rcases request_buffering_cur txn sensor dt rest (int_to_u16 v1) true hdt with
        ⟨h0, h1⟩ | ⟨eff0, eff1, h0, h1, hret1, hsent1, _⟩
      · rcases request_buffering_cur txn sensor dt rest (int_to_u16 v2) true hdt with
          ⟨_, h2⟩ | ⟨eff0b, _, h0b, _, _, _, _⟩
        · rw [h1, h2]
        · rw [h0] at h0b
          exact absurd h0b (by simp)
      · rcases request_buffering_cur txn sensor dt rest (int_to_u16 v2) true hdt with
          ⟨h0b, _⟩ | ⟨eff0b, eff2, h0b, h2, hret2, hsent2, _⟩
        · rw [h0] at h0b
          exact absurd h0b (by simp)
        · rw [h0] at h0b
          have hb : eff0 = eff0b := Option.some.inj h0b
          subst hb
          rw [h1, h2]
          simp only [Option.map_some', hret1, hsent1, hret2, hsent2]
  · intro eff heff
    cases hd : data_types_0 sensor with
    | none =>
      simp [qcom_smgr_iio_write_raw, set_cur_sample_rate_none sensor _ hd] at heff
    | some dt =>
      obtain ⟨rest, hdt⟩ := data_types_0_some sensor dt hd
      simp only [qcom_smgr_iio_write_raw, set_cur_sample_rate_some sensor dt rest _ hdt,
        if_true, qcom_smgr_sensor_postenable] at heff
      have hreqeq := request_buffering_req_cur sensor dt rest (int_to_u16 v1) true hdt
      cases hq : qcom_smgr_request_buffering_req sensor true with
      | none =>
        rw [hq] at hreqeq
        simp [qcom_smgr_request_buffering, hreqeq] at heff
      | some p =>
        obtain ⟨req, r⟩ := p
        rw [hq] at hreqeq
        obtain ⟨dt', last, hd', hlast, hr, _⟩ := request_buffering_req_enable_inv sensor req r hq
        rw [hd] at hd'
        have hdd : dt = dt' := Option.some.inj hd'
        subst hdd
        subst hr
        refine ⟨dt, last, req, rfl, hlast, rfl, ?_⟩
        by_cases hf : txn.txn_init_ret < 0 ∨ txn.send_request_ret < 0 ∨
            txn.txn_wait_ret < 0 ∨ txn.resp_result ≠ 0
        · obtain ⟨eff', he, hneg, _, hsent⟩ :=
            request_buffering_failed txn _ true req _ hreqeq hf
          rw [he] at heff
          have hee : eff' = eff := Option.some.inj heff
          subst hee
          refine ⟨hsent, ?_⟩
          intro h0
          omega
        · have hs : 0 ≤ txn.txn_init_ret ∧ 0 ≤ txn.send_request_ret ∧
              0 ≤ txn.txn_wait_ret ∧ txn.resp_result = 0 := by
            refine ⟨?_, ?_, ?_, ?_⟩
            · by_contra h; exact hf (Or.inl (by omega))
            · by_contra h; exact hf (Or.inr (Or.inl (by omega)))
            · by_contra h; exact hf (Or.inr (Or.inr (Or.inl (by omega))))
            · by_contra h; exact hf (Or.inr (Or.inr (Or.inr h)))
          rw [request_buffering_succeeded txn _ true req _
            { dt with cur_sample_rate := int_to_u16 v1 } rest hreqeq rfl hs] at heff
          rw [← Option.some.inj heff]
          exact ⟨Or.inr rfl, fun _ => ⟨rfl, _, rfl, rfl⟩⟩
  · intro sensor2 dt dt2 hd hd2 hrates hcount hmax
    have hl : native_sample_rate_last dt = native_sample_rate_last dt2 := by
      simp only [native_sample_rate_last, hrates, hcount]
    cases hlast : native_sample_rate_last dt with
    | none =>
      rw [hlast] at hl
      simp [qcom_smgr_request_buffering_req, hd, hd2, hlast, ← hl]
    | some last =>
      rw [hlast] at hl
      rw [request_buffering_req_enable sensor dt last hd hlast,
        request_buffering_req_enable sensor2 dt2 last hd2 hl.symm, hmax]
      rfl

/-- Witness of C29: on the accelerometer with native rates [50, 100, 200] and
maximum rate 150, the writes of 70 and of 120 while the buffer is enabled
return 0, send the same request, and leave 150 in `cur_sample_rate`. -/
theorem written_value_ignored_witness :
    (qcom_smgr_iio_write_raw txn_success true (accel_sensor [50, 100, 200] 150) 70 0
        iio_chan_info_enum.IIO_CHAN_INFO_SAMP_FREQ).map (fun e => (e.ret, e.sent)) =
      (qcom_smgr_iio_write_raw txn_success true (accel_sensor [50, 100, 200] 150) 120 0
        iio_chan_info_enum.IIO_CHAN_INFO_SAMP_FREQ).map (fun e => (e.ret, e.sent)) ∧
    (∃ eff, qcom_smgr_iio_write_raw txn_success true (accel_sensor [50, 100, 200] 150) 70 0
        iio_chan_info_enum.IIO_CHAN_INFO_SAMP_FREQ = some eff ∧ eff.ret = 0 ∧
      (data_types_0 eff.sensor).map (fun dt => dt.cur_sample_rate) = some 150) :=
  ⟨(written_value_ignored txn_success (accel_sensor [50, 100, 200] 150) 70 120 0 0).1,
   by decide⟩

end QcomSmgr
namespace QcomSmgr

/-! ## Sensor manager client: facts about the stored rate lists -/

/-- A zero-filled item has no rate list. -/
theorem zero_data_type_item_rates : zero_data_type_item.native_sample_rates = none := rfl

/-- Every item written by the loop of the metadata query that holds a rate
list holds a non-empty one, with its length as the count. -/
theorem fill_data_types_stored (env : single_sensor_info_env)
    (todo : List sns_smgr_single_sensor_info_data_type) :
    ∀ (i : Nat) (filled : List qcom_smgr_data_type_item),
      (∀ dt ∈ filled, ∀ rates, dt.native_sample_rates = some rates →
        dt.native_sample_rate_count = rates.length ∧ rates ≠ []) →
      ∀ dt ∈ (fill_data_types env i todo filled).2, ∀ rates,
        dt.native_sample_rates = some rates →
        dt.native_sample_rate_count = rates.length ∧ rates ≠ [] := by
  induction todo with
  | nil => intro i filled h; simpa [fill_data_types] using h
  | cons item rest ih =>
    intro i filled h
    simp only [fill_data_types]
    split
    · rename_i hlen
      split
      · intro dt hdt rates hr
        simp only [List.mem_append, List.mem_singleton, List.mem_replicate] at hdt
        rcases hdt with (hdt | hdt) | hdt
        · exact h dt hdt rates hr
        · rw [hdt] at hr
          simp [zero_data_type_item] at hr
        · rw [hdt.2] at hr
          simp [zero_data_type_item] at hr
      · apply ih
        intro dt hdt rates hr
        simp only [List.mem_append, List.mem_singleton] at hdt
        rcases hdt with hdt | hdt
        · exact h dt hdt rates hr
        · rw [hdt] at hr ⊢
          simp only [Option.some.injEq] at hr
          subst hr
          refine ⟨rfl, ?_⟩
          intro hnil
          rw [hnil] at hlen
          exact hlen rfl
    · apply ih
      intro dt hdt rates hr
      simp only [List.mem_append, List.mem_singleton] at hdt
      rcases hdt with hdt | hdt
      · exact h dt hdt rates hr
      · rw [hdt] at hr
        simp [zero_data_type_item] at hr

/-- Every item of a sensor filled by the metadata query, starting from a
sensor as the inventory creates it, that holds a rate list holds a non-empty
one, with its length as the count. -/
theorem request_single_sensor_info_stored (env : single_sensor_info_env) (id : Nat)
    (type : qcom_smgr_sensor_type) (arr : List qcom_smgr_data_type_item)
    (harr : (qcom_smgr_request_single_sensor_info env (new_sensor id type)).2.data_types =
      some arr) :
    ∀ dt ∈ arr, ∀ rates, dt.native_sample_rates = some rates →
      dt.native_sample_rate_count = rates.length ∧ rates ≠ [] := by
  unfold qcom_smgr_request_single_sensor_info at harr
  split at harr
  · simp [new_sensor] at harr
  · split at harr
    · simp [new_sensor] at harr
    · split at harr
      · simp [new_sensor] at harr
      · split at harr
        · simp [new_sensor] at harr
        · dsimp only at harr
          split at harr
          · simp at harr
          · simp only [Option.some.injEq] at harr
            rw [← harr]
            exact fill_data_types_stored env _ 0 [] (by simp)

/-- The rate chosen for a first item whose rate list, when present, is
non-empty with its length as the count. -/
theorem request_buffering_req_stored (sensor : qcom_smgr_sensor)
    (dt : qcom_smgr_data_type_item) (hdt : data_types_0 sensor = some dt)
    (hst : ∀ rates, dt.native_sample_rates = some rates →
      dt.native_sample_rate_count = rates.length ∧ rates ≠ []) :
    (qcom_smgr_request_buffering_req sensor true).map (fun p => p.2) =
      some (if (dt.native_sample_rates.getD []).getLast?.getD 0 ≠ 0 then
          min ((dt.native_sample_rates.getD []).getLast?.getD 0) dt.max_sample_rate
        else dt.max_sample_rate) := by
  cases hr : dt.native_sample_rates with
  | none =>
    have hlast : native_sample_rate_last dt = some 0 := by
      simp [native_sample_rate_last, hr]
    rw [request_buffering_req_enable sensor dt 0 hdt hlast]
    simp [clamp_sample_rate]
  | some rates =>
    obtain ⟨hc, hne⟩ := hst rates hr
    have hlast := native_sample_rate_last_stored dt rates hr hc hne
    have hlen : rates.length - 1 < rates.length := by
      have : rates.length ≠ 0 := fun h0 => hne (List.length_eq_zero.mp h0)
      omega
    rw [List.getElem?_eq_getElem hlen] at hlast
    rw [request_buffering_req_enable sensor dt _ hdt hlast]
    have hgl : rates.getLast? = some (rates[rates.length - 1]) := by
      rw [List.getLast?_eq_getElem?, List.getElem?_eq_getElem hlen]
    simp only [Option.getD_some, hgl, clamp_sample_rate, Option.map_some', Option.some.injEq]
    by_cases h0 : rates[rates.length - 1] = 0
    · simp [h0]
    · by_cases hgt : rates[rates.length - 1] > dt.max_sample_rate
      · simp [h0, hgt, Nat.min_eq_right (Nat.le_of_lt hgt)]
      · simp [h0, hgt, Nat.min_eq_left (Nat.le_of_not_gt hgt)]

end QcomSmgr
namespace QcomSmgr

/-! ## Sensor manager client: rate selection on stored metadata -/

/-- C23, rate selection under the data model.  For every first item `dt` of a
sensor filled by the metadata query (ascending rate lists among them): a
stored rate list is never empty and its count is its length, so the index
`count - 1` used by the enable path lies inside it; the rate chosen when
enabling buffering is `min last max_sample_rate` when the list has a last
entry `last` that is not 0, and `max_sample_rate` when the list is empty or
its last entry is 0.  The same rate is chosen after the enrollment pass has
stored the default rate in the sensor. -/
theorem rate_selection_data_model (env : single_sensor_info_env) (id : Nat)
    (type : qcom_smgr_sensor_type) (dt : qcom_smgr_data_type_item)
    (hdt : data_types_0 (qcom_smgr_request_single_sensor_info env (new_sensor id type)).2 =
      some dt) :
    (∀ rates, dt.native_sample_rates = some rates →
      dt.native_sample_rate_count = rates.length ∧ dt.native_sample_rate_count ≠ 0 ∧
      dt.native_sample_rate_count - 1 < rates.length) ∧
    (∀ last, (dt.native_sample_rates.getD []).getLast? = some last → last ≠ 0 →
      (qcom_smgr_request_buffering_req
        (qcom_smgr_request_single_sensor_info env (new_sensor id type)).2 true).map
          (fun p => p.2) = some (min last dt.max_sample_rate)) ∧
    (dt.native_sample_rates.getD [] = [] ∨
        (dt.native_sample_rates.getD []).getLast? = some 0 →
      (qcom_smgr_request_buffering_req
        (qcom_smgr_request_single_sensor_info env (new_sensor id type)).2 true).map
          (fun p => p.2) = some dt.max_sample_rate) ∧
    (∀ sensor1,
      default_sample_rate (qcom_smgr_request_single_sensor_info env (new_sensor id type)).2 =
        some sensor1 →
      qcom_smgr_request_buffering_req sensor1 true =
        qcom_smgr_request_buffering_req
          (qcom_smgr_request_single_sensor_info env (new_sensor id type)).2 true) := by
  obtain ⟨rest, hrest⟩ := data_types_0_some _ dt hdt
  have hst := request_single_sensor_info_stored env id type (dt :: rest) hrest dt
    (List.mem_cons_self dt rest)
  have hrate := request_buffering_req_stored _ dt hdt hst
  refine ⟨?_, ?_, ?_, ?_⟩
  · intro rates hr
    obtain ⟨hc, hne⟩ := hst rates hr
    have : rates.length ≠ 0 := fun h0 => hne (List.length_eq_zero.mp h0)
    omega
  · intro last hlast h0
    rw [hrate, hlast]
    simp [h0]
  · intro h
    rw [hrate]
    rcases h with h | h
    · rw [h]
      simp
    · rw [h]
      simp
  · intro sensor1 h1
    unfold default_sample_rate at h1
    split at h1
    · rw [← Option.some.inj h1]
    · rw [hrest] at h1
      simp only [Option.some.injEq] at h1
      rw [← h1]
      exact request_buffering_req_cur _ dt rest dt.max_sample_rate true hrest

/-- Witness of C23: the metadata answer with native rates [50, 100, 200] and
maximum rate 150 stores a first item for which the rate chosen is
min 200 150 = 150. -/
theorem rate_selection_data_model_witness :
    data_types_0 (qcom_smgr_request_single_sensor_info single_info_accel
        (new_sensor 0x12 qcom_smgr_sensor_type.SNS_SMGR_SENSOR_TYPE_ACCEL)).2 =
      some { name := "accel", vendor := "vendor", range := 65536,
             native_sample_rate_count := 3, native_sample_rates := some [50, 100, 200],
             max_sample_rate := 150, cur_sample_rate := 0 } ∧
    (qcom_smgr_request_buffering_req
      (qcom_smgr_request_single_sensor_info single_info_accel
        (new_sensor 0x12 qcom_smgr_sensor_type.SNS_SMGR_SENSOR_TYPE_ACCEL)).2 true).map
        (fun p => p.2) = some (min 200 150) :=
  ⟨by decide,
   (rate_selection_data_model single_info_accel 0x12
     qcom_smgr_sensor_type.SNS_SMGR_SENSOR_TYPE_ACCEL
     { name := "accel", vendor := "vendor", range := 65536,
       native_sample_rate_count := 3, native_sample_rates := some [50, 100, 200],
       max_sample_rate := 150, cur_sample_rate := 0 } (by decide)).2.1 200 (by decide)
     (by decide)⟩

end QcomSmgr
namespace QcomFg

/-! ## Fuel gauge: facts about the capacity -/

set_option maxRecDepth 100000 in
/-- The capacity computed from a byte lies between 1 and 99. -/
theorem capacity_bounds : ∀ c : Nat, c < 256 →
    1 ≤ DIV_ROUND_CLOSEST (((c : Int) - 1) * 98) (0xff - 2) + 1 ∧
    DIV_ROUND_CLOSEST (((c : Int) - 1) * 98) (0xff - 2) + 1 ≤ 99 := by
  decide

set_option maxRecDepth 100000 in
/-- The capacity computed from a byte does not decrease when the byte grows by one. -/
theorem capacity_step : ∀ c : Nat, c < 255 →
    DIV_ROUND_CLOSEST (((c : Int) - 1) * 98) (0xff - 2) + 1 ≤
      DIV_ROUND_CLOSEST ((((c + 1 : Nat) : Int) - 1) * 98) (0xff - 2) + 1 := by
  decide

/-- The capacity computed from a byte does not decrease when the byte grows. -/
theorem capacity_mono (m n : Nat) (hmn : m ≤ n) (hn : n < 256) :
    DIV_ROUND_CLOSEST (((m : Int) - 1) * 98) (0xff - 2) + 1 ≤
      DIV_ROUND_CLOSEST (((n : Int) - 1) * 98) (0xff - 2) + 1 := by
  induction n with
  | zero =>
    have : m = 0 := by omega
    subst this
    exact le_refl _
  | succ k ih =>
    by_cases hk : m ≤ k
    · exact le_trans (ih hk (by omega)) (capacity_step k (by omega))
    · have : m = k + 1 := by omega
      subst this
      exact le_refl _

/-- An element of a buffer of u8 is below 256. -/
theorem u8_at_lt (buf : List Nat) (i : Nat) : u8_at buf i < 256 := by
  unfold u8_at
  exact Nat.mod_lt _ (by decide)

/-- The two outcomes of `qcom_fg_get_capacity`: the failed read, which stores
nothing, and the capacity computed from the smaller of the two bytes. -/
theorem get_capacity_cases (chip : qcom_fg_chip) :
    ((qcom_fg_read chip BATT_MONOTONIC_SOC 2).1 ≠ 0 ∧
      qcom_fg_get_capacity chip = ((qcom_fg_read chip BATT_MONOTONIC_SOC 2).1, none)) ∨
    ((qcom_fg_read chip BATT_MONOTONIC_SOC 2).1 = 0 ∧
      qcom_fg_get_capacity chip =
        (0, some (DIV_ROUND_CLOSEST
          ((((min (u8_at (qcom_fg_read chip BATT_MONOTONIC_SOC 2).2 0)
                  (u8_at (qcom_fg_read chip BATT_MONOTONIC_SOC 2).2 1) : Nat) : Int) - 1) * 98)
          (0xff - 2) + 1))) := by
  by_cases h : (qcom_fg_read chip BATT_MONOTONIC_SOC 2).1 ≠ 0
  · left
    refine ⟨h, ?_⟩
    simp only [qcom_fg_get_capacity]
    rw [if_pos h]
  · right
    refine ⟨not_not.mp h, ?_⟩
    simp only [qcom_fg_get_capacity]
    rw [if_neg h]
    by_cases hne : u8_at (qcom_fg_read chip BATT_MONOTONIC_SOC 2).2 0 ≠
        u8_at (qcom_fg_read chip BATT_MONOTONIC_SOC 2).2 1
    · rw [if_pos hne]
      by_cases hlt : u8_at (qcom_fg_read chip BATT_MONOTONIC_SOC 2).2 0 <
          u8_at (qcom_fg_read chip BATT_MONOTONIC_SOC 2).2 1
      · rw [if_pos hlt, Nat.min_eq_left (Nat.le_of_lt hlt)]
      · rw [if_neg hlt, Nat.min_eq_right (Nat.le_of_not_lt hlt)]
    · rw [if_neg hne, not_not.mp hne, Nat.min_self]

/-- The capacity stored by `qcom_fg_get_capacity` is never 100. -/
theorem get_capacity_ne_100 (chip : qcom_fg_chip) (ret : Int) (temp : Int)
    (h : qcom_fg_get_capacity chip = (ret, some temp)) : 1 ≤ temp ∧ temp ≤ 99 := by
  rcases get_capacity_cases chip with ⟨_, h1⟩ | ⟨_, h1⟩
  · rw [h1] at h
    simp at h
  · rw [h1] at h
    simp only [Prod.mk.injEq, Option.some.injEq] at h
    rw [← h.2]
    exact capacity_bounds _ (Nat.lt_of_le_of_lt (Nat.min_le_left _ _) (u8_at_lt _ 0))

/-- Without a charger status the status reported is never `FULL`. -/
theorem get_property_status_fallback (chip : qcom_fg_chip)
    (hfb : chip.chg_psy = false ∨ chip.status = POWER_SUPPLY_STATUS_UNKNOWN) :
    (qcom_fg_get_property_status chip).2 ≠ POWER_SUPPLY_STATUS_FULL := by
  have hcond : ¬ (chip.chg_psy = true ∧ chip.status ≠ POWER_SUPPLY_STATUS_UNKNOWN) := by
    rintro ⟨h1, h2⟩
    rcases hfb with h | h
    · rw [h] at h1
      exact absurd h1 (by decide)
    · exact h2 h
  have hU : POWER_SUPPLY_STATUS_UNKNOWN ≠ POWER_SUPPLY_STATUS_FULL := by decide
  have hC : POWER_SUPPLY_STATUS_CHARGING ≠ POWER_SUPPLY_STATUS_FULL := by decide
  have hD : POWER_SUPPLY_STATUS_DISCHARGING ≠ POWER_SUPPLY_STATUS_FULL := by decide
  have hN : POWER_SUPPLY_STATUS_NOT_CHARGING ≠ POWER_SUPPLY_STATUS_FULL := by decide
  unfold qcom_fg_get_property_status
  rw [if_neg hcond]
  split
  · exact hU
  · rename_i ret temp hcap
    have hb := get_capacity_ne_100 chip ret temp hcap
    split
    · exact hU
    · split
      · omega
      · split
        · exact hU
        · split
          · exact hU
          · split
            · exact hC
            · split
              · exact hD
              · exact hN

end QcomFg
namespace QcomFg

/-! ## Fuel gauge: the capacity claim -/

/-- C30, fuel-gauge capacity range.  For every pair of bytes `b0`, `b1` that
the read of `BATT_MONOTONIC_SOC` returns, `qcom_fg_get_capacity` returns 0 and
stores `DIV_ROUND_CLOSEST((min(b0, b1) - 1) * 98, 253) + 1`; that value lies
between 1 and 99 and is never 100, and it does not decrease when the smaller
byte grows.  So for every chip without a charger status, the status derived
from the capacity and the current is never `POWER_SUPPLY_STATUS_FULL`. -/
theorem fuel_gauge_capacity_range (chip : qcom_fg_chip) (b0 b1 : Nat) (hb0 : b0 < 256)
    (hb1 : b1 < 256) (hread : qcom_fg_read chip BATT_MONOTONIC_SOC 2 = (0, [b0, b1])) :
    qcom_fg_get_capacity chip =
      (0, some (DIV_ROUND_CLOSEST ((((min b0 b1 : Nat) : Int) - 1) * 98) 253 + 1)) ∧
    1 ≤ DIV_ROUND_CLOSEST ((((min b0 b1 : Nat) : Int) - 1) * 98) 253 + 1 ∧
    DIV_ROUND_CLOSEST ((((min b0 b1 : Nat) : Int) - 1) * 98) 253 + 1 ≤ 99 ∧
    DIV_ROUND_CLOSEST ((((min b0 b1 : Nat) : Int) - 1) * 98) 253 + 1 ≠ 100 ∧
    (∀ m n : Nat, m ≤ n → n < 256 →
      DIV_ROUND_CLOSEST (((m : Int) - 1) * 98) 253 + 1 ≤
        DIV_ROUND_CLOSEST (((n : Int) - 1) * 98) 253 + 1) ∧
    (∀ chip2 : qcom_fg_chip,
      chip2.chg_psy = false ∨ chip2.status = POWER_SUPPLY_STATUS_UNKNOWN →
      (qcom_fg_get_property_status chip2).2 ≠ POWER_SUPPLY_STATUS_FULL) := by
  have hmin : min b0 b1 < 256 := Nat.lt_of_le_of_lt (Nat.min_le_left _ _) hb0
  have hrange := capacity_bounds (min b0 b1) hmin
  have h0 : u8_at [b0, b1] 0 = b0 := by
    simp only [u8_at, List.getD_cons_zero]
    exact Nat.mod_eq_of_lt hb0
  have h1 : u8_at [b0, b1] 1 = b1 := by
    simp only [u8_at, List.getD_cons_succ, List.getD_cons_zero]
    exact Nat.mod_eq_of_lt hb1
  refine ⟨?_, hrange.1, hrange.2, ?_, ?_, ?_⟩
  · rcases get_capacity_cases chip with ⟨hne, _⟩ | ⟨_, hc⟩
    · rw [hread] at hne
      exact absurd rfl hne
    · rw [hc, hread]
      dsimp only
      rw [h0, h1]
      rfl
  · have h99 : DIV_ROUND_CLOSEST ((((min b0 b1 : Nat) : Int) - 1) * 98) 253 + 1 ≤ 99 :=
      hrange.2
    intro h100
    rw [h100] at h99
    exact absurd h99 (by decide)
  · intro m n hmn hn
    exact capacity_mono m n hmn hn
  · intro chip2 hfb
    exact get_property_status_fallback chip2 hfb

/-- Witness of C30: a chip whose two bytes both read 200 reports the
capacity 78. -/
theorem fuel_gauge_capacity_range_witness :
    ((200 < 256) ∧ qcom_fg_read chip_200 BATT_MONOTONIC_SOC 2 = (0, [200, 200])) ∧
    qcom_fg_get_capacity chip_200 = (0, some 78) :=
  ⟨⟨by decide, by decide⟩,
   (fuel_gauge_capacity_range chip_200 200 200 (by decide) (by decide) (by decide)).1⟩

end QcomFg
namespace QcomSmgr

/-! ## Sensor manager client: sensors registered without a data type -/

/-- C24, metadata completeness of exposed sensors: the code departs from it.
A metadata answer whose `data_type_len` is 0 is a successful query: it returns
0 and stores an array of zero items.  The enrollment pass on an inventory of
two sensors answered that way returns 0 and registers both sensors, each with
`data_type_count` 0 and no first item, so enabling buffering on such a sensor,
or writing its sampling frequency, reads `data_types[0]` outside the array. -/
theorem registered_without_data_type :
    qcom_smgr_request_single_sensor_info single_info_no_data_type
        (new_sensor 0x12 qcom_smgr_sensor_type.SNS_SMGR_SENSOR_TYPE_ACCEL) =
      (0, sensor_no_data_type 0x12 qcom_smgr_sensor_type.SNS_SMGR_SENSOR_TYPE_ACCEL) ∧
    (qcom_smgr_probe probe_env_no_data_type).map (fun r => (r.1, r.2.2)) =
      some (0,
        [smgr_call.request_all_sensor_info,
         smgr_call.request_single_sensor_info 0x12,
         smgr_call.register_sensor
           (sensor_no_data_type 0x12 qcom_smgr_sensor_type.SNS_SMGR_SENSOR_TYPE_ACCEL),
         smgr_call.request_single_sensor_info 0x14,
         smgr_call.register_sensor
           (sensor_no_data_type 0x14 qcom_smgr_sensor_type.SNS_SMGR_SENSOR_TYPE_GYRO)]) ∧
    (sensor_no_data_type 0x12 qcom_smgr_sensor_type.SNS_SMGR_SENSOR_TYPE_ACCEL).data_type_count
      = 0 ∧
    data_types_0 (sensor_no_data_type 0x12 qcom_smgr_sensor_type.SNS_SMGR_SENSOR_TYPE_ACCEL) =
      none ∧
    qcom_smgr_request_buffering txn_success
      (sensor_no_data_type 0x12 qcom_smgr_sensor_type.SNS_SMGR_SENSOR_TYPE_ACCEL) true = none ∧
    qcom_smgr_iio_write_raw txn_success false
      (sensor_no_data_type 0x12 qcom_smgr_sensor_type.SNS_SMGR_SENSOR_TYPE_ACCEL) 100 0
      iio_chan_info_enum.IIO_CHAN_INFO_SAMP_FREQ = none := by
  refine ⟨by decide, by decide, by decide, by decide, by decide, by decide⟩

end QcomSmgr

namespace QcomSnsReg

/-! ## Registry server: a published session without firmware -/

/-- C25, published implies firmware loaded: the code departs from it.  On an
ADSP platform whose processor is up, a first attach in which
`qmi_handle_init` fails releases the blob and the notifier in the cleanup of
`qcom_sns_reg_probe_once`, returns the error, and still runs
`qcom_sns_reg_maybe_start`, which registers the server: the session left is
published with `fw` NULL.  The same happens when no firmware file exists.  A
group fetch on that session is answered with the failure result. -/
theorem published_without_firmware :
    qcom_sns_reg_probe env_adsp_handle_init_fails 3 none =
      (-12, some session_published_no_firmware,
        [sns_reg_call.request_firmware "qcom/sensors/sns.reg-xiaomi,rosy",
         sns_reg_call.request_firmware "qcom/sensors/sns.reg",
         sns_reg_call.qcom_register_ssr_notifier "lpass",
         sns_reg_call.qmi_handle_init (-12),
         sns_reg_call.release_firmware (some blob_tiny),
         sns_reg_call.qcom_unregister_ssr_notifier (some 7),
         sns_reg_call.qmi_add_server 0]) ∧
    (sns_reg_run none [sns_reg_op.probe env_adsp_handle_init_fails 3]).map (fun r => r.1) =
      some (some session_published_no_firmware) ∧
    qcom_sns_reg_probe env_adsp_no_firmware 3 none =
      (-2, some session_published_no_firmware,
        [sns_reg_call.request_firmware "qcom/sensors/sns.reg-xiaomi,rosy",
         sns_reg_call.request_firmware "qcom/sensors/sns.reg",
         sns_reg_call.qmi_add_server 0]) ∧
    session_published_no_firmware.qmi_svc_started = true ∧
    session_published_no_firmware.fw = none ∧
    (qcom_sns_reg_get_group_req_handler true session_published_no_firmware ⟨0⟩).map
        (fun r => r.sent.map (fun rsp => rsp.result)) =
      some [qmi_result_type_v01.QMI_RESULT_FAILURE_V01] := by
  refine ⟨by decide, by decide, by decide, rfl, rfl, by decide⟩

end QcomSnsReg
